import Mathlib

/-!
# litmus-mcp-server: protocol engine, tool registry and handlers

A shallow embedding of `src/main.go` and `src/handlers.go`.

* Decoded JSON (`interface{}` after `json.Unmarshal`) is the inductive type `JSON`.
  A JSON number is the rational value of the `float64` it decodes to. The same type gives
  the content of a raw message (`json.RawMessage`); there a number literal outside the
  range of `float64`, which decodes to nothing, is kept as its text (`JSON.bigNum`).
* A Go `map[string]interface{}` is `GoMap`: `none` is the nil map, `some kvs` a map
  given by its member list, in which a later member overrides an earlier one with the
  same key (the decoder's rule for repeated keys, and the effect of `m[k] = v`).
* A Go call that may return an error or panic yields an `Outcome`.
* The remote service, the text-level functions of `encoding/json`, `fmt` and `strings`,
  and the order in which goroutine messages are received are fields of the server
  model (`LitmusChaosServer.httpClient`, `LitmusChaosServer.rt`).
-/

set_option autoImplicit false

namespace LitmusMCP

/-! ## Decoded JSON values -/

/-- A decoded JSON value, the dynamic content of a Go `interface{}`:
`null` is the nil interface, `num` a `float64`, `arr` a `[]interface{}` and
`obj` a non-nil `map[string]interface{}`. In a raw message, `bigNum` is a number literal
outside the range of `float64`, given by its text: `strconv.ParseFloat` rejects it, so no
decoded value holds one. -/
inductive JSON where
  | null
  | bool (b : Bool)
  | num (q : ℚ)
  | str (s : String)
  | arr (xs : List JSON)
  | obj (kvs : List (String × JSON))
  | bigNum (literal : String)

instance : Inhabited JSON := ⟨JSON.null⟩

/-- The member a key denotes in a member list: the last one with that key. -/
def lookupMember (key : String) : List (String × JSON) → Option JSON
  | [] => none
  | (k, v) :: rest =>
    match lookupMember key rest with
    | some w => some w
    | none => if k = key then some v else none

/-- A Go `map[string]interface{}`: `none` is the nil map. -/
abbrev GoMap := Option (List (String × JSON))

/-- A Go `[]interface{}`: `none` is the nil slice. -/
abbrev GoSlice := Option (List JSON)

/-- The two-valued index expression `val, ok := m[key]`: `none` is `ok = false`.
Reading a nil map finds nothing. -/
def mapLookup (m : GoMap) (key : String) : Option JSON :=
  match m with
  | none => none
  | some kvs => lookupMember key kvs

/-- The one-valued index expression `m[key]`: the nil interface when the key is missing. -/
def mapIndex (m : GoMap) (key : String) : JSON :=
  (mapLookup m key).getD JSON.null

/-- The assignment `m[key] = v` on a member list: the old binding goes, the new one is added. -/
def mapSet (kvs : List (String × JSON)) (key : String) (v : JSON) : List (String × JSON) :=
  kvs.filter (fun p => p.1 ≠ key) ++ [(key, v)]

/-- The value `interface{}` holds when a `map[string]interface{}` variable is stored in it
and marshalled: a nil map is written as `null`. -/
def GoMap.toJSON (m : GoMap) : JSON :=
  match m with
  | none => JSON.null
  | some kvs => JSON.obj kvs

/-- A `[]interface{}` (or `[]map[string]interface{}`) variable as marshalled: a nil slice
is written as `null`. -/
def GoSlice.toJSON (s : GoSlice) : JSON :=
  match s with
  | none => JSON.null
  | some xs => JSON.arr xs

/-- A Go `int` as marshalled. -/
def JSON.ofInt (n : Int) : JSON := JSON.num (n : ℚ)

/-- A Go `[]string` as marshalled. -/
def JSON.ofStrings (xs : List String) : JSON := JSON.arr (xs.map JSON.str)

/-! ## Numbers -/

/-- The smallest `int` (64 bit). -/
def minInt : Int := -(2 ^ 63)

/-- The largest `int` (64 bit). -/
def maxInt : Int := 2 ^ 63 - 1

/-- The fraction of a rational discarded, towards zero. -/
def truncate (q : ℚ) : Int := Int.tdiv q.num q.den

/-- The conversion `int(num)` of a `float64`: the fraction is discarded (truncation towards
zero). Out of the range of `int` the language leaves the result to the implementation; the
model takes the amd64 result, the smallest `int`. -/
def float64ToInt (q : ℚ) : Int :=
  if minInt ≤ truncate q ∧ truncate q ≤ maxInt then truncate q else minInt

/-! ## handlers.go: utility functions for type conversion -/

/-- The accessor `getStringFromArgs(args, key, defaultValue)`. -/
def getStringFromArgs (args : GoMap) (key : String) (defaultValue : String) : String :=
  match mapLookup args key with
  | some (JSON.str str) => str
  | _ => defaultValue

/-- The accessor `getIntFromArgs(args, key, defaultValue)`. -/
def getIntFromArgs (args : GoMap) (key : String) (defaultValue : Int) : Int :=
  match mapLookup args key with
  | some (JSON.num num) => float64ToInt num
  | _ => defaultValue

/-- The accessor `getBoolFromArgs(args, key, defaultValue)`. -/
def getBoolFromArgs (args : GoMap) (key : String) (defaultValue : Bool) : Bool :=
  match mapLookup args key with
  | some (JSON.bool b) => b
  | _ => defaultValue

/-- The accessor `getMapFromArgs(args, key)`; `none` is the nil map. -/
def getMapFromArgs (args : GoMap) (key : String) : GoMap :=
  match mapLookup args key with
  | some (JSON.obj m) => some m
  | _ => none

/-- The accessor `getSliceFromArgs(args, key)`; `none` is the nil slice. -/
def getSliceFromArgs (args : GoMap) (key : String) : GoSlice :=
  match mapLookup args key with
  | some (JSON.arr s) => some s
  | _ => none

/-- The nested lookup `getNestedString(obj, keys...)`: the loop over `keys`, the last key
read as a string and every earlier one as an object. -/
def getNestedString (obj : GoMap) : List String → String
  | [] => ""
  | [key] =>
    match mapLookup obj key with
    | some (JSON.str str) => str
    | _ => ""
  | key :: rest =>
    match mapIndex obj key with
    | JSON.obj next => getNestedString (some next) rest
    | _ => ""

/-! ## main.go: protocol, tool and GraphQL types -/

/-- A `json.RawMessage`: `none` is the nil (empty) message of an absent member, `some j`
the raw text of the JSON value `j` (`some JSON.null` is the text `null`). -/
abbrev RawMessage := Option JSON

/-- The request envelope `MCPRequest`. `ID` is `JSON.null` when the member is absent or null. -/
structure MCPRequest where
  JSONRPC : String
  ID : JSON
  Method : String
  Params : RawMessage

/-- The error object `MCPError`. -/
structure MCPError where
  Code : Int
  Message : String

/-- The content item `ContentItem`. -/
structure ContentItem where
  Type_ : String
  Text : String

/-- The tool result `ToolResult`. -/
structure ToolResult where
  Content : List ContentItem

/-- The tool descriptor `Tool`. -/
structure Tool where
  Name : String
  Description : String
  InputSchema : JSON

/-- What `MCPResponse.Result` (an `interface{}`) holds when it is set. -/
inductive ResultPayload where
  /-- the map returned by `handleInitialize` -/
  | serverInfo (doc : JSON)
  /-- the map `{"tools": getTools()}` returned by `handleListTools` -/
  | toolList (tools : List Tool)
  /-- the non-nil `*ToolResult` returned by `handleCallTool` -/
  | toolResult (result : ToolResult)

/-- The response envelope `MCPResponse`; `none` is a nil `Result` or `Error`, which
`omitempty` leaves out of the line. -/
structure MCPResponse where
  JSONRPC : String
  ID : JSON
  Result : Option ResultPayload
  Error : Option MCPError

/-- The request body `GraphQLRequest`. The static operation texts are identified by their
operation names. -/
structure GraphQLRequest where
  Query : String
  Variables : List (String × JSON)

/-- One entry `GraphQLError` of the error list. -/
structure GraphQLError where
  Message : String

/-- The decoded response envelope `GraphQLResponse`. -/
structure GraphQLResponse where
  Data : RawMessage
  Errors : List GraphQLError

/-- The configuration `LitmusConfig`. -/
structure LitmusConfig where
  ChaoscenterEndpoint : String
  ProjectID : String
  AccessToken : String
  DefaultInfraID : String
  DefaultEnvironmentID : String

/-! ## Outcomes of Go code -/

/-- How a Go call ends: it returns a value, returns an error, or panics. -/
inductive Outcome (α : Type) where
  | ok (a : α)
  | error (msg : String)
  | panic (msg : String)

/-- Sequencing: an error or a panic ends the function body. -/
def Outcome.bind {α β : Type} (x : Outcome α) (f : α → Outcome β) : Outcome β :=
  match x with
  | Outcome.ok a => f a
  | Outcome.error msg => Outcome.error msg
  | Outcome.panic msg => Outcome.panic msg

instance : Monad Outcome where
  pure := Outcome.ok
  bind := Outcome.bind

/-- A `for ... range` loop that builds one element per entry, ended by the first panic. -/
def forRange {α β : Type} (f : α → Outcome β) : List α → Outcome (List β)
  | [] => Outcome.ok []
  | x :: xs =>
    match f x with
    | Outcome.ok y =>
      match forRange f xs with
      | Outcome.ok ys => Outcome.ok (y :: ys)
      | Outcome.error msg => Outcome.error msg
      | Outcome.panic msg => Outcome.panic msg
    | Outcome.error msg => Outcome.error msg
    | Outcome.panic msg => Outcome.panic msg

/-- The dynamic type of an `interface{}` as a panic message names it. -/
def goTypeName : JSON → String
  | JSON.null => "nil"
  | JSON.bool _ => "bool"
  | JSON.num _ => "float64"
  | JSON.bigNum _ => "float64"
  | JSON.str _ => "string"
  | JSON.arr _ => "[]interface {}"
  | JSON.obj _ => "map[string]interface {}"

/-- The message of a failed one-valued type assertion. -/
def conversionPanic (v : JSON) (want : String) : String :=
  "interface conversion: interface {} is " ++ goTypeName v ++ ", not " ++ want

/-- The assertion `v.(map[string]interface{})`, which panics on any other value. -/
def assertMap (v : JSON) : Outcome GoMap :=
  match v with
  | JSON.obj kvs => Outcome.ok (some kvs)
  | other => Outcome.panic (conversionPanic other "map[string]interface {}")

/-- The assertion `v.([]interface{})`, which panics on any other value. -/
def assertSlice (v : JSON) : Outcome (List JSON) :=
  match v with
  | JSON.arr xs => Outcome.ok xs
  | other => Outcome.panic (conversionPanic other "[]interface {}")

/-- The assertion `v.(bool)`, which panics on any other value. -/
def assertBool (v : JSON) : Outcome Bool :=
  match v with
  | JSON.bool b => Outcome.ok b
  | other => Outcome.panic (conversionPanic other "bool")

/-- The assertion `v.(string)`, which panics on any other value. -/
def assertString (v : JSON) : Outcome String :=
  match v with
  | JSON.str s => Outcome.ok s
  | other => Outcome.panic (conversionPanic other "string")

/-! ## encoding/json as the program uses it -/

/-- How `UnmarshalTypeError` names the JSON value it met. -/
def jsonKind : JSON → String
  | JSON.null => "null"
  | JSON.bool _ => "bool"
  | JSON.num _ => "number"
  | JSON.bigNum _ => "number"
  | JSON.str _ => "string"
  | JSON.arr _ => "array"
  | JSON.obj _ => "object"

/-- The text of `UnmarshalTypeError` for a value decoded at top level. -/
def unmarshalTypeError (v : JSON) (goType : String) : String :=
  "json: cannot unmarshal " ++ jsonKind v ++ " into Go value of type " ++ goType

/-- The text of the syntax error for an empty input. -/
def unexpectedEnd : String := "unexpected end of JSON input"

mutual
/-- The first number literal outside the range of `float64` in a raw value, in the order
of the text. -/
def JSON.firstBigNum : JSON → Option String
  | JSON.bigNum literal => some literal
  | JSON.arr xs => firstBigNumOfList xs
  | JSON.obj kvs => firstBigNumOfMembers kvs
  | _ => none
/-- The first number literal outside the range of `float64` in the elements of an array. -/
def firstBigNumOfList : List JSON → Option String
  | [] => none
  | x :: xs =>
    match x.firstBigNum with
    | some literal => some literal
    | none => firstBigNumOfList xs
/-- The first number literal outside the range of `float64` in the members of an object. -/
def firstBigNumOfMembers : List (String × JSON) → Option String
  | [] => none
  | (_, v) :: rest =>
    match v.firstBigNum with
    | some literal => some literal
    | none => firstBigNumOfMembers rest
end

/-- The text of the `UnmarshalTypeError` the decoder saves for a number literal that
`strconv.ParseFloat` rejects as out of range. -/
def numberRangeError (literal : String) : String :=
  "json: cannot unmarshal number " ++ literal ++ " into Go value of type float64"

/-- The call `json.Unmarshal(data, &m)` with `m` a nil `map[string]interface{}`: an empty
message is a syntax error, `null` leaves the map nil, an object fills it, and any other
value is a type error. While an object is decoded, the first number literal outside the
range of `float64` is saved as an error, which the call returns at its end. -/
def unmarshalMap (data : RawMessage) : Except String GoMap :=
  match data with
  | none => Except.error unexpectedEnd
  | some JSON.null => Except.ok none
  | some (JSON.obj kvs) =>
    match firstBigNumOfMembers kvs with
    | some literal => Except.error (numberRangeError literal)
    | none => Except.ok (some kvs)
  | some other => Except.error (unmarshalTypeError other "map[string]interface {}")

/-- The same call inside a handler, where the error is returned to the caller. -/
def decodeData (data : RawMessage) : Outcome GoMap :=
  match unmarshalMap data with
  | Except.ok m => Outcome.ok m
  | Except.error msg => Outcome.error msg

/-! ## The server and its environment -/

/-- The three remote calls of `getExperimentStatistics`, one per goroutine. -/
inductive StatsCall where
  | expStats
  | runStats
  | infraStats

/-- The order in which the collecting `select` of `getExperimentStatistics` receives the
messages of the three goroutines: each goroutine sends exactly one message, so the three
receptions take them in one of six orders. -/
inductive RecvOrder where
  | expRunInfra
  | expInfraRun
  | runExpInfra
  | runInfraExp
  | infraExpRun
  | infraRunExp

/-- The receptions of a `RecvOrder`, first to last. -/
def RecvOrder.toList : RecvOrder → List StatsCall
  | RecvOrder.expRunInfra => [StatsCall.expStats, StatsCall.runStats, StatsCall.infraStats]
  | RecvOrder.expInfraRun => [StatsCall.expStats, StatsCall.infraStats, StatsCall.runStats]
  | RecvOrder.runExpInfra => [StatsCall.runStats, StatsCall.expStats, StatsCall.infraStats]
  | RecvOrder.runInfraExp => [StatsCall.runStats, StatsCall.infraStats, StatsCall.expStats]
  | RecvOrder.infraExpRun => [StatsCall.infraStats, StatsCall.expStats, StatsCall.runStats]
  | RecvOrder.infraRunExp => [StatsCall.infraStats, StatsCall.runStats, StatsCall.expStats]

/-- What the program takes from its run-time environment besides the remote service:
text-level library functions and the scheduling of the statistics goroutines. -/
structure Runtime where
  /-- the text `json.MarshalIndent(v, "", "  ")` gives (empty when it fails) -/
  marshalIndent : JSON → String
  /-- the text `fmt.Sprintf("%v", v)` gives -/
  sprintV : JSON → String
  /-- the function `strings.ToLower` -/
  toLower : String → String
  /-- the call `json.Unmarshal([]byte(text), &v)` with `v` an `interface{}`: `none` when it fails -/
  unmarshalText : String → Option JSON
  /-- the call `json.Unmarshal([]byte(line), &req)` of the main loop: `none` when it fails -/
  unmarshalLine : String → Option MCPRequest
  /-- the order of reception in `getExperimentStatistics` -/
  recvOrder : RecvOrder

/-- The HTTP request `graphqlRequest` builds. -/
structure HttpRequest where
  method : String
  url : String
  contentType : String
  authorization : Option String
  body : GraphQLRequest

/-- What becomes of an HTTP request, up to the decoding of the response envelope. -/
inductive HttpReply where
  /-- the call `http.NewRequestWithContext` fails -/
  | requestError (cause : String)
  /-- the call `s.httpClient.Do` fails (timeout, transport) -/
  | transportError (cause : String)
  /-- the call `io.ReadAll` fails -/
  | readError (cause : String)
  /-- the body does not decode as a `GraphQLResponse` -/
  | undecodable (cause : String)
  /-- the body decodes to this envelope -/
  | envelope (resp : GraphQLResponse)

/-- The server `LitmusChaosServer`: its configuration, the remote service as seen through
`httpClient` (with its 30 s timeout), and the run-time environment. -/
structure LitmusChaosServer where
  config : LitmusConfig
  httpClient : HttpRequest → HttpReply
  rt : Runtime

/-- The helper `getEnvOrDefault(key, defaultValue)` over an environment `getenv`. -/
def getEnvOrDefault (getenv : String → String) (key defaultValue : String) : String :=
  if getenv key ≠ "" then getenv key else defaultValue

/-- The constructor `NewLitmusChaosServer()`: `none` when `log.Fatal` ends the process
because `LITMUS_PROJECT_ID` is not set. -/
def NewLitmusChaosServer (getenv : String → String) (httpClient : HttpRequest → HttpReply)
    (rt : Runtime) : Option LitmusChaosServer :=
  let config : LitmusConfig := {
    ChaoscenterEndpoint := getEnvOrDefault getenv "CHAOS_CENTER_ENDPOINT" "http://localhost:8080"
    ProjectID := getenv "LITMUS_PROJECT_ID"
    AccessToken := getenv "LITMUS_ACCESS_TOKEN"
    DefaultInfraID := getenv "DEFAULT_INFRA_ID"
    DefaultEnvironmentID := getEnvOrDefault getenv "DEFAULT_ENVIRONMENT_ID" "production" }
  if config.ProjectID = "" then none
  else some { config := config, httpClient := httpClient, rt := rt }

/-! ## main.go: GraphQL request helper -/

/-- The body `graphqlRequest` sends: a nil variable set is created, and `projectID` is set
to the configured project. -/
def graphqlRequestBody (s : LitmusChaosServer) (query : String) (vars : GoMap) :
    GraphQLRequest :=
  { Query := query
    Variables := mapSet (vars.getD []) "projectID" (JSON.str s.config.ProjectID) }

/-- The HTTP request `graphqlRequest` sends. -/
def graphqlHttpRequest (s : LitmusChaosServer) (body : GraphQLRequest) : HttpRequest :=
  { method := "POST"
    url := s.config.ChaoscenterEndpoint ++ "/query"
    contentType := "application/json"
    authorization :=
      if s.config.AccessToken ≠ "" then some ("Bearer " ++ s.config.AccessToken) else none
    body := body }

/-- The helper `graphqlRequest(ctx, query, variables)`: the raw data, or the error.
(`json.Marshal` of the body cannot fail on the values the handlers build.) -/
def graphqlRequest (s : LitmusChaosServer) (query : String) (vars : GoMap) :
    Except String RawMessage :=
  match s.httpClient (graphqlHttpRequest s (graphqlRequestBody s query vars)) with
  | HttpReply.requestError cause => Except.error ("failed to create request: " ++ cause)
  | HttpReply.transportError cause => Except.error ("failed to execute request: " ++ cause)
  | HttpReply.readError cause => Except.error ("failed to read response: " ++ cause)
  | HttpReply.undecodable cause => Except.error ("failed to unmarshal response: " ++ cause)
  | HttpReply.envelope gqlResp =>
    if gqlResp.Errors.length > 0 then
      Except.error ("GraphQL errors: " ++ ", ".intercalate (gqlResp.Errors.map (fun e => e.Message)))
    else Except.ok gqlResp.Data

/-! ## handlers.go: tool handler implementations -/

/-- What a handler call does: its invocations of `graphqlRequest`, in order, each given by
the request body it builds, and how the handler ends. -/
structure Run where
  calls : List GraphQLRequest
  out : Outcome ToolResult

/-- A handler that returns an error before any remote call. -/
def Run.fail (msg : String) : Run := { calls := [], out := Outcome.error msg }

/-- The result every handler returns on success: one `text` item holding
`json.MarshalIndent(response, "", "  ")`. -/
def textResult (s : LitmusChaosServer) (response : JSON) : ToolResult :=
  { Content := [{ Type_ := "text", Text := s.rt.marshalIndent response }] }

/-- The common body of the handlers with one remote call: `graphqlRequest`, return its
error, decode the data into a map, return the decoding error, then reshape. -/
def singleCall (s : LitmusChaosServer) (query : String) (vars : GoMap)
    (reshape : GoMap → Outcome ToolResult) : Run :=
  { calls := [graphqlRequestBody s query vars]
    out :=
      match graphqlRequest s query vars with
      | Except.error msg => Outcome.error msg
      | Except.ok data => (decodeData data).bind reshape }

/-- The loop that turns the `tags` argument into a `[]string` with `fmt.Sprintf("%v", tag)`. -/
def tagsFromArgs (s : LitmusChaosServer) (args : GoMap) : List String :=
  match getSliceFromArgs args "tags" with
  | some tagsSlice => tagsSlice.map s.rt.sprintV
  | none => []

/-- One iteration of the loop of `listChaosExperiments`. -/
def formatExperiment (exp : JSON) : Outcome JSON := do
  let experiment ← assertMap exp
  let infrastructure ←
    match mapIndex experiment "infra" with
    | JSON.null => Outcome.ok JSON.null
    | infra => do
      let infraMap ← assertMap infra
      pure (JSON.obj [
        ("id", mapIndex infraMap "infraID"),
        ("name", mapIndex infraMap "name"),
        ("environment", mapIndex infraMap "environmentID"),
        ("active", mapIndex infraMap "isActive"),
        ("confirmed", mapIndex infraMap "isInfraConfirmed"),
        ("platform", mapIndex infraMap "platformName")])
  let recentRun ←
    match mapIndex experiment "recentExperimentRunDetails" with
    | JSON.null => Outcome.ok JSON.null
    | runs => do
      let runsSlice ← assertSlice runs
      match runsSlice with
      | [] => pure JSON.null
      | first :: _ => do
        let run ← assertMap first
        pure (JSON.obj [
          ("id", mapIndex run "experimentRunID"),
          ("status", mapIndex run "phase"),
          ("resiliencyScore", mapIndex run "resiliencyScore"),
          ("lastRun", mapIndex run "updatedAt"),
          ("sequence", mapIndex run "runSequence")])
  pure (JSON.obj [
    ("id", mapIndex experiment "experimentID"),
    ("name", mapIndex experiment "name"),
    ("description", mapIndex experiment "description"),
    ("type", mapIndex experiment "experimentType"),
    ("isCustom", mapIndex experiment "isCustomExperiment"),
    ("schedule", mapIndex experiment "cronSyntax"),
    ("tags", mapIndex experiment "tags"),
    ("infrastructure", infrastructure),
    ("recentRun", recentRun),
    ("createdBy", JSON.str (getNestedString experiment ["createdBy", "username"])),
    ("createdAt", mapIndex experiment "createdAt"),
    ("updatedAt", mapIndex experiment "updatedAt")])

/-- The request variable `listChaosExperiments` builds from its arguments. -/
def listChaosExperimentsRequest (args : GoMap) : List (String × JSON) :=
  let request := [
    ("pagination", JSON.obj [
      ("page", JSON.ofInt (getIntFromArgs (getMapFromArgs args "pagination") "page" 0)),
      ("limit", JSON.ofInt (getIntFromArgs (getMapFromArgs args "pagination") "limit" 10))])]
  match getMapFromArgs args "filter" with
  | some filter => mapSet request "filter" (JSON.obj filter)
  | none => request

/-- The handler `listChaosExperiments`. -/
def listChaosExperiments (s : LitmusChaosServer) (args : GoMap) : Run :=
  let vars := [("request", JSON.obj (listChaosExperimentsRequest args))]
  singleCall s "ListExperiment" (some vars) fun result => do
    let listExperiment ← assertMap (mapIndex result "listExperiment")
    let experiments ← assertSlice (mapIndex listExperiment "experiments")
    let formattedExperiments ← forRange formatExperiment experiments
    let response := JSON.obj [
      ("summary", JSON.str ("Found " ++
        s.rt.sprintV (mapIndex listExperiment "totalNoOfExperiments") ++ " chaos experiments")),
      ("totalExperiments", mapIndex listExperiment "totalNoOfExperiments"),
      ("experiments", JSON.arr formattedExperiments)]
    pure (textResult s response)

/-- The handler `getChaosExperiment`. -/
def getChaosExperiment (s : LitmusChaosServer) (args : GoMap) : Run :=
  let experimentID := getStringFromArgs args "experimentId" ""
  if experimentID = "" then Run.fail "experimentId is required" else
  let vars := [("experimentID", JSON.str experimentID)]
  singleCall s "GetExperiment" (some vars) fun result => do
    let getExperiment ← assertMap (mapIndex result "getExperiment")
    let exp ← assertMap (mapIndex getExperiment "experimentDetails")
    let faults ←
      match mapIndex exp "weightages" with
      | JSON.null => Outcome.ok JSON.null
      | weightages => do
        let weightagesSlice ← assertSlice weightages
        let built ← forRange (fun w => do
          let weight ← assertMap w
          pure (JSON.obj [
            ("name", mapIndex weight "faultName"),
            ("weight", mapIndex weight "weightage")])) weightagesSlice
        pure (JSON.arr built)
    let infrastructure ←
      match mapIndex exp "infra" with
      | JSON.null => Outcome.ok (JSON.obj [])
      | infra => do
        let infraMap ← assertMap infra
        pure (JSON.obj [
          ("id", mapIndex infraMap "infraID"),
          ("name", mapIndex infraMap "name"),
          ("description", mapIndex infraMap "description"),
          ("environment", mapIndex infraMap "environmentID"),
          ("platform", mapIndex infraMap "platformName"),
          ("active", mapIndex infraMap "isActive"),
          ("scope", mapIndex infraMap "infraScope"),
          ("version", mapIndex infraMap "version"),
          ("totalExperiments", mapIndex infraMap "noOfExperiments"),
          ("totalRuns", mapIndex infraMap "noOfExperimentRuns")])
    let response := JSON.obj [
      ("experiment", JSON.obj [
        ("id", mapIndex exp "experimentID"),
        ("name", mapIndex exp "name"),
        ("description", mapIndex exp "description"),
        ("type", mapIndex exp "experimentType"),
        ("isCustom", mapIndex exp "isCustomExperiment"),
        ("schedule", mapIndex exp "cronSyntax"),
        ("manifest", mapIndex exp "experimentManifest"),
        ("averageResiliencyScore", mapIndex getExperiment "averageResiliencyScore"),
        ("faults", faults),
        ("tags", mapIndex exp "tags"),
        ("infrastructure", infrastructure),
        ("createdBy", JSON.str (getNestedString exp ["createdBy", "username"])),
        ("updatedBy", JSON.str (getNestedString exp ["updatedBy", "username"])),
        ("createdAt", mapIndex exp "createdAt"),
        ("updatedAt", mapIndex exp "updatedAt")])]
    pure (textResult s response)

/-- The handler `runChaosExperiment`. -/
def runChaosExperiment (s : LitmusChaosServer) (args : GoMap) : Run :=
  let experimentID := getStringFromArgs args "experimentId" ""
  if experimentID = "" then Run.fail "experimentId is required" else
  let vars := [("experimentID", JSON.str experimentID)]
  singleCall s "RunChaosExperiment" (some vars) fun result => do
    let runResult ← assertMap (mapIndex result "runChaosExperiment")
    let response := JSON.obj [
      ("success", JSON.bool true),
      ("message", JSON.str "Chaos experiment started successfully"),
      ("notifyId", mapIndex runResult "notifyID"),
      ("experimentId", JSON.str experimentID)]
    pure (textResult s response)

/-- The variables `stopChaosExperiment` builds once `experimentId` is validated. -/
def stopChaosExperimentVariables (args : GoMap) (experimentID : String) : List (String × JSON) :=
  let vars := [("experimentID", JSON.str experimentID)]
  if getStringFromArgs args "experimentRunId" "" ≠ "" then
    mapSet vars "experimentRunID" (JSON.str (getStringFromArgs args "experimentRunId" ""))
  else vars

/-- The handler `stopChaosExperiment`. -/
def stopChaosExperiment (s : LitmusChaosServer) (args : GoMap) : Run :=
  let experimentID := getStringFromArgs args "experimentId" ""
  if experimentID = "" then Run.fail "experimentId is required" else
  singleCall s "StopExperimentRuns" (some (stopChaosExperimentVariables args experimentID))
    fun result => do
      let success ← assertBool (mapIndex result "stopExperimentRuns")
      let message :=
        if success then "Chaos experiment stopped successfully"
        else "Failed to stop chaos experiment"
      let response := JSON.obj [
        ("success", JSON.bool success),
        ("message", JSON.str message),
        ("experimentId", JSON.str experimentID),
        ("experimentRunId", JSON.str (getStringFromArgs args "experimentRunId" ""))]
      pure (textResult s response)

/-- The request variable `listExperimentRuns` builds from its arguments. -/
def listExperimentRunsRequest (args : GoMap) : List (String × JSON) :=
  let request := [
    ("pagination", JSON.obj [
      ("page", JSON.ofInt 0),
      ("limit", JSON.ofInt (getIntFromArgs args "limit" 20))])]
  let request :=
    if getStringFromArgs args "experimentId" "" ≠ "" then
      mapSet request "experimentIDs" (JSON.ofStrings [getStringFromArgs args "experimentId" ""])
    else request
  if getStringFromArgs args "status" "" ≠ "" then
    mapSet request "filter"
      (JSON.obj [("experimentStatus", JSON.str (getStringFromArgs args "status" ""))])
  else request

/-- One iteration of the loop of `listExperimentRuns`. -/
def formatRun (run : JSON) : Outcome JSON := do
  let runMap ← assertMap run
  let infrastructure ←
    match mapIndex runMap "infra" with
    | JSON.null => Outcome.ok (JSON.obj [])
    | infra => do
      let infraMap ← assertMap infra
      pure (JSON.obj [
        ("id", mapIndex infraMap "infraID"),
        ("name", mapIndex infraMap "name"),
        ("environment", mapIndex infraMap "environmentID"),
        ("platform", mapIndex infraMap "platformName")])
  pure (JSON.obj [
    ("id", mapIndex runMap "experimentRunID"),
    ("experimentId", mapIndex runMap "experimentID"),
    ("experimentName", mapIndex runMap "experimentName"),
    ("status", mapIndex runMap "phase"),
    ("resiliencyScore", mapIndex runMap "resiliencyScore"),
    ("faultsSummary", JSON.obj [
      ("passed", mapIndex runMap "faultsPassed"),
      ("failed", mapIndex runMap "faultsFailed"),
      ("awaited", mapIndex runMap "faultsAwaited"),
      ("stopped", mapIndex runMap "faultsStopped"),
      ("total", mapIndex runMap "totalFaults")]),
    ("infrastructure", infrastructure),
    ("sequence", mapIndex runMap "runSequence"),
    ("createdBy", JSON.str (getNestedString runMap ["createdBy", "username"])),
    ("createdAt", mapIndex runMap "createdAt"),
    ("updatedAt", mapIndex runMap "updatedAt")])

/-- The handler `listExperimentRuns`. -/
def listExperimentRuns (s : LitmusChaosServer) (args : GoMap) : Run :=
  let vars := [("request", JSON.obj (listExperimentRunsRequest args))]
  singleCall s "ListExperimentRun" (some vars) fun result => do
    let listRuns ← assertMap (mapIndex result "listExperimentRun")
    let runs ← assertSlice (mapIndex listRuns "experimentRuns")
    let formattedRuns ← forRange formatRun runs
    let response := JSON.obj [
      ("summary", JSON.str ("Found " ++
        s.rt.sprintV (mapIndex listRuns "totalNoOfExperimentRuns") ++ " experiment runs")),
      ("totalRuns", mapIndex listRuns "totalNoOfExperimentRuns"),
      ("runs", JSON.arr formattedRuns)]
    pure (textResult s response)

/-- The value of `executionData` in `getExperimentRunDetails`: the decoded execution log
when `includeLogs` is set and the run holds a non-empty string that decodes, else nil. -/
def executionDataOf (s : LitmusChaosServer) (args : GoMap) (run : GoMap) : JSON :=
  if getBoolFromArgs args "includeLogs" false then
    match mapIndex run "executionData" with
    | JSON.str execStr =>
      if execStr ≠ "" then (s.rt.unmarshalText execStr).getD JSON.null else JSON.null
    | _ => JSON.null
  else JSON.null

/-- The handler `getExperimentRunDetails`. -/
def getExperimentRunDetails (s : LitmusChaosServer) (args : GoMap) : Run :=
  let experimentRunID := getStringFromArgs args "experimentRunId" ""
  if experimentRunID = "" then Run.fail "experimentRunId is required" else
  let vars := [("experimentRunID", JSON.str experimentRunID)]
  singleCall s "GetExperimentRun" (some vars) fun result => do
    let run ← assertMap (mapIndex result "getExperimentRun")
    let infrastructure ←
      match mapIndex run "infra" with
      | JSON.null => Outcome.ok (JSON.obj [])
      | infra => do
        let infraMap ← assertMap infra
        pure (JSON.obj [
          ("id", mapIndex infraMap "infraID"),
          ("name", mapIndex infraMap "name"),
          ("environment", mapIndex infraMap "environmentID"),
          ("platform", mapIndex infraMap "platformName"),
          ("version", mapIndex infraMap "version")])
    let executionData := executionDataOf s args run
    let response := JSON.obj [
      ("run", JSON.obj [
        ("id", mapIndex run "experimentRunID"),
        ("experimentId", mapIndex run "experimentID"),
        ("experimentName", mapIndex run "experimentName"),
        ("status", mapIndex run "phase"),
        ("resiliencyScore", mapIndex run "resiliencyScore"),
        ("faultsSummary", JSON.obj [
          ("passed", mapIndex run "faultsPassed"),
          ("failed", mapIndex run "faultsFailed"),
          ("awaited", mapIndex run "faultsAwaited"),
          ("stopped", mapIndex run "faultsStopped"),
          ("notApplicable", mapIndex run "faultsNa"),
          ("total", mapIndex run "totalFaults")]),
        ("infrastructure", infrastructure),
        ("executionData", executionData),
        ("sequence", mapIndex run "runSequence"),
        ("createdBy", JSON.str (getNestedString run ["createdBy", "username"])),
        ("updatedBy", JSON.str (getNestedString run ["updatedBy", "username"])),
        ("createdAt", mapIndex run "createdAt"),
        ("updatedAt", mapIndex run "updatedAt")])]
    pure (textResult s response)

/-- The `request` map `listChaosInfrastructures` builds from its arguments. -/
def listChaosInfrastructuresRequest (args : GoMap) : List (String × JSON) :=
  let request : List (String × JSON) := []
  let request :=
    if getStringFromArgs args "environmentId" "" ≠ "" then
      mapSet request "environmentIDs" (JSON.ofStrings [getStringFromArgs args "environmentId" ""])
    else request
  if getStringFromArgs args "status" "" ≠ "" then
    mapSet request "filter"
      (JSON.obj [("isActive", JSON.bool (getStringFromArgs args "status" "" = "Active"))])
  else request

/-- The step `variables := {}; if len(request) > 0 { variables["request"] = request }`. -/
def optionalRequest (request : List (String × JSON)) : List (String × JSON) :=
  if request.length > 0 then mapSet [] "request" (JSON.obj request) else []

/-- One iteration of the loop of `listChaosInfrastructures`. -/
def formatInfra (infra : JSON) : Outcome JSON := do
  let infraMap ← assertMap infra
  pure (JSON.obj [
    ("id", mapIndex infraMap "infraID"),
    ("name", mapIndex infraMap "name"),
    ("description", mapIndex infraMap "description"),
    ("environment", mapIndex infraMap "environmentID"),
    ("platform", mapIndex infraMap "platformName"),
    ("active", mapIndex infraMap "isActive"),
    ("confirmed", mapIndex infraMap "isInfraConfirmed"),
    ("scope", mapIndex infraMap "infraScope"),
    ("namespace", mapIndex infraMap "infraNamespace"),
    ("version", mapIndex infraMap "version"),
    ("statistics", JSON.obj [
      ("experiments", mapIndex infraMap "noOfExperiments"),
      ("runs", mapIndex infraMap "noOfExperimentRuns")]),
    ("tags", mapIndex infraMap "tags"),
    ("updateStatus", mapIndex infraMap "updateStatus"),
    ("createdBy", JSON.str (getNestedString infraMap ["createdBy", "username"])),
    ("createdAt", mapIndex infraMap "createdAt"),
    ("updatedAt", mapIndex infraMap "updatedAt")])

/-- The handler `listChaosInfrastructures`. -/
def listChaosInfrastructures (s : LitmusChaosServer) (args : GoMap) : Run :=
  let vars := optionalRequest (listChaosInfrastructuresRequest args)
  singleCall s "ListInfras" (some vars) fun result => do
    let listInfras ← assertMap (mapIndex result "listInfras")
    let infras ← assertSlice (mapIndex listInfras "infras")
    let formattedInfras ← forRange formatInfra infras
    let response := JSON.obj [
      ("summary", JSON.str ("Found " ++
        s.rt.sprintV (mapIndex listInfras "totalNoOfInfras") ++ " chaos infrastructures")),
      ("totalInfrastructures", mapIndex listInfras "totalNoOfInfras"),
      ("infrastructures", JSON.arr formattedInfras)]
    pure (textResult s response)

/-- The text that stands for a manifest `getInfrastructureDetails` could not obtain. -/
def manifestNotAvailable : JSON := JSON.str "Manifest not available"

/-- The value of `manifest` in `getInfrastructureDetails` when `includeManifest` is set:
the `getInfraManifest` member of the second reply, or the fixed text when the second call
fails, its data does not decode, or the member is nil. -/
def manifestOf (reply : Except String RawMessage) : JSON :=
  match reply with
  | Except.error _ => manifestNotAvailable
  | Except.ok manifestData =>
    match unmarshalMap manifestData with
    | Except.error _ => manifestNotAvailable
    | Except.ok manifestResult =>
      match mapIndex manifestResult "getInfraManifest" with
      | JSON.null => manifestNotAvailable
      | manifest => manifest

/-- The response document of `getInfrastructureDetails`. -/
def infrastructureDetailsResponse (infra : GoMap) (manifest : JSON) : JSON :=
  JSON.obj [
    ("infrastructure", JSON.obj [
      ("id", mapIndex infra "infraID"),
      ("name", mapIndex infra "name"),
      ("description", mapIndex infra "description"),
      ("environment", mapIndex infra "environmentID"),
      ("platform", mapIndex infra "platformName"),
      ("active", mapIndex infra "isActive"),
      ("confirmed", mapIndex infra "isInfraConfirmed"),
      ("scope", mapIndex infra "infraScope"),
      ("namespace", mapIndex infra "infraNamespace"),
      ("serviceAccount", mapIndex infra "serviceAccount"),
      ("namespaceExists", mapIndex infra "infraNsExists"),
      ("serviceAccountExists", mapIndex infra "infraSaExists"),
      ("version", mapIndex infra "version"),
      ("statistics", JSON.obj [
        ("experiments", mapIndex infra "noOfExperiments"),
        ("runs", mapIndex infra "noOfExperimentRuns"),
        ("lastExperiment", mapIndex infra "lastExperimentTimestamp")]),
      ("startTime", mapIndex infra "startTime"),
      ("tags", mapIndex infra "tags"),
      ("updateStatus", mapIndex infra "updateStatus"),
      ("createdBy", JSON.str (getNestedString infra ["createdBy", "username"])),
      ("updatedBy", JSON.str (getNestedString infra ["updatedBy", "username"])),
      ("createdAt", mapIndex infra "createdAt"),
      ("updatedAt", mapIndex infra "updatedAt"),
      ("manifest", manifest)])]

/-- The handler `getInfrastructureDetails`: one remote call, and a second one for the
manifest when `includeManifest` is set and the first reply has the expected shape. -/
def getInfrastructureDetails (s : LitmusChaosServer) (args : GoMap) : Run :=
  let infraID := getStringFromArgs args "infraId" ""
  if infraID = "" then Run.fail "infraId is required" else
  let vars := [("infraID", JSON.str infraID)]
  let first := graphqlRequestBody s "GetInfra" (some vars)
  match graphqlRequest s "GetInfra" (some vars) with
  | Except.error msg => { calls := [first], out := Outcome.error msg }
  | Except.ok data =>
    match unmarshalMap data with
    | Except.error msg => { calls := [first], out := Outcome.error msg }
    | Except.ok result =>
      match mapIndex result "getInfra" with
      | JSON.obj infra =>
        if getBoolFromArgs args "includeManifest" false then
          let manifestVars := [("infraID", JSON.str infraID), ("upgrade", JSON.bool false)]
          let manifest := manifestOf (graphqlRequest s "GetInfraManifest" (some manifestVars))
          { calls := [first, graphqlRequestBody s "GetInfraManifest" (some manifestVars)]
            out := Outcome.ok (textResult s (infrastructureDetailsResponse (some infra) manifest)) }
        else
          { calls := [first]
            out := Outcome.ok (textResult s (infrastructureDetailsResponse (some infra) JSON.null)) }
      | other =>
        { calls := [first]
          out := Outcome.panic (conversionPanic other "map[string]interface {}") }

/-- The `request` map of `listEnvironments` and `listChaosHubs`: a `filter` with one
member when the argument `key` is a non-empty string. -/
def filterRequest (args : GoMap) (key : String) : List (String × JSON) :=
  if getStringFromArgs args key "" ≠ "" then
    mapSet [] "filter" (JSON.obj [(key, JSON.str (getStringFromArgs args key ""))])
  else []

/-- One iteration of the loop of `listEnvironments`. -/
def formatEnvironment (env : JSON) : Outcome JSON := do
  let envMap ← assertMap env
  let infraIDs ←
    match mapIndex envMap "infraIDs" with
    | JSON.null => Outcome.ok (none : GoSlice)
    | infraIDsRaw => do
      let ids ← assertSlice infraIDsRaw
      pure (some ids)
  let infraCount : Int := (infraIDs.getD []).length
  pure (JSON.obj [
    ("id", mapIndex envMap "environmentID"),
    ("name", mapIndex envMap "name"),
    ("description", mapIndex envMap "description"),
    ("type", mapIndex envMap "type"),
    ("tags", mapIndex envMap "tags"),
    ("infrastructureCount", JSON.ofInt infraCount),
    ("infrastructureIds", GoSlice.toJSON infraIDs),
    ("createdBy", JSON.str (getNestedString envMap ["createdBy", "username"])),
    ("updatedBy", JSON.str (getNestedString envMap ["updatedBy", "username"])),
    ("createdAt", mapIndex envMap "createdAt"),
    ("updatedAt", mapIndex envMap "updatedAt")])

/-- The handler `listEnvironments`. -/
def listEnvironments (s : LitmusChaosServer) (args : GoMap) : Run :=
  let vars := optionalRequest (filterRequest args "type")
  singleCall s "ListEnvironments" (some vars) fun result => do
    let listEnvs ← assertMap (mapIndex result "listEnvironments")
    let environments ← assertSlice (mapIndex listEnvs "environments")
    let formattedEnvs ← forRange formatEnvironment environments
    let response := JSON.obj [
      ("summary", JSON.str ("Found " ++
        s.rt.sprintV (mapIndex listEnvs "totalNoOfEnvironments") ++ " environments")),
      ("totalEnvironments", mapIndex listEnvs "totalNoOfEnvironments"),
      ("environments", JSON.arr formattedEnvs)]
    pure (textResult s response)

/-- The call `strings.ReplaceAll(name, " ", "-")`. -/
def replaceSpaces (name : String) : String :=
  String.mk (name.data.map fun c => if c = ' ' then '-' else c)

/-- The handler `createEnvironment`. -/
def createEnvironment (s : LitmusChaosServer) (args : GoMap) : Run :=
  let name := getStringFromArgs args "name" ""
  if name = "" then Run.fail "name is required" else
  let envType := getStringFromArgs args "type" ""
  if envType = "" then Run.fail "type is required" else
  let tags := tagsFromArgs s args
  let request := [
    ("environmentID", JSON.str (s.rt.toLower (replaceSpaces name))),
    ("name", JSON.str name),
    ("description", JSON.str (getStringFromArgs args "description" "")),
    ("type", JSON.str envType),
    ("tags", JSON.ofStrings tags)]
  let vars := [("request", JSON.obj request)]
  singleCall s "CreateEnvironment" (some vars) fun result => do
    let createResult ← assertMap (mapIndex result "createEnvironment")
    let response := JSON.obj [
      ("success", JSON.bool true),
      ("message", JSON.str ("Environment '" ++ name ++ "' created successfully")),
      ("environment", JSON.obj [
        ("id", mapIndex createResult "environmentID"),
        ("name", mapIndex createResult "name"),
        ("description", mapIndex createResult "description"),
        ("type", mapIndex createResult "type"),
        ("tags", mapIndex createResult "tags"),
        ("createdBy", JSON.str (getNestedString createResult ["createdBy", "username"])),
        ("createdAt", mapIndex createResult "createdAt")])]
    pure (textResult s response)

/-- The variables `listResilienceProbes` builds from its arguments. -/
def listResilienceProbesVariables (args : GoMap) : List (String × JSON) :=
  if getStringFromArgs args "type" "" ≠ "" then
    mapSet [] "filter" (JSON.obj [("type", JSON.ofStrings [getStringFromArgs args "type" ""])])
  else []

/-- One iteration of the loop of `listResilienceProbes`. -/
def formatProbe (probe : JSON) : Outcome JSON := do
  let probeMap ← assertMap probe
  pure (JSON.obj [
    ("name", mapIndex probeMap "name"),
    ("description", mapIndex probeMap "description"),
    ("type", mapIndex probeMap "type"),
    ("infrastructureType", mapIndex probeMap "infrastructureType"),
    ("tags", mapIndex probeMap "tags"),
    ("referencedBy", mapIndex probeMap "referencedBy"),
    ("createdBy", JSON.str (getNestedString probeMap ["createdBy", "username"])),
    ("updatedBy", JSON.str (getNestedString probeMap ["updatedBy", "username"])),
    ("createdAt", mapIndex probeMap "createdAt"),
    ("updatedAt", mapIndex probeMap "updatedAt")])

/-- The handler `listResilienceProbes`. -/
def listResilienceProbes (s : LitmusChaosServer) (args : GoMap) : Run :=
  singleCall s "ListProbes" (some (listResilienceProbesVariables args)) fun result => do
    let probes ← assertSlice (mapIndex result "listProbes")
    let formattedProbes ← forRange formatProbe probes
    let response := JSON.obj [
      ("summary", JSON.str ("Found " ++ toString probes.length ++ " resilience probes")),
      ("totalProbes", JSON.ofInt probes.length),
      ("probes", JSON.arr formattedProbes)]
    pure (textResult s response)

/-- The type-specific block `createResilienceProbe` adds to its request: the key and the
value, or nothing for a type outside the four cases of the switch. -/
def probeProperties (s : LitmusChaosServer) (probeType : String) (properties : GoMap) :
    Option (String × JSON) :=
  if probeType = "httpProbe" then
    let method := s.rt.toLower (getStringFromArgs properties "method" "get")
    let methodConfig := JSON.obj [
      ("criteria", JSON.str "=="),
      ("responseCode", JSON.str "200")]
    some ("kubernetesHTTPProperties", JSON.obj [
      ("url", JSON.str (getStringFromArgs properties "url" "")),
      ("method", JSON.obj [(method, methodConfig)]),
      ("probeTimeout", JSON.str (getStringFromArgs properties "timeout" "5s")),
      ("interval", JSON.str (getStringFromArgs properties "interval" "2s")),
      ("retry", JSON.ofInt 3),
      ("attempt", JSON.ofInt 1),
      ("insecureSkipVerify", JSON.bool false)])
  else if probeType = "cmdProbe" then
    some ("kubernetesCMDProperties", JSON.obj [
      ("command", JSON.str (getStringFromArgs properties "command" "")),
      ("probeTimeout", JSON.str (getStringFromArgs properties "timeout" "5s")),
      ("interval", JSON.str (getStringFromArgs properties "interval" "2s")),
      ("retry", JSON.ofInt 3),
      ("attempt", JSON.ofInt 1),
      ("comparator", JSON.obj [
        ("type", JSON.str "string"),
        ("criteria", JSON.str "=="),
        ("value", JSON.str "success")])])
  else if probeType = "k8sProbe" then
    some ("k8sProperties", JSON.obj [
      ("group", JSON.str ""),
      ("version", JSON.str "v1"),
      ("resource", JSON.str (getStringFromArgs properties "resource" "")),
      ("operation", JSON.str "present"),
      ("probeTimeout", JSON.str (getStringFromArgs properties "timeout" "5s")),
      ("interval", JSON.str (getStringFromArgs properties "interval" "2s")),
      ("retry", JSON.ofInt 3),
      ("attempt", JSON.ofInt 1)])
  else if probeType = "promProbe" then
    some ("promProperties", JSON.obj [
      ("endpoint", JSON.str (getStringFromArgs properties "endpoint" "")),
      ("query", JSON.str (getStringFromArgs properties "query" "")),
      ("probeTimeout", JSON.str (getStringFromArgs properties "timeout" "5s")),
      ("interval", JSON.str (getStringFromArgs properties "interval" "2s")),
      ("retry", JSON.ofInt 3),
      ("attempt", JSON.ofInt 1),
      ("comparator", JSON.obj [
        ("type", JSON.str "float"),
        ("criteria", JSON.str ">="),
        ("value", JSON.str "0")])])
  else none

/-- The `request` map `createResilienceProbe` builds once its arguments are validated. -/
def createResilienceProbeRequest (s : LitmusChaosServer) (args : GoMap) (name probeType : String)
    (properties : GoMap) : List (String × JSON) :=
  let request := [
    ("name", JSON.str name),
    ("description", JSON.str (getStringFromArgs args "description" "")),
    ("type", JSON.str probeType),
    ("infrastructureType", JSON.str "Kubernetes"),
    ("tags", JSON.ofStrings (tagsFromArgs s args))]
  match probeProperties s probeType properties with
  | some (key, block) => mapSet request key block
  | none => request

/-- The handler `createResilienceProbe`. -/
def createResilienceProbe (s : LitmusChaosServer) (args : GoMap) : Run :=
  let name := getStringFromArgs args "name" ""
  if name = "" then Run.fail "name is required" else
  let probeType := getStringFromArgs args "type" ""
  if probeType = "" then Run.fail "type is required" else
  match getMapFromArgs args "properties" with
  | none => Run.fail "properties are required"
  | some properties =>
    let request := createResilienceProbeRequest s args name probeType (some properties)
    let vars := [("request", JSON.obj request)]
    singleCall s "AddProbe" (some vars) fun result => do
      let createResult ← assertMap (mapIndex result "addProbe")
      let response := JSON.obj [
        ("success", JSON.bool true),
        ("message", JSON.str ("Resilience probe '" ++ name ++ "' created successfully")),
        ("probe", JSON.obj [
          ("name", mapIndex createResult "name"),
          ("description", mapIndex createResult "description"),
          ("type", mapIndex createResult "type"),
          ("infrastructureType", mapIndex createResult "infrastructureType"),
          ("tags", mapIndex createResult "tags"),
          ("createdBy", JSON.str (getNestedString createResult ["createdBy", "username"])),
          ("createdAt", mapIndex createResult "createdAt")])]
      pure (textResult s response)

/-- One iteration of the loop of `listChaosHubs`. -/
def formatHub (hub : JSON) : Outcome JSON := do
  let hubMap ← assertMap hub
  pure (JSON.obj [
    ("id", mapIndex hubMap "id"),
    ("name", mapIndex hubMap "name"),
    ("description", mapIndex hubMap "description"),
    ("repoUrl", mapIndex hubMap "repoURL"),
    ("branch", mapIndex hubMap "repoBranch"),
    ("remoteHub", mapIndex hubMap "remoteHub"),
    ("type", mapIndex hubMap "hubType"),
    ("private", mapIndex hubMap "isPrivate"),
    ("available", mapIndex hubMap "isAvailable"),
    ("statistics", JSON.obj [
      ("totalFaults", mapIndex hubMap "totalFaults"),
      ("totalExperiments", mapIndex hubMap "totalExperiments")]),
    ("tags", mapIndex hubMap "tags"),
    ("lastSynced", mapIndex hubMap "lastSyncedAt"),
    ("createdBy", JSON.str (getNestedString hubMap ["createdBy", "username"])),
    ("updatedBy", JSON.str (getNestedString hubMap ["updatedBy", "username"])),
    ("createdAt", mapIndex hubMap "createdAt"),
    ("updatedAt", mapIndex hubMap "updatedAt")])

/-- The handler `listChaosHubs`. -/
def listChaosHubs (s : LitmusChaosServer) (args : GoMap) : Run :=
  let vars := optionalRequest (filterRequest args "hubType")
  singleCall s "ListChaosHub" (some vars) fun result => do
    let hubs ← assertSlice (mapIndex result "listChaosHub")
    let formattedHubs ← forRange formatHub hubs
    let response := JSON.obj [
      ("summary", JSON.str ("Found " ++ toString hubs.length ++ " chaos hubs")),
      ("totalHubs", JSON.ofInt hubs.length),
      ("hubs", JSON.arr formattedHubs)]
    pure (textResult s response)

/-- The test `strings.Contains(text, sub)`. -/
def stringsContains (text sub : String) : Bool :=
  decide (sub.data <:+: text.data)

/-- The condition under which `getChaosFaults` keeps a category. -/
def categoryMatches (s : LitmusChaosServer) (category categoryName : String) : Bool :=
  category = "" || stringsContains (s.rt.toLower categoryName) (s.rt.toLower category)

/-- One iteration of the loop of `getChaosFaults`: the formatted category when it is kept,
`none` when it is skipped. -/
def formatCategory (s : LitmusChaosServer) (category : String) (cat : JSON) :
    Outcome (Option JSON) := do
  let categoryMap ← assertMap cat
  let metadata ← assertMap (mapIndex categoryMap "metadata")
  let spec ← assertMap (mapIndex categoryMap "spec")
  let categoryName ← assertString (mapIndex metadata "name")
  if categoryMatches s category categoryName then
    let annotations ←
      match mapIndex metadata "annotations" with
      | JSON.null => Outcome.ok (none : GoMap)
      | ann => assertMap ann
    let faults ←
      match mapIndex spec "faults" with
      | JSON.null => Outcome.ok JSON.null
      | faultsList => do
        let faultsSlice ← assertSlice faultsList
        let built ← forRange (fun fault => do
          let faultMap ← assertMap fault
          pure (JSON.obj [
            ("name", mapIndex faultMap "name"),
            ("displayName", mapIndex faultMap "displayName"),
            ("description", mapIndex faultMap "description")])) faultsSlice
        pure (JSON.arr built)
    let formattedCategory := [
      ("name", JSON.str categoryName),
      ("displayName", mapIndex spec "displayName"),
      ("description", mapIndex spec "categoryDescription"),
      ("version", mapIndex metadata "version"),
      ("keywords", mapIndex spec "keywords"),
      ("maturity", mapIndex spec "maturity"),
      ("platforms", mapIndex spec "platforms"),
      ("chaosType", mapIndex spec "chaosType"),
      ("faults", faults)]
    match annotations with
    | some ann =>
      pure (some (JSON.obj (mapSet (mapSet formattedCategory "vendor" (mapIndex (some ann) "vendor"))
        "repository" (mapIndex (some ann) "repository"))))
    | none => pure (some (JSON.obj formattedCategory))
  else pure none

/-- The handler `getChaosFaults`. -/
def getChaosFaults (s : LitmusChaosServer) (args : GoMap) : Run :=
  let hubID := getStringFromArgs args "hubId" ""
  if hubID = "" then Run.fail "hubId is required" else
  let vars := [("hubID", JSON.str hubID)]
  singleCall s "ListChaosFaults" (some vars) fun result => do
    let faultCategories ← assertSlice (mapIndex result "listChaosFaults")
    let category := getStringFromArgs args "category" ""
    let kept ← forRange (formatCategory s category) faultCategories
    let filteredCategories := kept.filterMap id
    let response := JSON.obj [
      ("hubId", JSON.str hubID),
      ("totalFaultCategories", JSON.ofInt filteredCategories.length),
      ("faultCategories", JSON.arr filteredCategories)]
    pure (textResult s response)

/-- The operation name of each statistics query. -/
def StatsCall.query : StatsCall → String
  | StatsCall.expStats => "GetExperimentStats"
  | StatsCall.runStats => "GetExperimentRunStats"
  | StatsCall.infraStats => "GetInfraStats"

/-- The three variables `expStatsData`, `runStatsData`, `infraStatsData`. -/
structure StatsData where
  expStatsData : RawMessage
  runStatsData : RawMessage
  infraStatsData : RawMessage

/-- The receptions of the collecting loop of `getExperimentStatistics`: a data message
fills the variable of its goroutine, an error message ends the handler with that error. -/
def collectStats (reply : StatsCall → Except String RawMessage) :
    List StatsCall → StatsData → Except String StatsData
  | [], d => Except.ok d
  | c :: rest, d =>
    match reply c with
    | Except.error msg => Except.error msg
    | Except.ok data =>
      match c with
      | StatsCall.expStats => collectStats reply rest { d with expStatsData := data }
      | StatsCall.runStats => collectStats reply rest { d with runStatsData := data }
      | StatsCall.infraStats => collectStats reply rest { d with infraStatsData := data }

/-- The part of `getExperimentStatistics` after the collecting loop. -/
def statisticsDocument (s : LitmusChaosServer) (d : StatsData) : Outcome ToolResult := do
  let expStats ← decodeData d.expStatsData
  let runStats ← decodeData d.runStatsData
  let infraStats ← decodeData d.infraStatsData
  let expStatsResult ← assertMap (mapIndex expStats "getExperimentStats")
  let runStatsResult ← assertMap (mapIndex runStats "getExperimentRunStats")
  let infraStatsResult ← assertMap (mapIndex infraStats "getInfraStats")
  let response := JSON.obj [
    ("overview", JSON.obj [
      ("totalExperiments", mapIndex expStatsResult "totalExperiments"),
      ("totalExperimentRuns", mapIndex runStatsResult "totalExperimentRuns"),
      ("totalInfrastructures", mapIndex infraStatsResult "totalInfrastructures")]),
    ("experimentStatistics", JSON.obj [
      ("total", mapIndex expStatsResult "totalExperiments"),
      ("resiliencyScoreDistribution",
        mapIndex expStatsResult "totalExpCategorizedByResiliencyScore")]),
    ("experimentRunStatistics", JSON.obj [
      ("total", mapIndex runStatsResult "totalExperimentRuns"),
      ("completed", mapIndex runStatsResult "totalCompletedExperimentRuns"),
      ("terminated", mapIndex runStatsResult "totalTerminatedExperimentRuns"),
      ("running", mapIndex runStatsResult "totalRunningExperimentRuns"),
      ("stopped", mapIndex runStatsResult "totalStoppedExperimentRuns"),
      ("errored", mapIndex runStatsResult "totalErroredExperimentRuns")]),
    ("infrastructureStatistics", JSON.obj [
      ("total", mapIndex infraStatsResult "totalInfrastructures"),
      ("active", mapIndex infraStatsResult "totalActiveInfrastructure"),
      ("inactive", mapIndex infraStatsResult "totalInactiveInfrastructures"),
      ("confirmed", mapIndex infraStatsResult "totalConfirmedInfrastructure"),
      ("unconfirmed", mapIndex infraStatsResult "totalNonConfirmedInfrastructures")])]
  pure (textResult s response)

/-- The handler `getExperimentStatistics`: three goroutines each issue one remote call with
nil variables; the collecting loop receives their messages in the order `s.rt.recvOrder`. -/
def getExperimentStatistics (s : LitmusChaosServer) (_args : GoMap) : Run :=
  let reply := fun (c : StatsCall) => graphqlRequest s c.query none
  { calls := [StatsCall.expStats, StatsCall.runStats, StatsCall.infraStats].map
      (fun c => graphqlRequestBody s c.query none)
    out :=
      match collectStats reply s.rt.recvOrder.toList
          { expStatsData := none, runStatsData := none, infraStatsData := none } with
      | Except.error msg => Outcome.error msg
      | Except.ok d => statisticsDocument s d }

/-- The handler `registerChaosInfrastructure`. -/
def registerChaosInfrastructure (s : LitmusChaosServer) (args : GoMap) : Run :=
  let name := getStringFromArgs args "name" ""
  if name = "" then Run.fail "name is required" else
  let environmentID := getStringFromArgs args "environmentId" s.config.DefaultEnvironmentID
  if environmentID = "" then Run.fail "environmentId is required" else
  let infraScope := getStringFromArgs args "infraScope" ""
  if infraScope = "" then Run.fail "infraScope is required" else
  let tags := tagsFromArgs s args
  let request := [
    ("name", JSON.str name),
    ("description", JSON.str (getStringFromArgs args "description" "Registered via MCP Server")),
    ("environmentID", JSON.str environmentID),
    ("infrastructureType", JSON.str "Kubernetes"),
    ("platformName", JSON.str (getStringFromArgs args "platformName" "Generic Kubernetes")),
    ("infraScope", JSON.str infraScope),
    ("infraNamespace", JSON.str (getStringFromArgs args "infraNamespace" "litmus")),
    ("serviceAccount", JSON.str "litmus-admin"),
    ("infraNsExists", JSON.bool false),
    ("infraSaExists", JSON.bool false),
    ("skipSsl", JSON.bool false),
    ("tags", JSON.ofStrings tags)]
  let vars := [("request", JSON.obj request)]
  singleCall s "RegisterInfra" (some vars) fun result => do
    let registerResult ← assertMap (mapIndex result "registerInfra")
    let response := JSON.obj [
      ("success", JSON.bool true),
      ("message", JSON.str ("Chaos infrastructure '" ++ name ++ "' registered successfully")),
      ("infrastructure", JSON.obj [
        ("id", mapIndex registerResult "infraID"),
        ("name", mapIndex registerResult "name"),
        ("token", mapIndex registerResult "token"),
        ("installationInstructions", JSON.obj [
          ("step1", JSON.str "Apply the following manifest to your Kubernetes cluster:"),
          ("manifest", mapIndex registerResult "manifest"),
          ("step2", JSON.str "Wait for the infrastructure to be confirmed in the Chaos Center"),
          ("step3", JSON.str "Start creating and running chaos experiments")])])]
    pure (textResult s response)

/-! ## main.go: tool definitions -/

/-- A schema entry `{"type": ty, "description": description}`. -/
def typed (ty description : String) : JSON :=
  JSON.obj [("type", JSON.str ty), ("description", JSON.str description)]

/-- A schema entry `{"type": "string", "enum": values, "description": description}`. -/
def enumerated (values : List String) (description : String) : JSON :=
  JSON.obj [("type", JSON.str "string"), ("enum", JSON.ofStrings values),
    ("description", JSON.str description)]

/-- The schema entry of the `tags` argument. -/
def tagsSchema (description : String) : JSON :=
  JSON.obj [("type", JSON.str "array"), ("items", JSON.obj [("type", JSON.str "string")]),
    ("description", JSON.str description)]

/-- An input schema `{"type": "object", "properties": properties}`, without `required`. -/
def objectSchema (properties : List (String × JSON)) : JSON :=
  JSON.obj [("type", JSON.str "object"), ("properties", JSON.obj properties)]

/-- An input schema with a `required` list. -/
def objectSchemaRequired (properties : List (String × JSON)) (required : List String) : JSON :=
  JSON.obj [("type", JSON.str "object"), ("properties", JSON.obj properties),
    ("required", JSON.ofStrings required)]

/-- The registry metadata `getTools()`. -/
def getTools : List Tool := [
  { Name := "list_chaos_experiments"
    Description := "List all chaos experiments with optional filtering"
    InputSchema := objectSchema [
      ("filter", objectSchema [
        ("experimentName", typed "string" "Filter by experiment name"),
        ("infraName", typed "string" "Filter by infrastructure name"),
        ("infraId", typed "string" "Filter by infrastructure ID"),
        ("status", typed "string" "Filter by experiment status")]),
      ("pagination", objectSchema [
        ("page", JSON.obj [("type", JSON.str "number"), ("minimum", JSON.ofInt 0)]),
        ("limit", JSON.obj [("type", JSON.str "number"), ("minimum", JSON.ofInt 1),
          ("maximum", JSON.ofInt 100)])])] },
  { Name := "get_chaos_experiment"
    Description := "Get detailed information about a specific chaos experiment"
    InputSchema := objectSchemaRequired [
      ("experimentId", typed "string" "Unique experiment identifier"),
      ("includeRuns", typed "boolean" "Include recent experiment runs")]
      ["experimentId"] },
  { Name := "run_chaos_experiment"
    Description := "Execute a chaos experiment immediately"
    InputSchema := objectSchemaRequired [
      ("experimentId", typed "string" "Experiment ID to run")]
      ["experimentId"] },
  { Name := "stop_chaos_experiment"
    Description := "Stop a running chaos experiment"
    InputSchema := objectSchemaRequired [
      ("experimentId", typed "string" "Experiment ID to stop"),
      ("experimentRunId", typed "string" "Specific run ID to stop (optional)")]
      ["experimentId"] },
  { Name := "list_experiment_runs"
    Description := "List experiment runs with detailed execution history"
    InputSchema := objectSchema [
      ("experimentId", typed "string" "Filter by specific experiment"),
      ("status", enumerated ["Running", "Completed", "Failed", "Stopped", "Queued"]
        "Filter by run status"),
      ("limit", JSON.obj [("type", JSON.str "number"), ("minimum", JSON.ofInt 1),
        ("maximum", JSON.ofInt 50), ("description", JSON.str "Number of runs to return")])] },
  { Name := "get_experiment_run_details"
    Description := "Get detailed information about a specific experiment run"
    InputSchema := objectSchemaRequired [
      ("experimentRunId", typed "string" "Experiment run ID"),
      ("includeLogs", typed "boolean" "Include execution logs")]
      ["experimentRunId"] },
  { Name := "list_chaos_infrastructures"
    Description := "List all chaos infrastructures (formerly agents/delegates)"
    InputSchema := objectSchema [
      ("environmentId", typed "string" "Filter by environment"),
      ("status", enumerated ["Active", "Inactive"] "Filter by infrastructure status")] },
  { Name := "get_infrastructure_details"
    Description := "Get detailed information about a chaos infrastructure"
    InputSchema := objectSchemaRequired [
      ("infraId", typed "string" "Infrastructure ID"),
      ("includeManifest", typed "boolean" "Include installation manifest")]
      ["infraId"] },
  { Name := "list_environments"
    Description := "List all environments for organizing chaos infrastructures"
    InputSchema := objectSchema [
      ("type", enumerated ["PROD", "NON_PROD"] "Filter by environment type")] },
  { Name := "create_environment"
    Description := "Create a new environment for organizing chaos infrastructures"
    InputSchema := objectSchemaRequired [
      ("name", typed "string" "Environment name"),
      ("description", typed "string" "Environment description"),
      ("type", enumerated ["PROD", "NON_PROD"] "Environment type"),
      ("tags", tagsSchema "Environment tags")]
      ["name", "type"] },
  { Name := "list_resilience_probes"
    Description := "List all resilience probes with plug-and-play architecture"
    InputSchema := objectSchema [
      ("type", enumerated ["httpProbe", "cmdProbe", "k8sProbe", "promProbe"]
        "Filter by probe type")] },
  { Name := "create_resilience_probe"
    Description := "Create a new resilience probe for steady-state validation"
    InputSchema := objectSchemaRequired [
      ("name", typed "string" "Probe name"),
      ("description", typed "string" "Probe description"),
      ("type", enumerated ["httpProbe", "cmdProbe", "k8sProbe", "promProbe"] "Probe type"),
      ("properties", JSON.obj [
        ("type", JSON.str "object"),
        ("description", JSON.str "Probe-specific configuration properties"),
        ("properties", JSON.obj [
          ("url", typed "string" "HTTP URL to probe (for httpProbe)"),
          ("method", enumerated ["GET", "POST"] "HTTP method"),
          ("command", typed "string" "Command to execute (for cmdProbe)"),
          ("resource", typed "string" "Kubernetes resource type (for k8sProbe)"),
          ("endpoint", typed "string" "Prometheus endpoint (for promProbe)"),
          ("query", typed "string" "PromQL query"),
          ("timeout", typed "string" "Probe timeout (e.g., 5s)"),
          ("interval", typed "string" "Probe interval (e.g., 2s)")])]),
      ("tags", tagsSchema "Probe tags")]
      ["name", "type", "properties"] },
  { Name := "list_chaos_hubs"
    Description := "List all ChaosHubs (experiment repositories)"
    InputSchema := objectSchema [
      ("hubType", enumerated ["GIT", "REMOTE"] "Filter by hub type")] },
  { Name := "get_chaos_faults"
    Description := "Get available chaos faults from ChaosHub"
    InputSchema := objectSchemaRequired [
      ("hubId", typed "string" "ChaosHub ID"),
      ("category", typed "string" "Fault category (e.g., pod, node, network)")]
      ["hubId"] },
  { Name := "get_experiment_statistics"
    Description := "Get comprehensive experiment and infrastructure statistics"
    InputSchema := objectSchema [
      ("includeResiliencyScores", typed "boolean" "Include resiliency score distribution")] },
  { Name := "register_chaos_infrastructure"
    Description := "Register a new chaos infrastructure"
    InputSchema := objectSchemaRequired [
      ("name", typed "string" "Infrastructure name"),
      ("description", typed "string" "Infrastructure description"),
      ("environmentId", typed "string" "Environment ID"),
      ("platformName", typed "string" "Platform name (e.g., GKE, EKS, AKS)"),
      ("infraScope", enumerated ["namespace", "cluster"] "Infrastructure scope"),
      ("infraNamespace", typed "string" "Kubernetes namespace for infra components"),
      ("tags", tagsSchema "Infrastructure tags")]
      ["name", "environmentId", "infraScope"] }]

/-- The strings of a JSON array of strings (other entries are passed over). -/
def stringsOf : List JSON → List String
  | [] => []
  | JSON.str s :: rest => s :: stringsOf rest
  | _ :: rest => stringsOf rest

/-- The argument names a tool descriptor lists under `required` in its input schema. -/
def Tool.required (t : Tool) : List String :=
  match t.InputSchema with
  | JSON.obj members =>
    match lookupMember "required" members with
    | some (JSON.arr names) => stringsOf names
    | _ => []
  | _ => []

/-! ## main.go: tool execution and protocol handlers -/

/-- The first step of `handleTool`: a non-empty `arguments` message is decoded into the
map `args`, an empty one leaves `args` nil. -/
def unmarshalArguments (arguments : RawMessage) : Except String GoMap :=
  match arguments with
  | none => Except.ok none
  | some j => unmarshalMap (some j)

/-- The dispatcher `handleTool(ctx, toolName, arguments)`. -/
def handleTool (s : LitmusChaosServer) (toolName : String) (arguments : RawMessage) : Run :=
  match unmarshalArguments arguments with
  | Except.error msg => Run.fail ("failed to parse arguments: " ++ msg)
  | Except.ok args =>
    if toolName = "list_chaos_experiments" then listChaosExperiments s args
    else if toolName = "get_chaos_experiment" then getChaosExperiment s args
    else if toolName = "run_chaos_experiment" then runChaosExperiment s args
    else if toolName = "stop_chaos_experiment" then stopChaosExperiment s args
    else if toolName = "list_experiment_runs" then listExperimentRuns s args
    else if toolName = "get_experiment_run_details" then getExperimentRunDetails s args
    else if toolName = "list_chaos_infrastructures" then listChaosInfrastructures s args
    else if toolName = "get_infrastructure_details" then getInfrastructureDetails s args
    else if toolName = "list_environments" then listEnvironments s args
    else if toolName = "create_environment" then createEnvironment s args
    else if toolName = "list_resilience_probes" then listResilienceProbes s args
    else if toolName = "create_resilience_probe" then createResilienceProbe s args
    else if toolName = "list_chaos_hubs" then listChaosHubs s args
    else if toolName = "get_chaos_faults" then getChaosFaults s args
    else if toolName = "get_experiment_statistics" then getExperimentStatistics s args
    else if toolName = "register_chaos_infrastructure" then registerChaosInfrastructure s args
    else Run.fail ("unknown tool: " ++ toolName)

/-- The value of `handleListTools()`: the map `{"tools": getTools()}`. -/
def handleListTools : ResultPayload := ResultPayload.toolList getTools

/-- The anonymous struct `callParams` of `handleCallTool`. -/
structure CallParams where
  Name : String
  Arguments : RawMessage

/-- The case folding `encoding/json` applies to one character of a member name: an ASCII
letter goes to upper case, and the two other characters that fold to an ASCII letter
(the Kelvin sign and the long s) go to it. -/
def foldRune (c : Char) : Char :=
  if c = Char.ofNat 8490 then 'K'
  else if c = Char.ofNat 383 then 'S'
  else c.toUpper

/-- The folded form of a member name; a member sets the struct field whose name folds to
the same text. -/
def foldName (name : String) : String := String.mk (name.data.map foldRune)

/-- The text of `UnmarshalTypeError` for a member decoded into the field `name`. -/
def nameFieldError (v : JSON) : String :=
  "json: cannot unmarshal " ++ jsonKind v ++ " into Go struct field .name of type string"

/-- The type of `callParams` as `UnmarshalTypeError` prints it. -/
def callParamsType : String :=
  "struct \x7b Name string \"json:\\\"name\\\"\"; Arguments json.RawMessage \"json:\\\"arguments\\\"\" \x7d"

/-- The decoding of the members of a JSON object into `callParams`, in order: a member
named `name` sets `Name` when it is a string, leaves it when it is null and is a type
error otherwise; a member named `arguments` sets `Arguments` to its raw text; any other
member is skipped. The first type error is kept and decoding goes on. -/
def decodeMembers : List (String × JSON) → CallParams × Option String →
    CallParams × Option String
  | [], acc => acc
  | (k, v) :: rest, (cp, err) =>
    if foldName k = "NAME" then
      match v with
      | JSON.str name => decodeMembers rest ({ cp with Name := name }, err)
      | JSON.null => decodeMembers rest (cp, err)
      | other => decodeMembers rest (cp, some (err.getD (nameFieldError other)))
    else if foldName k = "ARGUMENTS" then
      decodeMembers rest ({ cp with Arguments := some v }, err)
    else decodeMembers rest (cp, err)

/-- The call `json.Unmarshal(params, &callParams)`. -/
def unmarshalCallParams (params : RawMessage) : Except String CallParams :=
  match params with
  | none => Except.error unexpectedEnd
  | some JSON.null => Except.ok { Name := "", Arguments := none }
  | some (JSON.obj members) =>
    match decodeMembers members ({ Name := "", Arguments := none }, none) with
    | (cp, none) => Except.ok cp
    | (_, some msg) => Except.error msg
  | some other => Except.error (unmarshalTypeError other callParamsType)

/-- The handler `handleCallTool(ctx, params)`. -/
def handleCallTool (s : LitmusChaosServer) (params : RawMessage) : Run :=
  match unmarshalCallParams params with
  | Except.error msg => Run.fail ("failed to parse call tool params: " ++ msg)
  | Except.ok callParams => handleTool s callParams.Name callParams.Arguments

/-- The value of `handleInitialize()`. -/
def handleInitialize : ResultPayload :=
  ResultPayload.serverInfo (JSON.obj [
    ("protocolVersion", JSON.str "2024-11-05"),
    ("capabilities", JSON.obj [("tools", JSON.obj [])]),
    ("serverInfo", JSON.obj [
      ("name", JSON.str "litmuschaos-mcp-server"),
      ("version", JSON.str "3.16.0")])])

/-- How a call of `handleRequest` ends: it returns a response, returns nil, or a handler
panics (which ends the process, nothing being recovered). -/
inductive Handled where
  | response (resp : MCPResponse)
  | noResponse
  | panic (msg : String)

/-- The main request handler `handleRequest(ctx, req)`. -/
def handleRequest (s : LitmusChaosServer) (req : MCPRequest) : Handled :=
  let resp : MCPResponse := { JSONRPC := "2.0", ID := req.ID, Result := none, Error := none }
  if req.Method = "initialize" then
    Handled.response { resp with Result := some handleInitialize }
  else if req.Method = "initialized" then
    Handled.noResponse
  else if req.Method = "tools/list" then
    Handled.response { resp with Result := some handleListTools }
  else if req.Method = "tools/call" then
    match (handleCallTool s req.Params).out with
    | Outcome.error msg =>
      Handled.response { resp with Error := some { Code := -32603, Message := msg } }
    | Outcome.ok result =>
      Handled.response { resp with Result := some (ResultPayload.toolResult result) }
    | Outcome.panic msg => Handled.panic msg
  else
    Handled.response { resp with
      Error := some { Code := -32601, Message := "Method not found: " ++ req.Method } }

/-- What the main loop has done when it ends: the responses it printed, one line each
and in order, and the panic that ended the process, if one did. -/
structure Session where
  output : List MCPResponse
  crashed : Option String

/-- The main server loop `run()` over the lines the scanner delivers, up to the end of
the input. (`json.Marshal` of a response cannot fail on the values built here, so every
non-nil response is printed.) -/
def run (s : LitmusChaosServer) : List String → Session
  | [] => { output := [], crashed := none }
  | line :: rest =>
    if line = "" then run s rest
    else
      match s.rt.unmarshalLine line with
      | none => run s rest
      | some req =>
        match handleRequest s req with
        | Handled.noResponse => run s rest
        | Handled.response resp =>
          { output := resp :: (run s rest).output, crashed := (run s rest).crashed }
        | Handled.panic msg => { output := [], crashed := some msg }

/-! ## Worked inputs -/

/-- The line `{"jsonrpc":"2.0","id":7,"method":"initialized","params":{}}`. -/
def initializedLine : String :=
  "\x7b\"jsonrpc\":\"2.0\",\"id\":7,\"method\":\"initialized\",\"params\":\x7b\x7d\x7d"

/-- The request the line `initializedLine` decodes to. -/
def initializedRequest : MCPRequest :=
  { JSONRPC := "2.0", ID := JSON.num 7, Method := "initialized", Params := some (JSON.obj []) }

/-- The line `{"jsonrpc":"2.0","id":1,"method":"tools/call","params":{"name":
"run_chaos_experiment","arguments":{"experimentId":"exp-1"}}}`. -/
def runExperimentLine : String :=
  "\x7b\"jsonrpc\":\"2.0\",\"id\":1,\"method\":\"tools/call\",\"params\":\x7b\"name\":\"run_chaos_experiment\",\"arguments\":\x7b\"experimentId\":\"exp-1\"\x7d\x7d\x7d"

/-- The request the line `runExperimentLine` decodes to. -/
def runExperimentRequest : MCPRequest :=
  { JSONRPC := "2.0", ID := JSON.num 1, Method := "tools/call"
    Params := some (JSON.obj [("name", JSON.str "run_chaos_experiment"),
      ("arguments", JSON.obj [("experimentId", JSON.str "exp-1")])]) }

/-- A run-time environment for the worked inputs. Its text functions stand in for the
library's (lower-casing is the ASCII one, the line decoder knows `initializedLine` and
`runExperimentLine` only); no worked input depends on the text they return. -/
def exampleRuntime : Runtime :=
  { marshalIndent := fun _ => ""
    sprintV := fun _ => ""
    toLower := fun text => String.mk (text.data.map Char.toLower)
    unmarshalText := fun _ => none
    unmarshalLine := fun line =>
      if line = initializedLine then some initializedRequest
      else if line = runExperimentLine then some runExperimentRequest
      else none
    recvOrder := RecvOrder.expRunInfra }

/-- A process environment that sets `LITMUS_PROJECT_ID` and nothing else. -/
def exampleGetenv (key : String) : String :=
  if key = "LITMUS_PROJECT_ID" then "project-1" else ""

/-- The server `NewLitmusChaosServer` builds in the environment `exampleGetenv`, in front
of the remote service `remote`. -/
def exampleServer (remote : HttpRequest → HttpReply) : LitmusChaosServer :=
  { config :=
      { ChaoscenterEndpoint := "http://localhost:8080"
        ProjectID := "project-1"
        AccessToken := ""
        DefaultInfraID := ""
        DefaultEnvironmentID := "production" }
    httpClient := remote
    rt := exampleRuntime }

/-- A remote service that answers every request with the envelope `{"data": data}`. -/
def remoteData (data : JSON) : HttpRequest → HttpReply :=
  fun _ => HttpReply.envelope { Data := some data, Errors := [] }

/-- A `tools/call` request with id 1 for the tool `name` with the arguments `arguments`. -/
def callRequest (name : String) (arguments : JSON) : MCPRequest :=
  { JSONRPC := "2.0", ID := JSON.num 1, Method := "tools/call"
    Params := some (JSON.obj [("name", JSON.str name), ("arguments", arguments)]) }

/-- A request with id 3 and the method `notifications/initialized`. -/
def notificationRequest : MCPRequest :=
  { JSONRPC := "2.0", ID := JSON.num 3, Method := "notifications/initialized", Params := none }

/-- A remote service that answers every request with data holding a registered
infrastructure under `registerInfra`. -/
def registerRemote : HttpRequest → HttpReply :=
  remoteData (JSON.obj [("registerInfra", JSON.obj [("infraID", JSON.str "infra-1")])])

/-- The descriptor of `register_chaos_infrastructure`, the last entry of `getTools`. -/
def registerTool : Tool := getTools.get ⟨15, by decide⟩

/-- The descriptor of `run_chaos_experiment`, the third entry of `getTools`. -/
def runTool : Tool := getTools.get ⟨2, by decide⟩

/-! ## Readings of the specification and further worked inputs -/

/-- The value at the end of a key path, in the words of the specification: the empty path
ends at the value itself, and a key leads on only from an object that has the key. -/
def valueAtPath (v : JSON) : List String → Option JSON
  | [] => some v
  | key :: rest =>
    match v with
    | JSON.obj members =>
      match lookupMember key members with
      | some next => valueAtPath next rest
      | none => none
    | _ => none

/-- The string at the end of a key path, in the words of the specification: the string
stored there, and the empty string on any miss. -/
def stringAtPath (v : JSON) (keys : List String) : String :=
  match valueAtPath v keys with
  | some (JSON.str str) => str
  | _ => ""

/-- The object `{"createdBy": {"username": "alice"}}`. -/
def aliceObject : List (String × JSON) :=
  [("createdBy", JSON.obj [("username", JSON.str "alice")])]

/-- The two values `graphqlRequest` returns, `(json.RawMessage, error)`, for each way the
HTTP exchange can go: the second component is `none` for a nil error. -/
def graphqlReturn (reply : HttpReply) : RawMessage × Option String :=
  match reply with
  | HttpReply.requestError cause => (none, some ("failed to create request: " ++ cause))
  | HttpReply.transportError cause => (none, some ("failed to execute request: " ++ cause))
  | HttpReply.readError cause => (none, some ("failed to read response: " ++ cause))
  | HttpReply.undecodable cause => (none, some ("failed to unmarshal response: " ++ cause))
  | HttpReply.envelope gqlResp =>
    if gqlResp.Errors.length > 0 then
      (none, some ("GraphQL errors: " ++
        ", ".intercalate (gqlResp.Errors.map (fun e => e.Message))))
    else (gqlResp.Data, none)

/-- The part of `graphqlRequest` after the request body is built: what the remote call
for the body `body` returns. -/
def replyTo (s : LitmusChaosServer) (body : GraphQLRequest) : Except String RawMessage :=
  match graphqlReturn (s.httpClient (graphqlHttpRequest s body)) with
  | (data, none) => Except.ok data
  | (_, some msg) => Except.error msg

/-- The failure of a remote call other than the manifest query is the failure of the
whole handler call: when such a call of the run `r` returns an error, the run ends with
an error, which is the error of one of its calls. -/
def failurePropagates (s : LitmusChaosServer) (r : Run) : Prop :=
  ∀ body, body ∈ r.calls → body.Query ≠ "GetInfraManifest" →
    ∀ cause, replyTo s body = Except.error cause →
      ∃ msg, r.out = Outcome.error msg ∧ ∃ b, b ∈ r.calls ∧ replyTo s b = Except.error msg

/-- An envelope that carries both data and the two errors `first` and `second`. -/
def twoErrorsEnvelope : GraphQLResponse :=
  { Data := some (JSON.obj [("listExperiment", JSON.null)])
    Errors := [{ Message := "first" }, { Message := "second" }] }

/-- A server that differs from `s` in the order of reception of the statistics messages. -/
def withRecvOrder (s : LitmusChaosServer) (order : RecvOrder) : LitmusChaosServer :=
  { s with rt := { s.rt with recvOrder := order } }

/-- A remote service in front of which the query `GetInfra` succeeds and every other
operation (the manifest query among them) fails in transport. -/
def manifestFailsRemote : HttpRequest → HttpReply :=
  fun req =>
    if req.body.Query = "GetInfra" then
      HttpReply.envelope
        { Data := some (JSON.obj [("getInfra", JSON.obj [("infraID", JSON.str "infra-1")])])
          Errors := [] }
    else HttpReply.transportError "context deadline exceeded"

/-- A remote service that answers every request with data holding an infrastructure
under `getInfra` and a manifest under `getInfraManifest`. -/
def infraRemote : HttpRequest → HttpReply :=
  remoteData (JSON.obj [
    ("getInfra", JSON.obj [("infraID", JSON.str "infra-1")]),
    ("getInfraManifest", JSON.str "kind: Deployment")])

/-- The arguments `{"infraId": "infra-1", "includeManifest": true}`. -/
def manifestArgs : GoMap :=
  some [("infraId", JSON.str "infra-1"), ("includeManifest", JSON.bool true)]

/-- A remote service in front of which only the statistics query `GetInfraStats` fails. -/
def infraStatsFailsRemote : HttpRequest → HttpReply :=
  fun req =>
    if req.body.Query = "GetInfraStats" then HttpReply.transportError "connection refused"
    else HttpReply.envelope { Data := some (JSON.obj []), Errors := [] }

/-- A remote service that refuses every connection. -/
def refusingRemote : HttpRequest → HttpReply :=
  fun _ => HttpReply.transportError "connection refused"

/-- The messages with which the handlers reject their arguments. -/
def validationMessages : List String :=
  ["experimentId is required", "experimentRunId is required", "infraId is required",
    "name is required", "type is required", "properties are required", "hubId is required",
    "environmentId is required", "infraScope is required"]

/-- The line `{"jsonrpc":"2.0","id":2,"method":"tools/list"}`. -/
def listToolsLine : String :=
  "\x7b\"jsonrpc\":\"2.0\",\"id\":2,\"method\":\"tools/list\"\x7d"

/-- The request the line `listToolsLine` decodes to. -/
def listToolsRequest : MCPRequest :=
  { JSONRPC := "2.0", ID := JSON.num 2, Method := "tools/list", Params := none }

/-- The run-time environment of the worked inputs, with a line decoder that also knows
`listToolsLine`. -/
def sessionRuntime : Runtime :=
  { exampleRuntime with
    unmarshalLine := fun line =>
      if line = listToolsLine then some listToolsRequest
      else exampleRuntime.unmarshalLine line }

/-- The server of the worked inputs with the run-time environment `sessionRuntime`. -/
def sessionServer (remote : HttpRequest → HttpReply) : LitmusChaosServer :=
  { exampleServer remote with rt := sessionRuntime }

/-- What the main loop prints for one line when no handler panics: nothing for an empty
line, a line that does not decode, and a request answered with nil. -/
def lineOutput (s : LitmusChaosServer) (line : String) : Option MCPResponse :=
  if line = "" then none
  else
    match s.rt.unmarshalLine line with
    | none => none
    | some req =>
      match handleRequest s req with
      | Handled.response resp => some resp
      | _ => none

/-- The response document of `register_chaos_infrastructure` for the name `edge` in front
of the remote service `registerRemote`. -/
def registerResponse : JSON :=
  JSON.obj [
    ("success", JSON.bool true),
    ("message", JSON.str ("Chaos infrastructure '" ++ "edge" ++ "' registered successfully")),
    ("infrastructure", JSON.obj [
      ("id", JSON.str "infra-1"),
      ("name", JSON.null),
      ("token", JSON.null),
      ("installationInstructions", JSON.obj [
        ("step1", JSON.str "Apply the following manifest to your Kubernetes cluster:"),
        ("manifest", JSON.null),
        ("step2", JSON.str "Wait for the infrastructure to be confirmed in the Chaos Center"),
        ("step3", JSON.str "Start creating and running chaos experiments")])])]

/-- The keys of the four type-specific property blocks of a probe request. -/
def probeBlockKeys : List String :=
  ["kubernetesHTTPProperties", "kubernetesCMDProperties", "k8sProperties", "promProperties"]

/-- A property block with the documented defaults: `retry` 3, `attempt` 1, and
`probeTimeout` and `interval` read from the `timeout` and `interval` properties with the
defaults `5s` and `2s`. -/
def standardProbeBlock (properties : GoMap) (block : List (String × JSON)) : Prop :=
  lookupMember "retry" block = some (JSON.ofInt 3) ∧
  lookupMember "attempt" block = some (JSON.ofInt 1) ∧
  lookupMember "probeTimeout" block
    = some (JSON.str (getStringFromArgs properties "timeout" "5s")) ∧
  lookupMember "interval" block
    = some (JSON.str (getStringFromArgs properties "interval" "2s"))

/-- A probe request that holds an object under the block key `key`, with the documented
defaults, and nothing under the three other block keys. -/
def hasOnlyBlock (request : List (String × JSON)) (properties : GoMap) (key : String) : Prop :=
  (∃ block, lookupMember key request = some (JSON.obj block) ∧
    standardProbeBlock properties block) ∧
  ∀ other, other ∈ probeBlockKeys → other ≠ key → lookupMember other request = none

/-- The arguments of a `create_resilience_probe` call for a command probe with a timeout
and a non-string interval. -/
def cmdProbeArgs : GoMap :=
  some [("name", JSON.str "check"), ("type", JSON.str "cmdProbe"),
    ("properties", JSON.obj [("command", JSON.str "true"), ("timeout", JSON.str "10s"),
      ("interval", JSON.num 3)])]

/-- A handler call that returns the error `msg` without having issued a remote call. -/
def rejectsWith (r : Run) (msg : String) : Prop :=
  r.calls.length = 0 ∧ r.out = Outcome.error msg

/-- The argument `key` is a non-empty string. -/
def nonEmptyString (args : GoMap) (key : String) : Prop :=
  ∃ v, v ≠ "" ∧ mapLookup args key = some (JSON.str v)

/-- Arguments of `create_resilience_probe` with a type outside the four known ones. -/
def unknownProbeArgs : GoMap :=
  some [("name", JSON.str "check"), ("type", JSON.str "grpcProbe"),
    ("properties", JSON.obj [("timeout", JSON.str "10s")])]

/-- Arguments of `list_chaos_infrastructures` with a lower-case status. -/
def lowerCaseStatusArgs : GoMap :=
  some [("status", JSON.str "active")]

/-- Arguments of `stop_chaos_experiment` naming an experiment and one of its runs. -/
def stopRunArgs : GoMap :=
  some [("experimentId", JSON.str "exp-1"), ("experimentRunId", JSON.str "run-7")]

/-- The metadata name of a fault category, when the category is an object whose
`metadata` is an object with a string under `name`. -/
def categoryNameOf (cat : JSON) : Option String :=
  match cat with
  | JSON.obj members =>
    match lookupMember "metadata" members with
    | some (JSON.obj metadata) =>
      match lookupMember "name" metadata with
      | some (JSON.str name) => some name
      | _ => none
    | _ => none
  | _ => none

/-- The filter of `get_chaos_faults` as the specification words it: the category has a
metadata name that contains the requested category, both compared in lower case; with no
requested category every named category passes. -/
def nameContains (s : LitmusChaosServer) (category : String) (cat : JSON) : Bool :=
  match categoryNameOf cat with
  | some name => category = "" || stringsContains (s.rt.toLower name) (s.rt.toLower category)
  | none => false

/-- The relation between an input category and its entry in the output of
`get_chaos_faults`: the entry is what the loop body builds for the category, an object
whose `name` is the metadata name of the category. -/
def outputOfCategory (s : LitmusChaosServer) (category : String) (cat out : JSON) : Prop :=
  formatCategory s category cat = Outcome.ok (some out) ∧
  ∃ name members, categoryNameOf cat = some name ∧ out = JSON.obj members ∧
    lookupMember "name" members = some (JSON.str name)

/-- The value is a JSON object. -/
def JSON.isObject : JSON → Bool
  | JSON.obj _ => true
  | _ => false

/-- A fault category of the shape the loop of `getChaosFaults` asserts: an object with
objects under `metadata` and `spec`, a string under the `name` of the metadata, nothing,
null or an object under its `annotations`, and nothing, null or an array of objects under
the `faults` of the spec. -/
def wellShapedCategory (cat : JSON) : Bool :=
  match cat with
  | JSON.obj members =>
    match lookupMember "metadata" members, lookupMember "spec" members with
    | some (JSON.obj metadata), some (JSON.obj spec) =>
      (match lookupMember "name" metadata with
        | some (JSON.str _) => true
        | _ => false) &&
      (match lookupMember "annotations" metadata with
        | none => true
        | some JSON.null => true
        | some (JSON.obj _) => true
        | _ => false) &&
      (match lookupMember "faults" spec with
        | none => true
        | some JSON.null => true
        | some (JSON.arr faults) => faults.all JSON.isObject
        | _ => false)
    | _, _ => false
  | _ => false

/-- A fault category named `Pod-Faults`, with one fault and a vendor annotation. -/
def podCategory : JSON :=
  JSON.obj [
    ("metadata", JSON.obj [("name", JSON.str "Pod-Faults"),
      ("annotations", JSON.obj [("vendor", JSON.str "litmus")])]),
    ("spec", JSON.obj [("displayName", JSON.str "Pod faults"),
      ("faults", JSON.arr [JSON.obj [("name", JSON.str "pod-delete")]])])]

/-- A fault category named `node`, with no faults. -/
def nodeCategory : JSON :=
  JSON.obj [("metadata", JSON.obj [("name", JSON.str "node")]), ("spec", JSON.obj [])]

/-- A fault category named `pod-network`. -/
def networkCategory : JSON :=
  JSON.obj [("metadata", JSON.obj [("name", JSON.str "pod-network")]), ("spec", JSON.obj [])]

/-- The three categories a remote hub lists. -/
def hubCategories : List JSON := [podCategory, nodeCategory, networkCategory]

/-- A remote service whose hub lists the categories `hubCategories`. -/
def faultsRemote : HttpRequest → HttpReply :=
  remoteData (JSON.obj [("listChaosFaults", JSON.arr hubCategories)])

/-- Arguments of `get_chaos_faults` that ask for the category `POD`. -/
def podFaultsArgs : GoMap :=
  some [("hubId", JSON.str "hub-1"), ("category", JSON.str "POD")]

/-- A fault category with a metadata name and no `spec` member. -/
def categoryWithoutSpec : JSON :=
  JSON.obj [("metadata", JSON.obj [("name", JSON.str "pod")])]

/-- Arguments of `get_chaos_faults` that ask for the category `pod`. -/
def podArgs : GoMap :=
  some [("hubId", JSON.str "hub-1"), ("category", JSON.str "pod")]

/-- A remote service that answers every request with the variables it was sent, as data. -/
def echoRemote : HttpRequest → HttpReply :=
  fun req => HttpReply.envelope { Data := some (JSON.obj req.body.Variables), Errors := [] }

/-- A `tools/call` request without an id for the tool `stop_chaos_experiment`. -/
def stopWithoutIdRequest : MCPRequest :=
  { JSONRPC := "2.0", ID := JSON.null, Method := "tools/call"
    Params := some (JSON.obj [("name", JSON.str "stop_chaos_experiment"),
      ("arguments", JSON.obj [("experimentId", JSON.str "exp-1")])]) }

/-- A request without an id and with the method `notifications/initialized`. -/
def notificationWithoutIdRequest : MCPRequest :=
  { JSONRPC := "2.0", ID := JSON.null, Method := "notifications/initialized", Params := none }

/-- An outcome that, when it is a result, is the one text item built by `textResult`. -/
def producesText (s : LitmusChaosServer) (o : Outcome ToolResult) : Prop :=
  ∀ r, o = Outcome.ok r → ∃ response, r = textResult s response

/-- The test that a character is a lowercase ASCII letter or an underscore. -/
def toolNameChar (c : Char) : Bool :=
  ('a' ≤ c && c ≤ 'z') || c = '_'

/-! ## Accessors: what they return -/

/-- The nearest `float64` to the decimal 2.7, as an exact rational. -/
def float64_2_7 : ℚ := 6079859496950170 / 2251799813685248

/-- Truncation leaves an integer as it is. -/
theorem truncate_intCast (n : Int) : truncate (n : ℚ) = n := by
  simp [truncate]

/-- Within the range of `int`, the conversion of an integral number is that integer. -/
theorem float64ToInt_intCast (n : Int) (h : minInt ≤ n ∧ n ≤ maxInt) :
    float64ToInt (n : ℚ) = n := by
  simp [float64ToInt, truncate_intCast, h.1, h.2]

/-- The conversion of the `float64` nearest to 2.7. -/
theorem float64ToInt_2_7 : float64ToInt float64_2_7 = 2 := by
  have hn : float64_2_7.num = 3039929748475085 := by
    unfold float64_2_7; norm_num
  have hd : float64_2_7.den = 1125899906842624 := by
    unfold float64_2_7; norm_num
  have ht : truncate float64_2_7 = 2 := by
    unfold truncate; rw [hn, hd]; decide
  simp [float64ToInt, ht, minInt, maxInt]

/-- Claim C8. For every map, key and stored value: when the key is present with a value of
the requested shape, `getStringFromArgs`, `getBoolFromArgs`, `getMapFromArgs` and
`getSliceFromArgs` return exactly the stored value, whatever default was supplied. -/
theorem accessors_return_stored_value (args : GoMap) (key : String) :
    (∀ (v d : String), mapLookup args key = some (JSON.str v) →
        getStringFromArgs args key d = v) ∧
    (∀ (v d : Bool), mapLookup args key = some (JSON.bool v) →
        getBoolFromArgs args key d = v) ∧
    (∀ (m : List (String × JSON)), mapLookup args key = some (JSON.obj m) →
        getMapFromArgs args key = some m) ∧
    (∀ (xs : List JSON), mapLookup args key = some (JSON.arr xs) →
        getSliceFromArgs args key = some xs) := by
  refine ⟨?_, ?_, ?_, ?_⟩
  · intro v d h; simp [getStringFromArgs, h]
  · intro v d h; simp [getBoolFromArgs, h]
  · intro m h; simp [getMapFromArgs, h]
  · intro xs h; simp [getSliceFromArgs, h]

/-- Claim C9, counterexample. The key `n` holds the number 2.7 and `getIntFromArgs` returns 2,
which is not the stored number. -/
theorem getIntFromArgs_truncates_2_7 :
    getIntFromArgs (some [("n", JSON.num float64_2_7)]) "n" 0 = 2 ∧
    ((2 : Int) : ℚ) ≠ float64_2_7 := by
  refine ⟨?_, ?_⟩
  · simp [getIntFromArgs, mapLookup, lookupMember, float64ToInt_2_7]
  · unfold float64_2_7; norm_num

/-- Claim C9, amended. For every key that holds a JSON number, `getIntFromArgs` returns the
conversion `int(num)` of that number and not the default: the number itself when it is
integral and within the range of `int`, and in general (within that range) the number with
its fraction discarded, towards zero. -/
theorem getIntFromArgs_number (args : GoMap) (key : String) (q : ℚ) (d : Int)
    (h : mapLookup args key = some (JSON.num q)) :
    getIntFromArgs args key d = float64ToInt q ∧
    (∀ n : Int, q = (n : ℚ) → minInt ≤ n → n ≤ maxInt → getIntFromArgs args key d = n) ∧
    (minInt ≤ truncate q → truncate q ≤ maxInt → getIntFromArgs args key d = truncate q) := by
  have h0 : getIntFromArgs args key d = float64ToInt q := by simp [getIntFromArgs, h]
  refine ⟨h0, ?_, ?_⟩
  · intro n hq h1 h2
    rw [h0, hq]; exact float64ToInt_intCast n ⟨h1, h2⟩
  · intro h1 h2
    rw [h0]; simp [float64ToInt, h1, h2]

/-- The witness of `getIntFromArgs_number`: the key `limit` holds 10. -/
theorem getIntFromArgs_number_witness :
    getIntFromArgs (some [("limit", JSON.num 10)]) "limit" 0 = float64ToInt 10 ∧
    (∀ n : Int, (10 : ℚ) = (n : ℚ) → minInt ≤ n → n ≤ maxInt →
      getIntFromArgs (some [("limit", JSON.num 10)]) "limit" 0 = n) ∧
    (minInt ≤ truncate 10 → truncate 10 ≤ maxInt →
      getIntFromArgs (some [("limit", JSON.num 10)]) "limit" 0 = truncate 10) :=
  getIntFromArgs_number (some [("limit", JSON.num 10)]) "limit" 10 0
    (by simp [mapLookup, lookupMember])

/-- The witness of `accessors_return_stored_value`: four maps that hold a string, a
boolean, an object and an array under the key `k`. -/
theorem accessors_return_stored_value_witness :
    getStringFromArgs (some [("k", JSON.str "v")]) "k" "d" = "v" ∧
    getBoolFromArgs (some [("k", JSON.bool true)]) "k" false = true ∧
    getMapFromArgs (some [("k", JSON.obj [("a", JSON.null)])]) "k" = some [("a", JSON.null)] ∧
    getSliceFromArgs (some [("k", JSON.arr [JSON.null])]) "k" = some [JSON.null] :=
  ⟨(accessors_return_stored_value (some [("k", JSON.str "v")]) "k").1 "v" "d"
      (by simp [mapLookup, lookupMember]),
   (accessors_return_stored_value (some [("k", JSON.bool true)]) "k").2.1 true false
      (by simp [mapLookup, lookupMember]),
   (accessors_return_stored_value (some [("k", JSON.obj [("a", JSON.null)])]) "k").2.2.1
      [("a", JSON.null)] (by simp [mapLookup, lookupMember]),
   (accessors_return_stored_value (some [("k", JSON.arr [JSON.null])]) "k").2.2.2
      [JSON.null] (by simp [mapLookup, lookupMember])⟩

/-- Claim C10. For every key and default `d`: `getStringFromArgs`, `getIntFromArgs` and
`getBoolFromArgs` return `d`, and `getMapFromArgs` and `getSliceFromArgs` return nil,
when the map is nil, when the key is absent, and when the value under the key has another
shape than the requested one. The accessors are total: none of these cases fails. -/
theorem accessors_return_default (key : String) :
    (∀ d, getStringFromArgs none key d = d) ∧
    (∀ d, getIntFromArgs none key d = d) ∧
    (∀ d, getBoolFromArgs none key d = d) ∧
    getMapFromArgs none key = none ∧
    getSliceFromArgs none key = none ∧
    (∀ args, mapLookup args key = none →
      (∀ d, getStringFromArgs args key d = d) ∧
      (∀ d, getIntFromArgs args key d = d) ∧
      (∀ d, getBoolFromArgs args key d = d) ∧
      getMapFromArgs args key = none ∧
      getSliceFromArgs args key = none) ∧
    (∀ args v, mapLookup args key = some v →
      ((∀ str, v ≠ JSON.str str) → ∀ d, getStringFromArgs args key d = d) ∧
      ((∀ num, v ≠ JSON.num num) → ∀ d, getIntFromArgs args key d = d) ∧
      ((∀ b, v ≠ JSON.bool b) → ∀ d, getBoolFromArgs args key d = d) ∧
      ((∀ m, v ≠ JSON.obj m) → getMapFromArgs args key = none) ∧
      ((∀ xs, v ≠ JSON.arr xs) → getSliceFromArgs args key = none)) := by
  refine ⟨?_, ?_, ?_, ?_, ?_, ?_, ?_⟩
  · intro d; simp [getStringFromArgs, mapLookup]
  · intro d; simp [getIntFromArgs, mapLookup]
  · intro d; simp [getBoolFromArgs, mapLookup]
  · simp [getMapFromArgs, mapLookup]
  · simp [getSliceFromArgs, mapLookup]
  · intro args h
    simp [getStringFromArgs, getIntFromArgs, getBoolFromArgs, getMapFromArgs,
      getSliceFromArgs, h]
  · intro args v h
    refine ⟨?_, ?_, ?_, ?_, ?_⟩
    · intro hv d; cases v <;> simp_all [getStringFromArgs]
    · intro hv d; cases v <;> simp_all [getIntFromArgs]
    · intro hv d; cases v <;> simp_all [getBoolFromArgs]
    · intro hv; cases v <;> simp_all [getMapFromArgs]
    · intro hv; cases v <;> simp_all [getSliceFromArgs]

/-- The witness of `accessors_return_default`: the key `k` is absent from a map that
holds another key, and it holds a number where a string, a boolean, an object or an array
is requested, and a string where a number is requested. -/
theorem accessors_return_default_witness :
    getStringFromArgs (some [("other", JSON.str "v")]) "k" "d" = "d" ∧
    getStringFromArgs (some [("k", JSON.num 1)]) "k" "d" = "d" ∧
    getIntFromArgs (some [("k", JSON.str "1")]) "k" 7 = 7 ∧
    getBoolFromArgs (some [("k", JSON.num 1)]) "k" true = true ∧
    getMapFromArgs (some [("k", JSON.num 1)]) "k" = none ∧
    getSliceFromArgs (some [("k", JSON.num 1)]) "k" = none :=
  ⟨((accessors_return_default "k").2.2.2.2.2.1 (some [("other", JSON.str "v")])
      (by simp [mapLookup, lookupMember])).1 "d",
   ((accessors_return_default "k").2.2.2.2.2.2 (some [("k", JSON.num 1)]) (JSON.num 1)
      (by simp [mapLookup, lookupMember])).1 (by simp) "d",
   ((accessors_return_default "k").2.2.2.2.2.2 (some [("k", JSON.str "1")]) (JSON.str "1")
      (by simp [mapLookup, lookupMember])).2.1 (by simp) 7,
   ((accessors_return_default "k").2.2.2.2.2.2 (some [("k", JSON.num 1)]) (JSON.num 1)
      (by simp [mapLookup, lookupMember])).2.2.1 (by simp) true,
   ((accessors_return_default "k").2.2.2.2.2.2 (some [("k", JSON.num 1)]) (JSON.num 1)
      (by simp [mapLookup, lookupMember])).2.2.2.1 (by simp),
   ((accessors_return_default "k").2.2.2.2.2.2 (some [("k", JSON.num 1)]) (JSON.num 1)
      (by simp [mapLookup, lookupMember])).2.2.2.2 (by simp)⟩

/-! ## Protocol engine: lemmas -/

@[simp] theorem Outcome.pure_eq {α : Type} (a : α) : (pure a : Outcome α) = Outcome.ok a := rfl

@[simp] theorem Outcome.bind_eq {α β : Type} (x : Outcome α) (f : α → Outcome β) :
    (x >>= f) = Outcome.bind x f := rfl

@[simp] theorem Outcome.bind_ok {α β : Type} (a : α) (f : α → Outcome β) :
    Outcome.bind (Outcome.ok a) f = f a := rfl

@[simp] theorem Outcome.bind_error {α β : Type} (msg : String) (f : α → Outcome β) :
    Outcome.bind (Outcome.error msg) f = Outcome.error msg := rfl

@[simp] theorem Outcome.bind_panic {α β : Type} (msg : String) (f : α → Outcome β) :
    Outcome.bind (Outcome.panic msg) f = Outcome.panic msg := rfl

/-- The server of the worked inputs is the one `NewLitmusChaosServer` builds. -/
theorem exampleServer_eq (remote : HttpRequest → HttpReply) :
    NewLitmusChaosServer exampleGetenv remote exampleRuntime = some (exampleServer remote) := by
  simp [NewLitmusChaosServer, exampleGetenv, getEnvOrDefault, exampleServer]

/-- The configuration `NewLitmusChaosServer` builds never has an empty default environment. -/
theorem NewLitmusChaosServer_defaultEnvironment (getenv : String → String)
    (remote : HttpRequest → HttpReply) (rt : Runtime) (s : LitmusChaosServer)
    (h : NewLitmusChaosServer getenv remote rt = some s) :
    s.config.DefaultEnvironmentID ≠ "" ∧ s.config.ProjectID ≠ "" := by
  unfold NewLitmusChaosServer at h
  by_cases hp : getenv "LITMUS_PROJECT_ID" = ""
  · simp [hp] at h
  · simp only [hp, if_false, Option.some.injEq] at h
    subst h
    refine ⟨?_, hp⟩
    simp only [getEnvOrDefault]
    by_cases he : getenv "DEFAULT_ENVIRONMENT_ID" = ""
    · simp [he]
    · simp [he]

/-- Claim C2. For every request whose method is `initialized`, whatever its id and params,
`handleRequest` returns no response, and the main loop prints nothing for a line that
decodes to it: the loop goes on with the next line. -/
theorem initialized_yields_no_response (s : LitmusChaosServer) (req : MCPRequest)
    (h : req.Method = "initialized") :
    handleRequest s req = Handled.noResponse ∧
    ∀ (line : String) (rest : List String), s.rt.unmarshalLine line = some req →
      run s (line :: rest) = run s rest := by
  have h1 : handleRequest s req = Handled.noResponse := by
    simp [handleRequest, h]
  refine ⟨h1, ?_⟩
  intro line rest hl
  by_cases he : line = ""
  · simp [run, he]
  · simp [run, he, hl, h1]

/-- The witness of `initialized_yields_no_response`: an `initialized` request that carries
the id 7 and params. -/
theorem initialized_yields_no_response_witness :
    initializedRequest.Method = "initialized" ∧
    handleRequest (exampleServer (remoteData JSON.null)) initializedRequest
      = Handled.noResponse ∧
    ∀ (line : String) (rest : List String),
      (exampleServer (remoteData JSON.null)).rt.unmarshalLine line = some initializedRequest →
      run (exampleServer (remoteData JSON.null)) (line :: rest)
        = run (exampleServer (remoteData JSON.null)) rest :=
  ⟨rfl, initialized_yields_no_response (exampleServer (remoteData JSON.null))
    initializedRequest rfl⟩

/-- Claim C3. For every request whose method is none of `initialize`, `initialized`,
`tools/list` and `tools/call`, the response echoes the id, has no result, and has the
error with code -32601 and message `Method not found: ` followed by the method name, so
the message contains the unrecognized method name. -/
theorem unknown_method_error (s : LitmusChaosServer) (req : MCPRequest)
    (h1 : req.Method ≠ "initialize") (h2 : req.Method ≠ "initialized")
    (h3 : req.Method ≠ "tools/list") (h4 : req.Method ≠ "tools/call") :
    handleRequest s req = Handled.response
      { JSONRPC := "2.0", ID := req.ID, Result := none
        Error := some { Code := -32601, Message := "Method not found: " ++ req.Method } } ∧
    stringsContains ("Method not found: " ++ req.Method) req.Method = true := by
  refine ⟨?_, ?_⟩
  · simp [handleRequest, h1, h2, h3, h4]
  · simp only [stringsContains, decide_eq_true_eq, String.data_append]
    exact (List.suffix_append _ _).isInfix

/-- The names of the tool descriptors, in the order of `getTools`. -/
theorem getTools_names :
    getTools.map (fun t => t.Name) =
      ["list_chaos_experiments", "get_chaos_experiment", "run_chaos_experiment",
        "stop_chaos_experiment", "list_experiment_runs", "get_experiment_run_details",
        "list_chaos_infrastructures", "get_infrastructure_details", "list_environments",
        "create_environment", "list_resilience_probes", "create_resilience_probe",
        "list_chaos_hubs", "get_chaos_faults", "get_experiment_statistics",
        "register_chaos_infrastructure"] := by
  rfl

/-- A name outside the descriptors reaches the default case of the switch of `handleTool`. -/
theorem handleTool_unknown (s : LitmusChaosServer) (toolName : String) (arguments : RawMessage)
    (args : GoMap) (ha : unmarshalArguments arguments = Except.ok args)
    (hn : toolName ∉ getTools.map (fun t => t.Name)) :
    handleTool s toolName arguments = Run.fail ("unknown tool: " ++ toolName) := by
  rw [getTools_names] at hn
  simp only [List.mem_cons, List.mem_singleton, not_or, List.mem_nil_iff, or_false] at hn
  obtain ⟨h1, h2, h3, h4, h5, h6, h7, h8, h9, h10, h11, h12, h13, h14, h15, h16⟩ := hn
  simp [handleTool, ha, h1, h2, h3, h4, h5, h6, h7, h8, h9, h10, h11, h12, h13, h14, h15, h16]

/-- Arguments that do not decode end `handleTool` before the tool name is looked at. -/
theorem handleTool_bad_arguments (s : LitmusChaosServer) (toolName : String)
    (arguments : RawMessage) (cause : String)
    (ha : unmarshalArguments arguments = Except.error cause) :
    handleTool s toolName arguments = Run.fail ("failed to parse arguments: " ++ cause) := by
  simp [handleTool, ha]

/-- A text contains what it ends with. -/
theorem stringsContains_append (pre text : String) :
    stringsContains (pre ++ text) text = true := by
  simp only [stringsContains, decide_eq_true_eq, String.data_append]
  exact (List.suffix_append _ _).isInfix

/-- Every response of `handleRequest` echoes the id of the request and has exactly one of
result and error. -/
theorem handleRequest_response_shape (s : LitmusChaosServer) (req : MCPRequest)
    (resp : MCPResponse) (h : handleRequest s req = Handled.response resp) :
    resp.ID = req.ID ∧
    ((resp.Result.isSome = true ∧ resp.Error.isNone = true) ∨
      (resp.Result.isNone = true ∧ resp.Error.isSome = true)) := by
  unfold handleRequest at h
  by_cases h1 : req.Method = "initialize"
  · simp [h1] at h; subst h; simp
  · by_cases h2 : req.Method = "initialized"
    · simp [h2] at h
    · by_cases h3 : req.Method = "tools/list"
      · simp [h3] at h; subst h; simp
      · by_cases h4 : req.Method = "tools/call"
        · simp only [h4] at h
          cases hout : (handleCallTool s req.Params).out with
          | ok r => simp [hout] at h; subst h; simp
          | error msg => simp [hout] at h; subst h; simp
          | panic msg => simp [hout] at h
        · simp [h1, h2, h3, h4] at h; subst h; simp

/-- A request other than `initialized` is answered with a response unless a tool handler
panics. -/
theorem handleRequest_responds (s : LitmusChaosServer) (req : MCPRequest)
    (h : req.Method ≠ "initialized")
    (hp : ∀ msg, (handleCallTool s req.Params).out ≠ Outcome.panic msg) :
    ∃ resp, handleRequest s req = Handled.response resp := by
  unfold handleRequest
  by_cases h1 : req.Method = "initialize"
  · simp [h1]
  · by_cases h3 : req.Method = "tools/list"
    · simp [h3]
    · by_cases h4 : req.Method = "tools/call"
      · cases hout : (handleCallTool s req.Params).out with
        | ok r => simp [h4, hout]
        | error msg => simp [h4, hout]
        | panic msg => exact absurd hout (hp msg)
      · simp [h, h1, h3, h4]

/-- Claim C1, the failing input. The request `tools/call` of `run_chaos_experiment` with id 1
and `experimentId` "exp-1", when the remote service answers `{"data":
{"runChaosExperiment": null}}`: the unchecked assertion
`result["runChaosExperiment"].(map[string]interface{})` panics, so `handleRequest` returns
no response for a request that has an id and is not `initialized`, and the main loop ends
without a line of output. -/
theorem handleRequest_panics_on_null_payload :
    runExperimentRequest.ID = JSON.num 1 ∧
    runExperimentRequest.Method = "tools/call" ∧
    handleRequest (exampleServer (remoteData (JSON.obj [("runChaosExperiment", JSON.null)])))
      runExperimentRequest
    = Handled.panic "interface conversion: interface {} is nil, not map[string]interface {}" ∧
    run (exampleServer (remoteData (JSON.obj [("runChaosExperiment", JSON.null)])))
      [runExperimentLine]
    = { output := []
        crashed := some "interface conversion: interface {} is nil, not map[string]interface {}" } :=
  ⟨rfl, rfl, rfl, rfl⟩

/-- The witness of `unknown_method_error`: the method `notifications/initialized`. -/
theorem unknown_method_error_witness :
    handleRequest (exampleServer (remoteData JSON.null)) notificationRequest
    = Handled.response
      { JSONRPC := "2.0", ID := notificationRequest.ID, Result := none
        Error := some
          { Code := -32601, Message := "Method not found: " ++ notificationRequest.Method } } ∧
    stringsContains ("Method not found: " ++ notificationRequest.Method)
      notificationRequest.Method = true :=
  unknown_method_error (exampleServer (remoteData JSON.null)) notificationRequest
    (by decide) (by decide) (by decide) (by decide)

/-- Claim C4, counterexample. A `tools/call` that names the unregistered tool `foo` and
carries the array `[1]` as arguments: the arguments are decoded before the tool name is
looked at, so the error (code -32603) is the decoding error, whose message does not
contain the tool name. -/
theorem unknown_tool_message_lacks_name :
    "foo" ∉ getTools.map (fun t => t.Name) ∧
    handleRequest (exampleServer (remoteData JSON.null))
      (callRequest "foo" (JSON.arr [JSON.num 1]))
    = Handled.response
      { JSONRPC := "2.0", ID := JSON.num 1, Result := none
        Error := some { Code := -32603, Message := "failed to parse arguments: json: cannot unmarshal array into Go value of type map[string]interface {}" } } ∧
    stringsContains "failed to parse arguments: json: cannot unmarshal array into Go value of type map[string]interface {}" "foo" = false := by
  refine ⟨by decide, rfl, ?_⟩
  set_option maxRecDepth 100000 in decide

/-- The decoding of the arguments, shape by shape: an absent message and `null` leave the
map nil, an object in which every number literal is within the range of `float64` fills
it, an object with a number literal outside that range is the error of the first such
literal, and any other value is a type error. -/
theorem unmarshalArguments_cases :
    unmarshalArguments none = Except.ok none ∧
    unmarshalArguments (some JSON.null) = Except.ok none ∧
    (∀ kvs, firstBigNumOfMembers kvs = none →
      unmarshalArguments (some (JSON.obj kvs)) = Except.ok (some kvs)) ∧
    (∀ kvs literal, firstBigNumOfMembers kvs = some literal →
      unmarshalArguments (some (JSON.obj kvs)) = Except.error (numberRangeError literal)) ∧
    (∀ v, v ≠ JSON.null → (∀ kvs, v ≠ JSON.obj kvs) →
      unmarshalArguments (some v)
        = Except.error (unmarshalTypeError v "map[string]interface {}")) := by
  refine ⟨rfl, rfl, ?_, ?_, ?_⟩
  · intro kvs h
    simp [unmarshalArguments, unmarshalMap, h]
  · intro kvs literal h
    simp [unmarshalArguments, unmarshalMap, h]
  · intro v h1 h2
    cases v with
    | null => exact absurd rfl h1
    | obj kvs => exact absurd rfl (h2 kvs)
    | bool b => rfl
    | num q => rfl
    | str t => rfl
    | arr xs => rfl
    | bigNum literal => rfl

/-- Claim C4, amended. For every `tools/call` request whose params decode and name a tool
that is not registered: when the arguments are absent, null or an object in which every
number literal is within the range of `float64`, the response has no result and the error
with code -32603 and message `unknown tool: ` followed by the tool name, which contains
that name; when the arguments are an object with a number literal outside that range, or
any other JSON value, the response has the error with code -32603 and the message
`failed to parse arguments: ` followed by the message of the failed decoding. -/
theorem unknown_tool_error (s : LitmusChaosServer) (req : MCPRequest) (cp : CallParams)
    (hm : req.Method = "tools/call")
    (hp : unmarshalCallParams req.Params = Except.ok cp)
    (hn : cp.Name ∉ getTools.map (fun t => t.Name)) :
    (∀ args, unmarshalArguments cp.Arguments = Except.ok args →
      handleRequest s req = Handled.response
        { JSONRPC := "2.0", ID := req.ID, Result := none
          Error := some { Code := -32603, Message := "unknown tool: " ++ cp.Name } }) ∧
    stringsContains ("unknown tool: " ++ cp.Name) cp.Name = true ∧
    (∀ cause, unmarshalArguments cp.Arguments = Except.error cause →
      handleRequest s req = Handled.response
        { JSONRPC := "2.0", ID := req.ID, Result := none
          Error := some { Code := -32603, Message := "failed to parse arguments: " ++ cause } }) ∧
    ((cp.Arguments = none ∨ cp.Arguments = some JSON.null ∨
        ∃ kvs, cp.Arguments = some (JSON.obj kvs) ∧ firstBigNumOfMembers kvs = none) →
      handleRequest s req = Handled.response
        { JSONRPC := "2.0", ID := req.ID, Result := none
          Error := some { Code := -32603, Message := "unknown tool: " ++ cp.Name } }) ∧
    (∀ kvs literal, cp.Arguments = some (JSON.obj kvs) →
      firstBigNumOfMembers kvs = some literal →
      handleRequest s req = Handled.response
        { JSONRPC := "2.0", ID := req.ID, Result := none
          Error := some { Code := -32603
                          Message := "failed to parse arguments: " ++ numberRangeError literal } }) ∧
    (∀ v, cp.Arguments = some v → v ≠ JSON.null → (∀ kvs, v ≠ JSON.obj kvs) →
      handleRequest s req = Handled.response
        { JSONRPC := "2.0", ID := req.ID, Result := none
          Error := some { Code := -32603
                          Message := "failed to parse arguments: " ++
                            unmarshalTypeError v "map[string]interface {}" } }) := by
  have hok : ∀ args, unmarshalArguments cp.Arguments = Except.ok args →
      handleRequest s req = Handled.response
        { JSONRPC := "2.0", ID := req.ID, Result := none
          Error := some { Code := -32603, Message := "unknown tool: " ++ cp.Name } } := by
    intro args ha
    have h := handleTool_unknown s cp.Name cp.Arguments args ha hn
    simp [handleRequest, hm, handleCallTool, hp, h, Run.fail]
  have herr : ∀ cause, unmarshalArguments cp.Arguments = Except.error cause →
      handleRequest s req = Handled.response
        { JSONRPC := "2.0", ID := req.ID, Result := none
          Error := some { Code := -32603, Message := "failed to parse arguments: " ++ cause } } := by
    intro cause ha
    have h := handleTool_bad_arguments s cp.Name cp.Arguments cause ha
    simp [handleRequest, hm, handleCallTool, hp, h, Run.fail]
  obtain ⟨c1, c2, c3, c4, c5⟩ := unmarshalArguments_cases
  refine ⟨hok, stringsContains_append _ _, herr, ?_, ?_, ?_⟩
  · rintro (h | h | ⟨kvs, h, hb⟩)
    · exact hok none (by rw [h]; exact c1)
    · exact hok none (by rw [h]; exact c2)
    · exact hok (some kvs) (by rw [h]; exact c3 kvs hb)
  · intro kvs literal h hb
    exact herr _ (by rw [h]; exact c4 kvs literal hb)
  · intro v h h1 h2
    exact herr _ (by rw [h]; exact c5 v h1 h2)

/-- The witness of `unknown_tool_error`: a `tools/call` of the tool `foo` with the empty
object as arguments, and one with the object `{"x": 1e400}`. -/
theorem unknown_tool_error_witness :
    handleRequest (exampleServer (remoteData JSON.null)) (callRequest "foo" (JSON.obj []))
    = Handled.response
      { JSONRPC := "2.0", ID := JSON.num 1, Result := none
        Error := some { Code := -32603, Message := "unknown tool: " ++ "foo" } } ∧
    handleRequest (exampleServer (remoteData JSON.null))
      (callRequest "foo" (JSON.obj [("x", JSON.bigNum "1e400")]))
    = Handled.response
      { JSONRPC := "2.0", ID := JSON.num 1, Result := none
        Error := some { Code := -32603
                        Message := "failed to parse arguments: " ++
                          "json: cannot unmarshal number 1e400 into Go value of type float64" } } :=
  ⟨(unknown_tool_error (exampleServer (remoteData JSON.null)) (callRequest "foo" (JSON.obj []))
      { Name := "foo", Arguments := some (JSON.obj []) } rfl rfl (by decide)).1 (some []) rfl,
   (unknown_tool_error (exampleServer (remoteData JSON.null))
      (callRequest "foo" (JSON.obj [("x", JSON.bigNum "1e400")]))
      { Name := "foo", Arguments := some (JSON.obj [("x", JSON.bigNum "1e400")]) }
      rfl rfl (by decide)).2.2.2.2.1 [("x", JSON.bigNum "1e400")] "1e400" rfl rfl⟩

/-- Claim C5. For every request: an error in the response has code -32601 or -32603; a
`tools/call` whose handling returns an error is answered with that error under code
-32603 and without a result; and params that do not decode, arguments that do not decode,
an unknown tool name, a failed validation and a failed remote call are such errors. -/
theorem error_codes (s : LitmusChaosServer) (req : MCPRequest) :
    (∀ resp e, handleRequest s req = Handled.response resp → resp.Error = some e →
      e.Code = -32601 ∨ e.Code = -32603) ∧
    (req.Method = "tools/call" → ∀ msg, (handleCallTool s req.Params).out = Outcome.error msg →
      handleRequest s req = Handled.response
        { JSONRPC := "2.0", ID := req.ID, Result := none
          Error := some { Code := -32603, Message := msg } }) ∧
    (∀ cause, unmarshalCallParams req.Params = Except.error cause →
      (handleCallTool s req.Params).out
        = Outcome.error ("failed to parse call tool params: " ++ cause)) ∧
    (∀ cp cause, unmarshalCallParams req.Params = Except.ok cp →
      unmarshalArguments cp.Arguments = Except.error cause →
      (handleCallTool s req.Params).out = Outcome.error ("failed to parse arguments: " ++ cause)) ∧
    (∀ cp args, unmarshalCallParams req.Params = Except.ok cp →
      unmarshalArguments cp.Arguments = Except.ok args →
      cp.Name ∉ getTools.map (fun t => t.Name) →
      (handleCallTool s req.Params).out = Outcome.error ("unknown tool: " ++ cp.Name)) ∧
    (∀ msg, (Run.fail msg).out = Outcome.error msg) ∧
    (∀ query vars reshape cause, graphqlRequest s query vars = Except.error cause →
      (singleCall s query vars reshape).out = Outcome.error cause) := by
  refine ⟨?_, ?_, ?_, ?_, ?_, ?_, ?_⟩
  · intro resp e h he
    unfold handleRequest at h
    by_cases h1 : req.Method = "initialize"
    · simp [h1] at h; subst h; simp at he
    · by_cases h2 : req.Method = "initialized"
      · simp [h2] at h
      · by_cases h3 : req.Method = "tools/list"
        · simp [h3] at h; subst h; simp at he
        · by_cases h4 : req.Method = "tools/call"
          · simp only [h4] at h
            cases hout : (handleCallTool s req.Params).out with
            | ok r => simp [hout] at h; subst h; simp at he
            | error msg => simp [hout] at h; subst h; simp at he; subst he; simp
            | panic msg => simp [hout] at h
          · simp [h1, h2, h3, h4] at h; subst h; simp at he; subst he; simp
  · intro hm msg hout
    simp [handleRequest, hm, hout]
  · intro cause hc
    simp [handleCallTool, hc, Run.fail]
  · intro cp cause hc ha
    simp [handleCallTool, hc, handleTool_bad_arguments s cp.Name cp.Arguments cause ha, Run.fail]
  · intro cp args hc ha hn
    simp [handleCallTool, hc, handleTool_unknown s cp.Name cp.Arguments args ha hn, Run.fail]
  · intro msg; rfl
  · intro query vars reshape cause hc
    simp [singleCall, hc]

/-! ## Required arguments -/

/-- The pairs (tool, argument) that the input schemas of `getTools` mark as required. -/
theorem required_pairs (t : Tool) (a : String) (ht : t ∈ getTools) (ha : a ∈ t.required) :
    (t.Name, a) ∈ [("get_chaos_experiment", "experimentId"),
      ("run_chaos_experiment", "experimentId"), ("stop_chaos_experiment", "experimentId"),
      ("get_experiment_run_details", "experimentRunId"),
      ("get_infrastructure_details", "infraId"), ("create_environment", "name"),
      ("create_environment", "type"), ("create_resilience_probe", "name"),
      ("create_resilience_probe", "type"), ("create_resilience_probe", "properties"),
      ("get_chaos_faults", "hubId"), ("register_chaos_infrastructure", "name"),
      ("register_chaos_infrastructure", "environmentId"),
      ("register_chaos_infrastructure", "infraScope")] := by
  simp only [getTools, List.mem_cons, List.mem_singleton, List.mem_nil_iff, or_false] at ht
  rcases ht with h | h | h | h | h | h | h | h | h | h | h | h | h | h | h | h <;> subst h <;>
    simp [Tool.required, objectSchema, objectSchemaRequired, lookupMember, JSON.ofStrings,
      stringsOf] at ha ⊢ <;>
    exact ha

/-- The string accessor on an absent key. -/
theorem getStringFromArgs_absent (args : GoMap) (key d : String)
    (h : mapLookup args key = none) : getStringFromArgs args key d = d := by
  simp [getStringFromArgs, h]

/-- The map accessor on an absent key. -/
theorem getMapFromArgs_absent (args : GoMap) (key : String)
    (h : mapLookup args key = none) : getMapFromArgs args key = none := by
  simp [getMapFromArgs, h]

/-- A call that omits an argument its schema requires, other than `environmentId` of
`register_chaos_infrastructure`, ends in `handleTool` with an error and without a remote
call. -/
theorem required_omitted_fails (s : LitmusChaosServer) (t : Tool) (a : String)
    (ht : t ∈ getTools) (ha : a ∈ t.required)
    (hne : ¬ (t.Name = "register_chaos_infrastructure" ∧ a = "environmentId"))
    (arguments : RawMessage)
    (homit : ∀ args, unmarshalArguments arguments = Except.ok args → mapLookup args a = none) :
    ∃ msg, handleTool s t.Name arguments = Run.fail msg := by
  cases hargs : unmarshalArguments arguments with
  | error cause => exact ⟨_, handleTool_bad_arguments s t.Name arguments cause hargs⟩
  | ok args =>
    have hk := homit args hargs
    have hp := required_pairs t a ht ha
    simp only [List.mem_cons, List.mem_singleton, List.mem_nil_iff, or_false, Prod.mk.injEq] at hp
    rcases hp with ⟨hn, rfl⟩ | ⟨hn, rfl⟩ | ⟨hn, rfl⟩ | ⟨hn, rfl⟩ | ⟨hn, rfl⟩ | ⟨hn, rfl⟩ |
      ⟨hn, rfl⟩ | ⟨hn, rfl⟩ | ⟨hn, rfl⟩ | ⟨hn, rfl⟩ | ⟨hn, rfl⟩ | ⟨hn, rfl⟩ | ⟨hn, rfl⟩ | ⟨hn, rfl⟩
    all_goals
      first
        | (exfalso; apply hne; constructor
           · exact hn
           · rfl)
        | (simp only [handleTool, hargs, hn, getChaosExperiment, runChaosExperiment,
            stopChaosExperiment, getExperimentRunDetails, getInfrastructureDetails,
            createEnvironment, createResilienceProbe, getChaosFaults,
            registerChaosInfrastructure,
            getStringFromArgs_absent args _ _ hk, getMapFromArgs_absent args _ hk]
           simp
           repeat' split
           all_goals exact ⟨_, rfl⟩)

/-- The handler `runChaosExperiment` rejects every argument map in which `experimentId`
is not a non-empty string. -/
theorem runChaosExperiment_requires_id (s : LitmusChaosServer) (args : GoMap)
    (h : ∀ str, mapLookup args "experimentId" = some (JSON.str str) → str = "") :
    runChaosExperiment s args = Run.fail "experimentId is required" := by
  have hs : getStringFromArgs args "experimentId" "" = "" := by
    unfold getStringFromArgs
    split
    · next str hl => exact h str hl
    · rfl
  simp [runChaosExperiment, hs]

/-- With the configuration `NewLitmusChaosServer` builds, `registerChaosInfrastructure`
called with a name and a scope and without `environmentId` issues its remote call, with
the configured default environment in the request. -/
theorem register_falls_back_to_default (getenv : String → String)
    (remote : HttpRequest → HttpReply) (rt : Runtime) (s : LitmusChaosServer)
    (hs : NewLitmusChaosServer getenv remote rt = some s) (args : GoMap)
    (h1 : getStringFromArgs args "name" "" ≠ "")
    (h2 : getStringFromArgs args "infraScope" "" ≠ "")
    (h3 : mapLookup args "environmentId" = none) :
    ∃ request, (registerChaosInfrastructure s args).calls
        = [graphqlRequestBody s "RegisterInfra" (some [("request", JSON.obj request)])] ∧
      lookupMember "environmentID" request = some (JSON.str s.config.DefaultEnvironmentID) := by
  have hd := (NewLitmusChaosServer_defaultEnvironment getenv remote rt s hs).1
  simp only [registerChaosInfrastructure, h1, h2, getStringFromArgs_absent args _ _ h3, hd,
    singleCall, if_false]
  exact ⟨_, rfl, by simp [lookupMember]⟩

/-- Claim C6, counterexample. The schema of `register_chaos_infrastructure` lists
`environmentId` as required; a `tools/call` that gives a name and a scope and omits
`environmentId` is answered with a result and no error. -/
theorem register_call_without_environmentId_gets_result :
    registerTool ∈ getTools ∧ registerTool.Name = "register_chaos_infrastructure" ∧
    "environmentId" ∈ registerTool.required ∧
    mapLookup (some [("name", JSON.str "edge"), ("infraScope", JSON.str "cluster")])
      "environmentId" = none ∧
    ∃ result, handleRequest (exampleServer registerRemote)
      (callRequest "register_chaos_infrastructure"
        (JSON.obj [("name", JSON.str "edge"), ("infraScope", JSON.str "cluster")]))
      = Handled.response
        { JSONRPC := "2.0", ID := JSON.num 1
          Result := some (ResultPayload.toolResult result), Error := none } :=
  ⟨List.get_mem _ _ _, rfl, by decide, rfl, _, rfl⟩

/-- Claim C6, amended. For every `tools/call` whose params decode: when it omits an
argument that the input schema of its tool lists as required, other than `environmentId`
of `register_chaos_infrastructure`, the response has no result and an error with code
-32603; and `run_chaos_experiment` with `experimentId` absent, empty or not a string is
answered with the error `experimentId is required`. -/
theorem missing_required_argument_is_error (s : LitmusChaosServer) (req : MCPRequest)
    (cp : CallParams) (hm : req.Method = "tools/call")
    (hp : unmarshalCallParams req.Params = Except.ok cp) :
    (∀ (t : Tool) (a : String), t ∈ getTools → cp.Name = t.Name → a ∈ t.required →
      ¬ (t.Name = "register_chaos_infrastructure" ∧ a = "environmentId") →
      (∀ args, unmarshalArguments cp.Arguments = Except.ok args → mapLookup args a = none) →
      ∃ msg, handleRequest s req = Handled.response
        { JSONRPC := "2.0", ID := req.ID, Result := none
          Error := some { Code := -32603, Message := msg } }) ∧
    (∀ args, cp.Name = "run_chaos_experiment" →
      unmarshalArguments cp.Arguments = Except.ok args →
      (∀ str, mapLookup args "experimentId" = some (JSON.str str) → str = "") →
      handleRequest s req = Handled.response
        { JSONRPC := "2.0", ID := req.ID, Result := none
          Error := some { Code := -32603, Message := "experimentId is required" } }) := by
  refine ⟨?_, ?_⟩
  · intro t a ht hname ha hne homit
    obtain ⟨msg, h⟩ := required_omitted_fails s t a ht ha hne cp.Arguments homit
    refine ⟨msg, ?_⟩
    simp [handleRequest, hm, handleCallTool, hp, hname, h, Run.fail]
  · intro args hname hargs hid
    have h := runChaosExperiment_requires_id s args hid
    simp [handleRequest, hm, handleCallTool, hp, hname, handleTool, hargs, h, Run.fail]

/-- The witness of `missing_required_argument_is_error`: a `tools/call` of
`run_chaos_experiment` with the empty object as arguments. -/
theorem missing_required_argument_is_error_witness :
    handleRequest (exampleServer (remoteData JSON.null))
      (callRequest "run_chaos_experiment" (JSON.obj []))
    = Handled.response
      { JSONRPC := "2.0", ID := JSON.num 1, Result := none
        Error := some { Code := -32603, Message := "experimentId is required" } } :=
  (missing_required_argument_is_error (exampleServer (remoteData JSON.null))
    (callRequest "run_chaos_experiment" (JSON.obj []))
    { Name := "run_chaos_experiment", Arguments := some (JSON.obj []) } rfl rfl).2
    (some []) rfl rfl (by simp [mapLookup, lookupMember])

/-- Claim C7, counterexample. The argument `environmentId` is in the `required` list of
`register_chaos_infrastructure`; the handler called without it (and without any other
optional argument) sends one request to the remote service and returns a result. -/
theorem register_without_environmentId_returns_result :
    "environmentId" ∈ registerTool.required ∧
    mapLookup (some [("infraScope", JSON.str "namespace"), ("name", JSON.str "staging")])
      "environmentId" = none ∧
    (handleTool (exampleServer registerRemote) registerTool.Name
      (some (JSON.obj [("infraScope", JSON.str "namespace"), ("name", JSON.str "staging")]))).calls.length
      = 1 ∧
    ∃ result, (handleTool (exampleServer registerRemote) registerTool.Name
      (some (JSON.obj [("infraScope", JSON.str "namespace"), ("name", JSON.str "staging")]))).out
      = Outcome.ok result :=
  ⟨by decide, rfl, rfl, _, rfl⟩

/-- Claim C7, amended. For every registered tool and every argument in the `required`
list of its input schema in `getTools`, except `environmentId` of
`register_chaos_infrastructure`, a call of that tool that omits the argument returns an
error and no result, before any remote call. For `environmentId` the handler falls back to
the configured default environment id, which `NewLitmusChaosServer` never leaves empty:
a call that gives a name and a scope and omits `environmentId` is not rejected, and sends
the request with the default environment. -/
theorem required_arguments_enforced (s : LitmusChaosServer) (t : Tool) (a : String)
    (ht : t ∈ getTools) (ha : a ∈ t.required) :
    (¬ (t.Name = "register_chaos_infrastructure" ∧ a = "environmentId") →
      ∀ arguments,
        (∀ args, unmarshalArguments arguments = Except.ok args → mapLookup args a = none) →
        ∃ msg, (handleTool s t.Name arguments).out = Outcome.error msg ∧
          (handleTool s t.Name arguments).calls = []) ∧
    (∀ getenv remote rt, NewLitmusChaosServer getenv remote rt = some s →
      ∀ args, getStringFromArgs args "name" "" ≠ "" →
        getStringFromArgs args "infraScope" "" ≠ "" →
        mapLookup args "environmentId" = none →
        ∃ request, (registerChaosInfrastructure s args).calls
            = [graphqlRequestBody s "RegisterInfra" (some [("request", JSON.obj request)])] ∧
          lookupMember "environmentID" request
            = some (JSON.str s.config.DefaultEnvironmentID)) := by
  refine ⟨?_, ?_⟩
  · intro hne arguments homit
    obtain ⟨msg, h⟩ := required_omitted_fails s t a ht ha hne arguments homit
    exact ⟨msg, by simp [h, Run.fail], by simp [h, Run.fail]⟩
  · intro getenv remote rt hs args h1 h2 h3
    exact register_falls_back_to_default getenv remote rt s hs args h1 h2 h3

/-- The witness of `required_arguments_enforced`: `run_chaos_experiment` called with the
empty object as arguments. -/
theorem required_arguments_enforced_witness :
    ∃ msg, (handleTool (exampleServer (remoteData JSON.null)) runTool.Name
        (some (JSON.obj []))).out = Outcome.error msg ∧
      (handleTool (exampleServer (remoteData JSON.null)) runTool.Name
        (some (JSON.obj []))).calls = [] :=
  (required_arguments_enforced (exampleServer (remoteData JSON.null)) runTool "experimentId"
    (List.get_mem _ _ _) (by decide)).1 (by decide) (some (JSON.obj []))
    (by intro args h; simp [unmarshalArguments, unmarshalMap, firstBigNumOfMembers] at h; subst h;
        simp [mapLookup, lookupMember])

/-! ## Nested lookup -/

/-- The nested lookup reads the path the way `stringAtPath` does. -/
theorem getNestedString_eq_stringAtPath (obj : GoMap) (keys : List String) :
    getNestedString obj keys = stringAtPath (GoMap.toJSON obj) keys := by
  induction keys generalizing obj with
  | nil => cases obj <;> simp [getNestedString, stringAtPath, valueAtPath, GoMap.toJSON]
  | cons key rest ih =>
    cases rest with
    | nil =>
      cases obj with
      | none => simp [getNestedString, stringAtPath, valueAtPath, GoMap.toJSON, mapLookup]
      | some members =>
        simp only [getNestedString, stringAtPath, valueAtPath, GoMap.toJSON, mapLookup]
        cases h : lookupMember key members with
        | none => simp
        | some v => cases v <;> simp
    | cons key2 rest2 =>
      cases obj with
      | none =>
        simp [getNestedString, stringAtPath, valueAtPath, GoMap.toJSON, mapIndex, mapLookup]
      | some members =>
        rw [getNestedString]
        · simp only [mapIndex, mapLookup, stringAtPath, GoMap.toJSON]
          rw [valueAtPath]
          cases h : lookupMember key members with
          | none => simp
          | some v =>
            cases v with
            | obj next =>
              simp only [Option.getD_some]
              rw [ih (some next)]
              simp [stringAtPath, GoMap.toJSON]
            | null => simp [valueAtPath]
            | bool b => simp [valueAtPath]
            | num q => simp [valueAtPath]
            | str t => simp [valueAtPath]
            | arr xs => simp [valueAtPath]
            | bigNum literal => simp [valueAtPath]
        · simp

/-- Claim C11. For every object and every key path, `getNestedString` returns the string
stored at the end of the path when every intermediate key maps to an object and the last
key maps to a string, and the empty string otherwise (a missing key, a null or non-object
intermediate value, a non-string leaf, a nil object, the empty path); on
`{"createdBy":{"username":"alice"}}` the path `createdBy`, `username` gives `alice`, and on
`{"createdBy":null}` and `{}` it gives the empty string. -/
theorem getNestedString_spec (obj : GoMap) (keys : List String) :
    getNestedString obj keys = stringAtPath (GoMap.toJSON obj) keys ∧
    getNestedString none keys = "" ∧
    getNestedString obj [] = "" ∧
    (∀ (key : String) (rest : List String) (next : List (String × JSON)),
      mapLookup obj key = some (JSON.obj next) → rest ≠ [] →
      getNestedString obj (key :: rest) = getNestedString (some next) rest) ∧
    (∀ (key : String) (rest : List String), rest ≠ [] →
      (∀ next, mapLookup obj key ≠ some (JSON.obj next)) →
      getNestedString obj (key :: rest) = "") ∧
    (∀ (key str : String), mapLookup obj key = some (JSON.str str) →
      getNestedString obj [key] = str) ∧
    (∀ (key : String), (∀ str, mapLookup obj key ≠ some (JSON.str str)) →
      getNestedString obj [key] = "") ∧
    getNestedString (some aliceObject) ["createdBy", "username"] = "alice" ∧
    getNestedString (some [("createdBy", JSON.null)]) ["createdBy", "username"] = "" ∧
    getNestedString (some []) ["createdBy", "username"] = "" := by
  refine ⟨getNestedString_eq_stringAtPath obj keys, ?_, ?_, ?_, ?_, ?_, ?_, rfl, rfl, rfl⟩
  · rw [getNestedString_eq_stringAtPath]
    cases keys <;> simp [stringAtPath, valueAtPath, GoMap.toJSON]
  · simp [getNestedString]
  · intro key rest next h hr
    cases rest with
    | nil => exact absurd rfl hr
    | cons k2 r2 => rw [getNestedString]; simp [mapIndex, h]; simp
  · intro key rest hr h
    cases rest with
    | nil => exact absurd rfl hr
    | cons k2 r2 =>
      rw [getNestedString]
      · cases hl : mapLookup obj key with
        | none => simp [mapIndex, hl]
        | some v =>
          cases v with
          | obj next => exact absurd hl (h next)
          | null => simp [mapIndex, hl]
          | bool b => simp [mapIndex, hl]
          | num q => simp [mapIndex, hl]
          | str t => simp [mapIndex, hl]
          | arr xs => simp [mapIndex, hl]
          | bigNum literal => simp [mapIndex, hl]
      · simp
  · intro key str h
    simp [getNestedString, h]
  · intro key h
    cases hl : mapLookup obj key with
    | none => simp [getNestedString, hl]
    | some v =>
      cases v with
      | str t => exact absurd hl (h t)
      | null => simp [getNestedString, hl]
      | bool b => simp [getNestedString, hl]
      | num q => simp [getNestedString, hl]
      | obj next => simp [getNestedString, hl]
      | arr xs => simp [getNestedString, hl]
      | bigNum literal => simp [getNestedString, hl]

/-! ## Remote call client -/

/-- A member list after `m[key] = v` holds `v` under `key`. -/
theorem lookupMember_append_same (kvs : List (String × JSON)) (key : String) (v : JSON) :
    lookupMember key (kvs ++ [(key, v)]) = some v := by
  induction kvs with
  | nil => simp [lookupMember]
  | cons p rest ih =>
    obtain ⟨k, w⟩ := p
    simp [lookupMember, ih]

/-- A member added under another key does not change what a key denotes. -/
theorem lookupMember_append_other (kvs : List (String × JSON)) (key other : String) (v : JSON)
    (h : other ≠ key) :
    lookupMember other (kvs ++ [(key, v)]) = lookupMember other kvs := by
  induction kvs with
  | nil => simp [lookupMember, Ne.symm h]
  | cons p rest ih =>
    obtain ⟨k, w⟩ := p
    simp [lookupMember, ih]

/-- Dropping the members of one key does not change what another key denotes. -/
theorem lookupMember_filter_other (kvs : List (String × JSON)) (key other : String)
    (h : other ≠ key) :
    lookupMember other (kvs.filter (fun p => p.1 ≠ key)) = lookupMember other kvs := by
  induction kvs with
  | nil => simp [lookupMember]
  | cons p rest ih =>
    obtain ⟨k, w⟩ := p
    by_cases hk : k = key
    · subst hk
      have hf : List.filter (fun p : String × JSON => decide (p.1 ≠ k)) ((k, w) :: rest)
          = List.filter (fun p : String × JSON => decide (p.1 ≠ k)) rest := by
        simp [List.filter]
      rw [hf, ih]
      simp only [lookupMember, Ne.symm h, if_false]
      cases lookupMember other rest <;> rfl
    · have hf : List.filter (fun p : String × JSON => decide (p.1 ≠ key)) ((k, w) :: rest)
          = (k, w) :: List.filter (fun p : String × JSON => decide (p.1 ≠ key)) rest := by
        simp [List.filter, hk]
      rw [hf]
      simp only [lookupMember]
      rw [ih]

/-- Reading the key just assigned. -/
theorem lookupMember_mapSet_same (kvs : List (String × JSON)) (key : String) (v : JSON) :
    lookupMember key (mapSet kvs key v) = some v := by
  simp [mapSet, lookupMember_append_same]

/-- Reading another key than the one just assigned. -/
theorem lookupMember_mapSet_other (kvs : List (String × JSON)) (key other : String) (v : JSON)
    (h : other ≠ key) :
    lookupMember other (mapSet kvs key v) = lookupMember other kvs := by
  simp only [mapSet]
  rw [lookupMember_append_other _ _ _ _ h, lookupMember_filter_other _ _ _ h]

/-- Claim C12. For every variable set passed to `graphqlRequest`, the nil one included:
the remote service, whatever it is, is handed one request, and what `graphqlRequest`
returns is what the exchange on that request gives; the variables in the body of that
request hold the configured project id under `projectID`, whatever the caller supplied
under that key, and every other key denotes what it denotes in the caller's set; a remote
service that answers with the variables it was sent shows the caller's `projectID`
replaced and the caller's other key kept. -/
theorem graphqlRequest_injects_projectID (s : LitmusChaosServer) (query : String)
    (vars : GoMap) :
    (∀ client : HttpRequest → HttpReply,
      graphqlRequest { s with httpClient := client } query vars
        = match graphqlReturn (client (graphqlHttpRequest s (graphqlRequestBody s query vars))) with
          | (data, none) => Except.ok data
          | (_, some msg) => Except.error msg) ∧
    (graphqlHttpRequest s (graphqlRequestBody s query vars)).body.Query = query ∧
    lookupMember "projectID"
        (graphqlHttpRequest s (graphqlRequestBody s query vars)).body.Variables
      = some (JSON.str s.config.ProjectID) ∧
    (∀ key, key ≠ "projectID" →
      lookupMember key (graphqlHttpRequest s (graphqlRequestBody s query vars)).body.Variables
        = mapLookup vars key) ∧
    (graphqlHttpRequest s (graphqlRequestBody s query none)).body.Variables
      = [("projectID", JSON.str s.config.ProjectID)] ∧
    graphqlRequest (exampleServer echoRemote) query
        (some [("projectID", JSON.str "other"), ("limit", JSON.num 5)])
      = Except.ok (some (JSON.obj [("limit", JSON.num 5), ("projectID", JSON.str "project-1")])) ∧
    lookupMember "projectID" (graphqlRequestBody s query vars).Variables
      = some (JSON.str s.config.ProjectID) ∧
    (∀ key, key ≠ "projectID" →
      lookupMember key (graphqlRequestBody s query vars).Variables = mapLookup vars key) ∧
    (graphqlRequestBody s query none).Variables = [("projectID", JSON.str s.config.ProjectID)] ∧
    (graphqlRequestBody s query vars).Query = query ∧
    graphqlRequest s query vars = replyTo s (graphqlRequestBody s query vars) := by
  have hp : lookupMember "projectID" (graphqlRequestBody s query vars).Variables
      = some (JSON.str s.config.ProjectID) := by
    simp [graphqlRequestBody, lookupMember_mapSet_same]
  have ho : ∀ key, key ≠ "projectID" →
      lookupMember key (graphqlRequestBody s query vars).Variables = mapLookup vars key := by
    intro key hk
    simp only [graphqlRequestBody]
    rw [lookupMember_mapSet_other _ _ _ _ hk]
    cases vars <;> simp [mapLookup, lookupMember]
  have hn : (graphqlRequestBody s query none).Variables
      = [("projectID", JSON.str s.config.ProjectID)] := by
    simp [graphqlRequestBody, mapSet]
  refine ⟨?_, rfl, hp, ho, hn, rfl, hp, ho, hn, rfl, ?_⟩
  · intro client
    simp only [graphqlRequest, graphqlReturn, graphqlHttpRequest, graphqlRequestBody]
    cases client _ with
    | envelope gqlResp => by_cases h : gqlResp.Errors.length > 0 <;> simp [h]
    | _ => simp
  · simp only [graphqlRequest, replyTo, graphqlReturn]
    cases s.httpClient (graphqlHttpRequest s (graphqlRequestBody s query vars)) with
    | envelope gqlResp => by_cases h : gqlResp.Errors.length > 0 <;> simp [h]
    | _ => simp

/-- The error list of an envelope is non-empty exactly when its length is positive. -/
theorem errors_length_pos (gqlResp : GraphQLResponse) :
    gqlResp.Errors.length > 0 ↔ gqlResp.Errors ≠ [] := by
  cases gqlResp.Errors <;> simp

/-- The helper `graphqlRequest` returns what `graphqlReturn` gives for the HTTP exchange. -/
theorem graphqlRequest_eq_return (s : LitmusChaosServer) (query : String) (vars : GoMap) :
    graphqlRequest s query vars
      = match graphqlReturn
          (s.httpClient (graphqlHttpRequest s (graphqlRequestBody s query vars))) with
        | (data, none) => Except.ok data
        | (_, some msg) => Except.error msg := by
  simp only [graphqlRequest, graphqlReturn]
  cases s.httpClient (graphqlHttpRequest s (graphqlRequestBody s query vars)) with
  | envelope gqlResp => by_cases h : gqlResp.Errors.length > 0 <;> simp [h]
  | _ => simp

/-- Claim C13, counterexample. An envelope with data and the two errors `first` and
`second`: the error returned has the message `GraphQL errors: first, second`, which is not
the comma-joined concatenation `first, second` (nor `first,second`) of the listed
messages. -/
theorem graphql_error_message_has_prefix :
    graphqlReturn (HttpReply.envelope twoErrorsEnvelope)
      = (none, some "GraphQL errors: first, second") ∧
    graphqlRequest (exampleServer (fun _ => HttpReply.envelope twoErrorsEnvelope))
      "ListExperiment" none = Except.error "GraphQL errors: first, second" ∧
    "GraphQL errors: first, second"
      ≠ ", ".intercalate (twoErrorsEnvelope.Errors.map (fun e => e.Message)) ∧
    "GraphQL errors: first, second"
      ≠ ",".intercalate (twoErrorsEnvelope.Errors.map (fun e => e.Message)) := by
  refine ⟨rfl, rfl, by decide, by decide⟩

/-- Claim C13, amended. For every remote response envelope whose error list is non-empty,
`graphqlRequest` returns nil data, also when the envelope carries data, and a single error
whose message is `GraphQL errors: ` followed by all listed error messages, in listed
order, joined with a comma and a blank. -/
theorem graphql_errors_joined (gqlResp : GraphQLResponse) (h : gqlResp.Errors ≠ []) :
    graphqlReturn (HttpReply.envelope gqlResp)
      = (none, some ("GraphQL errors: " ++
          ", ".intercalate (gqlResp.Errors.map (fun e => e.Message)))) ∧
    (∀ (s : LitmusChaosServer) (query : String) (vars : GoMap),
      s.httpClient (graphqlHttpRequest s (graphqlRequestBody s query vars))
        = HttpReply.envelope gqlResp →
      graphqlRequest s query vars
        = Except.error ("GraphQL errors: " ++
            ", ".intercalate (gqlResp.Errors.map (fun e => e.Message)))) := by
  have hl : gqlResp.Errors.length > 0 := (errors_length_pos gqlResp).2 h
  refine ⟨by simp [graphqlReturn, hl], ?_⟩
  intro s query vars hr
  simp [graphqlRequest, hr, hl]

/-- The witness of `graphql_errors_joined`: the envelope with data and two errors. -/
theorem graphql_errors_joined_witness :
    graphqlReturn (HttpReply.envelope twoErrorsEnvelope)
      = (none, some ("GraphQL errors: " ++
          ", ".intercalate (twoErrorsEnvelope.Errors.map (fun e => e.Message)))) :=
  (graphql_errors_joined twoErrorsEnvelope (by simp [twoErrorsEnvelope])).1

/-- Claim C14. For every remote response envelope that decodes, `graphqlRequest` returns
the raw data of the envelope unchanged and a nil error if and only if the error list is
empty (or absent); and whatever the HTTP exchange gives, it never returns both data and an
error. -/
theorem graphql_data_iff_no_errors (gqlResp : GraphQLResponse) :
    (graphqlReturn (HttpReply.envelope gqlResp) = (gqlResp.Data, none)
      ↔ gqlResp.Errors = []) ∧
    (∀ (s : LitmusChaosServer) (query : String) (vars : GoMap),
      s.httpClient (graphqlHttpRequest s (graphqlRequestBody s query vars))
        = HttpReply.envelope gqlResp →
      (graphqlRequest s query vars = Except.ok gqlResp.Data ↔ gqlResp.Errors = [])) ∧
    (∀ reply : HttpReply, (graphqlReturn reply).1 = none ∨ (graphqlReturn reply).2 = none) := by
  refine ⟨?_, ?_, ?_⟩
  · by_cases h : gqlResp.Errors = []
    · simp [graphqlReturn, h]
    · have hl : gqlResp.Errors.length > 0 := (errors_length_pos gqlResp).2 h
      simp [graphqlReturn, hl, h]
  · intro s query vars hr
    by_cases h : gqlResp.Errors = []
    · simp [graphqlRequest, hr, h]
    · have hl : gqlResp.Errors.length > 0 := (errors_length_pos gqlResp).2 h
      simp [graphqlRequest, hr, hl, h]
  · intro reply
    cases reply with
    | envelope r =>
      by_cases h : r.Errors.length > 0 <;> simp [graphqlReturn, h]
    | _ => simp [graphqlReturn]

/-! ## Handlers: request variables and remote calls -/

/-- The pagination block `listChaosExperiments` puts in its request. -/
theorem listChaosExperimentsRequest_pagination (args : GoMap) :
    lookupMember "pagination" (listChaosExperimentsRequest args)
      = some (JSON.obj [
          ("page", JSON.ofInt (getIntFromArgs (getMapFromArgs args "pagination") "page" 0)),
          ("limit", JSON.ofInt (getIntFromArgs (getMapFromArgs args "pagination") "limit" 10))]) := by
  unfold listChaosExperimentsRequest
  cases getMapFromArgs args "filter" with
  | none => simp [lookupMember]
  | some filter =>
    simp only []
    rw [lookupMember_mapSet_other _ _ _ _ (by decide)]
    simp [lookupMember]

/-- The filter `listChaosExperiments` puts in its request. -/
theorem listChaosExperimentsRequest_filter (args : GoMap) :
    lookupMember "filter" (listChaosExperimentsRequest args)
      = (getMapFromArgs args "filter").map JSON.obj := by
  unfold listChaosExperimentsRequest
  cases getMapFromArgs args "filter" with
  | none => simp [lookupMember]
  | some filter => simp [lookupMember_mapSet_same]

/-- The map accessor finds a map exactly when the key holds an object. -/
theorem getMapFromArgs_eq_some (args : GoMap) (key : String) (m : List (String × JSON)) :
    getMapFromArgs args key = some m ↔ mapLookup args key = some (JSON.obj m) := by
  unfold getMapFromArgs
  cases h : mapLookup args key with
  | none => simp
  | some v => cases v <;> simp

/-- The integer accessor on a value that is not a number. -/
theorem getIntFromArgs_not_number (args : GoMap) (key : String) (d : Int)
    (h : ∀ q, mapLookup args key ≠ some (JSON.num q)) : getIntFromArgs args key d = d := by
  unfold getIntFromArgs
  split
  · next q hq => exact absurd hq (h q)
  · rfl

/-- The conversion `int(num)` of the number 10000000000000000000, which is beyond the
largest `int`. -/
theorem float64ToInt_beyond_maxInt : float64ToInt 10000000000000000000 = minInt := by
  have ht : truncate (10000000000000000000 : ℚ) = 10000000000000000000 := by
    have h := truncate_intCast 10000000000000000000
    simpa using h
  simp [float64ToInt, ht, minInt, maxInt]

/-- Claim C15, counterexample. The tool `list_chaos_experiments` given
`{"pagination": {"page": 10000000000000000000, "limit": 10}}`: the page supplied is an
integer value, and the page in the request is -9223372036854775808, not that value. -/
theorem list_experiments_page_beyond_int :
    lookupMember "pagination" (listChaosExperimentsRequest
        (some [("pagination", JSON.obj [("page", JSON.num 10000000000000000000),
          ("limit", JSON.num 10)])]))
      = some (JSON.obj [("page", JSON.ofInt (-9223372036854775808)),
          ("limit", JSON.ofInt 10)]) ∧
    (-9223372036854775808 : ℚ) ≠ 10000000000000000000 := by
  have h10 : float64ToInt 10 = 10 := by
    have h := float64ToInt_intCast 10 (by simp [minInt, maxInt])
    simpa using h
  refine ⟨?_, by norm_num⟩
  rw [listChaosExperimentsRequest_pagination]
  simp [getMapFromArgs, getIntFromArgs, mapLookup, lookupMember, float64ToInt_beyond_maxInt,
    h10, minInt]

/-- Claim C15, amended. For every argument object given to `list_chaos_experiments`: the
handler sends one request whose variable `request` always holds `pagination` with `page`
and `limit`; each is the conversion `int(num)` of the number supplied under it, which is
the supplied value itself when that is an integer within the range of `int`, and within
that range the supplied value with its fraction discarded towards zero; each is its
default, 0 and 10, when nothing or something other than a number is supplied; the request
holds a `filter` key if and only if the arguments hold an object under `filter` (then
that object); with `{"pagination":{"page":0,"limit":10}}` and no filter the request is
exactly `pagination: {page: 0, limit: 10}`, without a `filter` key. -/
theorem listChaosExperiments_request (s : LitmusChaosServer) (args : GoMap) :
    (listChaosExperiments s args).calls
      = [graphqlRequestBody s "ListExperiment"
          (some [("request", JSON.obj (listChaosExperimentsRequest args))])] ∧
    lookupMember "pagination" (listChaosExperimentsRequest args)
      = some (JSON.obj [
          ("page", JSON.ofInt (getIntFromArgs (getMapFromArgs args "pagination") "page" 0)),
          ("limit", JSON.ofInt (getIntFromArgs (getMapFromArgs args "pagination") "limit" 10))]) ∧
    (∀ q, mapLookup (getMapFromArgs args "pagination") "page" = some (JSON.num q) →
      getIntFromArgs (getMapFromArgs args "pagination") "page" 0 = float64ToInt q) ∧
    (∀ q, mapLookup (getMapFromArgs args "pagination") "limit" = some (JSON.num q) →
      getIntFromArgs (getMapFromArgs args "pagination") "limit" 10 = float64ToInt q) ∧
    (∀ n : Int, minInt ≤ n → n ≤ maxInt → float64ToInt (n : ℚ) = n) ∧
    (∀ q : ℚ, minInt ≤ truncate q → truncate q ≤ maxInt → float64ToInt q = truncate q) ∧
    ((∀ q, mapLookup (getMapFromArgs args "pagination") "page" ≠ some (JSON.num q)) →
      getIntFromArgs (getMapFromArgs args "pagination") "page" 0 = 0) ∧
    ((∀ q, mapLookup (getMapFromArgs args "pagination") "limit" ≠ some (JSON.num q)) →
      getIntFromArgs (getMapFromArgs args "pagination") "limit" 10 = 10) ∧
    ((lookupMember "filter" (listChaosExperimentsRequest args)).isSome = true
      ↔ ∃ m, mapLookup args "filter" = some (JSON.obj m)) ∧
    (∀ m, mapLookup args "filter" = some (JSON.obj m) →
      lookupMember "filter" (listChaosExperimentsRequest args) = some (JSON.obj m)) ∧
    listChaosExperimentsRequest
        (some [("pagination", JSON.obj [("page", JSON.num 0), ("limit", JSON.num 10)])])
      = [("pagination", JSON.obj [("page", JSON.num 0), ("limit", JSON.num 10)])] := by
  refine ⟨?_, listChaosExperimentsRequest_pagination args, ?_, ?_, ?_, ?_,
    getIntFromArgs_not_number _ _ _, getIntFromArgs_not_number _ _ _, ?_, ?_, ?_⟩
  · simp [listChaosExperiments, singleCall]
  · intro q h; simp [getIntFromArgs, h]
  · intro q h; simp [getIntFromArgs, h]
  · intro n h1 h2; exact float64ToInt_intCast n ⟨h1, h2⟩
  · intro q h1 h2; simp [float64ToInt, h1, h2]
  · rw [listChaosExperimentsRequest_filter]
    constructor
    · intro h
      cases hm : getMapFromArgs args "filter" with
      | none => simp [hm] at h
      | some m => exact ⟨m, (getMapFromArgs_eq_some args "filter" m).1 hm⟩
    · rintro ⟨m, hm⟩
      simp [(getMapFromArgs_eq_some args "filter" m).2 hm]
  · intro m hm
    rw [listChaosExperimentsRequest_filter, (getMapFromArgs_eq_some args "filter" m).2 hm]
    rfl
  · have h0 : float64ToInt 0 = 0 := by
      have := float64ToInt_intCast 0 (by simp [minInt, maxInt])
      simpa using this
    have h10 : float64ToInt 10 = 10 := by
      have := float64ToInt_intCast 10 (by simp [minInt, maxInt])
      simpa using this
    simp [listChaosExperimentsRequest, getMapFromArgs, getIntFromArgs, mapLookup, lookupMember,
      JSON.ofInt, h0, h10]

/-- An error of the collecting loop is the error of one of the calls it received. -/
theorem collectStats_error (reply : StatsCall → Except String RawMessage)
    (l : List StatsCall) (d : StatsData) (msg : String)
    (h : collectStats reply l d = Except.error msg) :
    ∃ c, c ∈ l ∧ reply c = Except.error msg := by
  induction l generalizing d with
  | nil => simp [collectStats] at h
  | cons c rest ih =>
    cases hr : reply c with
    | error e =>
      simp only [collectStats, hr] at h
      injection h with h
      subst h
      exact ⟨c, List.mem_cons_self _ _, hr⟩
    | ok data =>
      cases c <;> simp only [collectStats, hr] at h <;>
        (obtain ⟨c2, hc2, hr2⟩ := ih _ h
         exact ⟨c2, List.mem_cons_of_mem _ hc2, hr2⟩)

/-- The collecting loop ends without an error only when every call it received succeeded. -/
theorem collectStats_ok (reply : StatsCall → Except String RawMessage)
    (l : List StatsCall) (d d2 : StatsData)
    (h : collectStats reply l d = Except.ok d2) :
    ∀ c, c ∈ l → ∃ data, reply c = Except.ok data := by
  induction l generalizing d with
  | nil => intro c hc; simp at hc
  | cons c rest ih =>
    cases hr : reply c with
    | error e => simp [collectStats, hr] at h
    | ok data =>
      have hrest : ∀ c2, c2 ∈ rest → ∃ data2, reply c2 = Except.ok data2 := by
        cases c <;> simp only [collectStats, hr] at h <;> exact ih _ h
      intro c2 hc2
      rcases List.mem_cons.1 hc2 with h2 | h2
      · subst h2; exact ⟨data, hr⟩
      · exact hrest c2 h2

/-- Every order of reception takes a message of each of the three goroutines. -/
theorem RecvOrder.mem_toList (order : RecvOrder) (c : StatsCall) : c ∈ order.toList := by
  cases order <;> cases c <;> simp [RecvOrder.toList]

/-- Claim C16. For `get_experiment_statistics` and for every order in which the messages
of the three remote calls are received: the handler issues the three calls; if at least
one of them fails, the handler returns an error, the error of a failed call, and no
statistics document; and it returns a document only when all three calls succeed. -/
theorem statistics_all_or_nothing (s : LitmusChaosServer) (order : RecvOrder) (args : GoMap) :
    (getExperimentStatistics (withRecvOrder s order) args).calls.length = 3 ∧
    ((∃ c cause, graphqlRequest s (StatsCall.query c) none = Except.error cause) →
      ∃ c cause, graphqlRequest s (StatsCall.query c) none = Except.error cause ∧
        (getExperimentStatistics (withRecvOrder s order) args).out = Outcome.error cause) ∧
    (∀ result, (getExperimentStatistics (withRecvOrder s order) args).out = Outcome.ok result →
      ∀ c, ∃ data, graphqlRequest s (StatsCall.query c) none = Except.ok data) := by
  have hout : (getExperimentStatistics (withRecvOrder s order) args).out
      = match collectStats (fun c => graphqlRequest s (StatsCall.query c) none) order.toList
          { expStatsData := none, runStatsData := none, infraStatsData := none } with
        | Except.error msg => Outcome.error msg
        | Except.ok d => statisticsDocument (withRecvOrder s order) d := rfl
  refine ⟨rfl, ?_, ?_⟩
  · rintro ⟨c, cause, hc⟩
    rw [hout]
    cases hcol : collectStats (fun c => graphqlRequest s (StatsCall.query c) none) order.toList
        { expStatsData := none, runStatsData := none, infraStatsData := none } with
    | error msg =>
      obtain ⟨c2, _, h2⟩ := collectStats_error _ _ _ _ hcol
      exact ⟨c2, msg, h2, rfl⟩
    | ok d =>
      obtain ⟨data, hd⟩ := collectStats_ok _ _ _ _ hcol c (RecvOrder.mem_toList order c)
      have hd2 : graphqlRequest s (StatsCall.query c) none = Except.ok data := hd
      rw [hc] at hd2
      cases hd2
  · intro result hres c
    rw [hout] at hres
    cases hcol : collectStats (fun c => graphqlRequest s (StatsCall.query c) none) order.toList
        { expStatsData := none, runStatsData := none, infraStatsData := none } with
    | error msg => rw [hcol] at hres; cases hres
    | ok d => exact collectStats_ok _ _ _ _ hcol c (RecvOrder.mem_toList order c)

/-- The witness of `statistics_all_or_nothing`: only the third call fails, and its message
is received first. -/
theorem statistics_all_or_nothing_witness :
    ∃ c cause,
      graphqlRequest (exampleServer infraStatsFailsRemote) (StatsCall.query c) none
        = Except.error cause ∧
      (getExperimentStatistics
        (withRecvOrder (exampleServer infraStatsFailsRemote) RecvOrder.infraExpRun) none).out
        = Outcome.error cause :=
  (statistics_all_or_nothing (exampleServer infraStatsFailsRemote) RecvOrder.infraExpRun
    none).2.1 ⟨StatsCall.infraStats, "failed to execute request: connection refused", rfl⟩

/-- A handler that validates `experimentId` first: it fails without a call or makes one. -/
theorem getChaosExperiment_calls (s : LitmusChaosServer) (args : GoMap) :
    (∃ msg, getChaosExperiment s args = Run.fail msg) ∨
      (getChaosExperiment s args).calls.length = 1 := by
  simp only [getChaosExperiment]
  split_ifs
  · exact Or.inl ⟨_, rfl⟩
  · exact Or.inr rfl

/-- The handler `runChaosExperiment` fails without a call or makes one. -/
theorem runChaosExperiment_calls (s : LitmusChaosServer) (args : GoMap) :
    (∃ msg, runChaosExperiment s args = Run.fail msg) ∨
      (runChaosExperiment s args).calls.length = 1 := by
  simp only [runChaosExperiment]
  split_ifs
  · exact Or.inl ⟨_, rfl⟩
  · exact Or.inr rfl

/-- The handler `stopChaosExperiment` fails without a call or makes one. -/
theorem stopChaosExperiment_calls (s : LitmusChaosServer) (args : GoMap) :
    (∃ msg, stopChaosExperiment s args = Run.fail msg) ∨
      (stopChaosExperiment s args).calls.length = 1 := by
  simp only [stopChaosExperiment]
  split_ifs
  · exact Or.inl ⟨_, rfl⟩
  · exact Or.inr rfl

/-- The handler `getExperimentRunDetails` fails without a call or makes one. -/
theorem getExperimentRunDetails_calls (s : LitmusChaosServer) (args : GoMap) :
    (∃ msg, getExperimentRunDetails s args = Run.fail msg) ∨
      (getExperimentRunDetails s args).calls.length = 1 := by
  simp only [getExperimentRunDetails]
  split_ifs
  · exact Or.inl ⟨_, rfl⟩
  · exact Or.inr rfl

/-- The handler `createEnvironment` fails without a call or makes one. -/
theorem createEnvironment_calls (s : LitmusChaosServer) (args : GoMap) :
    (∃ msg, createEnvironment s args = Run.fail msg) ∨
      (createEnvironment s args).calls.length = 1 := by
  simp only [createEnvironment]
  split_ifs
  · exact Or.inl ⟨_, rfl⟩
  · exact Or.inl ⟨_, rfl⟩
  · exact Or.inr rfl

/-- The handler `createResilienceProbe` fails without a call or makes one. -/
theorem createResilienceProbe_calls (s : LitmusChaosServer) (args : GoMap) :
    (∃ msg, createResilienceProbe s args = Run.fail msg) ∨
      (createResilienceProbe s args).calls.length = 1 := by
  simp only [createResilienceProbe]
  split_ifs
  · exact Or.inl ⟨_, rfl⟩
  · exact Or.inl ⟨_, rfl⟩
  · cases getMapFromArgs args "properties" with
    | none => exact Or.inl ⟨_, rfl⟩
    | some properties => exact Or.inr rfl

/-- The handler `getChaosFaults` fails without a call or makes one. -/
theorem getChaosFaults_calls (s : LitmusChaosServer) (args : GoMap) :
    (∃ msg, getChaosFaults s args = Run.fail msg) ∨
      (getChaosFaults s args).calls.length = 1 := by
  simp only [getChaosFaults]
  split_ifs
  · exact Or.inl ⟨_, rfl⟩
  · exact Or.inr rfl

/-- The handler `registerChaosInfrastructure` fails without a call or makes one. -/
theorem registerChaosInfrastructure_calls (s : LitmusChaosServer) (args : GoMap) :
    (∃ msg, registerChaosInfrastructure s args = Run.fail msg) ∨
      (registerChaosInfrastructure s args).calls.length = 1 := by
  simp only [registerChaosInfrastructure]
  split_ifs
  · exact Or.inl ⟨_, rfl⟩
  · exact Or.inl ⟨_, rfl⟩
  · exact Or.inl ⟨_, rfl⟩
  · exact Or.inr rfl

/-- The calls of `getInfrastructureDetails` once `infraId` is validated: the query
`GetInfra`, and after it the manifest query exactly when `includeManifest` is set and the
first reply decodes to a map with an object under `getInfra`. -/
theorem getInfrastructureDetails_calls (s : LitmusChaosServer) (args : GoMap)
    (hid : getStringFromArgs args "infraId" "" ≠ "") :
    ((getInfrastructureDetails s args).calls.length = 1 ∨
      (getInfrastructureDetails s args).calls.length = 2) ∧
    ((getInfrastructureDetails s args).calls.length = 2 ↔
      getBoolFromArgs args "includeManifest" false = true ∧
      ∃ data result infra,
        graphqlRequest s "GetInfra"
          (some [("infraID", JSON.str (getStringFromArgs args "infraId" ""))]) = Except.ok data ∧
        unmarshalMap data = Except.ok result ∧
        mapIndex result "getInfra" = JSON.obj infra) := by
  simp only [getInfrastructureDetails, hid, if_false]
  cases hg : graphqlRequest s "GetInfra"
      (some [("infraID", JSON.str (getStringFromArgs args "infraId" ""))]) with
  | error msg => simp
  | ok data =>
    cases hu : unmarshalMap data with
    | error msg => simp [hu]
    | ok result =>
      cases hi : mapIndex result "getInfra" with
      | obj infra =>
        by_cases hm : getBoolFromArgs args "includeManifest" false = true
        · simp [hu, hi, hm]
        · simp [hu, hi, hm]
      | null => simp [hu, hi]
      | bool b => simp [hu, hi]
      | num q => simp [hu, hi]
      | str t => simp [hu, hi]
      | arr xs => simp [hu, hi]
      | bigNum literal => simp [hu, hi]

/-- The handlers that validate nothing make one call. -/
theorem listing_handlers_calls (s : LitmusChaosServer) (args : GoMap) :
    (listChaosExperiments s args).calls.length = 1 ∧
    (listExperimentRuns s args).calls.length = 1 ∧
    (listChaosInfrastructures s args).calls.length = 1 ∧
    (listEnvironments s args).calls.length = 1 ∧
    (listResilienceProbes s args).calls.length = 1 ∧
    (listChaosHubs s args).calls.length = 1 :=
  ⟨rfl, rfl, rfl, rfl, rfl, rfl⟩

/-- The switch of `handleTool` once the arguments are decoded. -/
theorem handleTool_ok (s : LitmusChaosServer) (toolName : String) (arguments : RawMessage)
    (args : GoMap) (ha : unmarshalArguments arguments = Except.ok args) :
    handleTool s toolName arguments =
      if toolName = "list_chaos_experiments" then listChaosExperiments s args
      else if toolName = "get_chaos_experiment" then getChaosExperiment s args
      else if toolName = "run_chaos_experiment" then runChaosExperiment s args
      else if toolName = "stop_chaos_experiment" then stopChaosExperiment s args
      else if toolName = "list_experiment_runs" then listExperimentRuns s args
      else if toolName = "get_experiment_run_details" then getExperimentRunDetails s args
      else if toolName = "list_chaos_infrastructures" then listChaosInfrastructures s args
      else if toolName = "get_infrastructure_details" then getInfrastructureDetails s args
      else if toolName = "list_environments" then listEnvironments s args
      else if toolName = "create_environment" then createEnvironment s args
      else if toolName = "list_resilience_probes" then listResilienceProbes s args
      else if toolName = "create_resilience_probe" then createResilienceProbe s args
      else if toolName = "list_chaos_hubs" then listChaosHubs s args
      else if toolName = "get_chaos_faults" then getChaosFaults s args
      else if toolName = "get_experiment_statistics" then getExperimentStatistics s args
      else if toolName = "register_chaos_infrastructure" then registerChaosInfrastructure s args
      else Run.fail ("unknown tool: " ++ toolName) := by
  unfold handleTool
  rw [ha]

/-- Every tool but the statistics and the infrastructure details either fails before any
remote call or makes exactly one. -/
theorem handleTool_one_call (s : LitmusChaosServer) (toolName : String)
    (arguments : RawMessage) (h1 : toolName ≠ "get_experiment_statistics")
    (h2 : toolName ≠ "get_infrastructure_details") :
    (∃ msg, handleTool s toolName arguments = Run.fail msg) ∨
      (handleTool s toolName arguments).calls.length = 1 := by
  cases ha : unmarshalArguments arguments with
  | error e => exact Or.inl (Exists.intro _ (handleTool_bad_arguments s toolName arguments e ha))
  | ok args =>
    rw [handleTool_ok s toolName arguments args ha]
    obtain ⟨l1, l2, l3, l4, l5, l6⟩ := listing_handlers_calls s args
    have k1 := getChaosExperiment_calls s args
    have k2 := runChaosExperiment_calls s args
    have k3 := stopChaosExperiment_calls s args
    have k4 := getExperimentRunDetails_calls s args
    have k5 := createEnvironment_calls s args
    have k6 := createResilienceProbe_calls s args
    have k7 := getChaosFaults_calls s args
    have k8 := registerChaosInfrastructure_calls s args
    generalize listChaosExperiments s args = r1 at l1 ⊢
    generalize listExperimentRuns s args = r2 at l2 ⊢
    generalize listChaosInfrastructures s args = r3 at l3 ⊢
    generalize listEnvironments s args = r4 at l4 ⊢
    generalize listResilienceProbes s args = r5 at l5 ⊢
    generalize listChaosHubs s args = r6 at l6 ⊢
    generalize getChaosExperiment s args = q1 at k1 ⊢
    generalize runChaosExperiment s args = q2 at k2 ⊢
    generalize stopChaosExperiment s args = q3 at k3 ⊢
    generalize getExperimentRunDetails s args = q4 at k4 ⊢
    generalize createEnvironment s args = q5 at k5 ⊢
    generalize createResilienceProbe s args = q6 at k6 ⊢
    generalize getChaosFaults s args = q7 at k7 ⊢
    generalize registerChaosInfrastructure s args = q8 at k8 ⊢
    generalize getInfrastructureDetails s args = p1
    generalize getExperimentStatistics s args = p2
    by_cases c1 : toolName = "list_chaos_experiments"
    · rw [if_pos c1]; exact Or.inr l1
    rw [if_neg c1]
    by_cases c2 : toolName = "get_chaos_experiment"
    · rw [if_pos c2]; exact k1
    rw [if_neg c2]
    by_cases c3 : toolName = "run_chaos_experiment"
    · rw [if_pos c3]; exact k2
    rw [if_neg c3]
    by_cases c4 : toolName = "stop_chaos_experiment"
    · rw [if_pos c4]; exact k3
    rw [if_neg c4]
    by_cases c5 : toolName = "list_experiment_runs"
    · rw [if_pos c5]; exact Or.inr l2
    rw [if_neg c5]
    by_cases c6 : toolName = "get_experiment_run_details"
    · rw [if_pos c6]; exact k4
    rw [if_neg c6]
    by_cases c7 : toolName = "list_chaos_infrastructures"
    · rw [if_pos c7]; exact Or.inr l3
    rw [if_neg c7, if_neg h2]
    by_cases c9 : toolName = "list_environments"
    · rw [if_pos c9]; exact Or.inr l4
    rw [if_neg c9]
    by_cases c10 : toolName = "create_environment"
    · rw [if_pos c10]; exact k5
    rw [if_neg c10]
    by_cases c11 : toolName = "list_resilience_probes"
    · rw [if_pos c11]; exact Or.inr l5
    rw [if_neg c11]
    by_cases c12 : toolName = "create_resilience_probe"
    · rw [if_pos c12]; exact k6
    rw [if_neg c12]
    by_cases c13 : toolName = "list_chaos_hubs"
    · rw [if_pos c13]; exact Or.inr l6
    rw [if_neg c13]
    by_cases c14 : toolName = "get_chaos_faults"
    · rw [if_pos c14]; exact k7
    rw [if_neg c14, if_neg h1]
    by_cases c16 : toolName = "register_chaos_infrastructure"
    · rw [if_pos c16]; exact k8
    rw [if_neg c16]
    exact Or.inl (Exists.intro _ rfl)

/-- Claim C17, counterexample. The tool `get_infrastructure_details` called with an
`infraId` (so that validation passes) and `includeManifest` set to true, in front of a
remote service that answers both queries: the handler invokes the remote call client
twice, for `GetInfra` and for `GetInfraManifest`, and returns a result. -/
theorem infrastructure_details_makes_two_calls :
    (handleTool (exampleServer infraRemote) "get_infrastructure_details"
      (some (JSON.obj [("infraId", JSON.str "infra-1"), ("includeManifest", JSON.bool true)]))).calls.length
      = 2 ∧
    (handleTool (exampleServer infraRemote) "get_infrastructure_details"
      (some (JSON.obj [("infraId", JSON.str "infra-1"), ("includeManifest", JSON.bool true)]))).calls.map
        (fun body => body.Query) = ["GetInfra", "GetInfraManifest"] ∧
    ∃ result, (handleTool (exampleServer infraRemote) "get_infrastructure_details"
      (some (JSON.obj [("infraId", JSON.str "infra-1"), ("includeManifest", JSON.bool true)]))).out
      = Outcome.ok result :=
  ⟨rfl, rfl, _, rfl⟩

/-- Claim C17, amended. For every tool call whose arguments decode: each of the six
tools that validate nothing invokes the remote call client exactly once; each of the
eight tools that validate arguments and make one query invokes it exactly once when the
arguments pass its validation; `get_experiment_statistics` invokes it exactly three
times; `get_infrastructure_details` fails before a call without an `infraId`, and with
one invokes it once, and a second time, for the manifest, exactly when `includeManifest`
is true and the first reply decodes to a map with an object under `getInfra`. And for
every tool call whatever: the handler of a tool other than these last two either fails
before any remote call or invokes the client exactly once. -/
theorem remote_call_counts (s : LitmusChaosServer) (arguments : RawMessage) :
    (∀ toolName, toolName ≠ "get_experiment_statistics" →
      toolName ≠ "get_infrastructure_details" →
      (∃ msg, handleTool s toolName arguments = Run.fail msg) ∨
        (handleTool s toolName arguments).calls.length = 1) ∧
    (∀ args, unmarshalArguments arguments = Except.ok args →
      (handleTool s "get_experiment_statistics" arguments).calls.length = 3) ∧
    (∀ args, unmarshalArguments arguments = Except.ok args →
      handleTool s "get_infrastructure_details" arguments = getInfrastructureDetails s args ∧
      (getStringFromArgs args "infraId" "" = "" →
        getInfrastructureDetails s args = Run.fail "infraId is required") ∧
      (getStringFromArgs args "infraId" "" ≠ "" →
        ((getInfrastructureDetails s args).calls.length = 1 ∨
          (getInfrastructureDetails s args).calls.length = 2) ∧
        ((getInfrastructureDetails s args).calls.length = 2 ↔
          getBoolFromArgs args "includeManifest" false = true ∧
          ∃ data result infra,
            graphqlRequest s "GetInfra"
              (some [("infraID", JSON.str (getStringFromArgs args "infraId" ""))])
              = Except.ok data ∧
            unmarshalMap data = Except.ok result ∧
            mapIndex result "getInfra" = JSON.obj infra))) ∧
    (∀ args, unmarshalArguments arguments = Except.ok args →
      (handleTool s "list_chaos_experiments" arguments).calls.length = 1 ∧
      (handleTool s "list_experiment_runs" arguments).calls.length = 1 ∧
      (handleTool s "list_chaos_infrastructures" arguments).calls.length = 1 ∧
      (handleTool s "list_environments" arguments).calls.length = 1 ∧
      (handleTool s "list_resilience_probes" arguments).calls.length = 1 ∧
      (handleTool s "list_chaos_hubs" arguments).calls.length = 1 ∧
      (getStringFromArgs args "experimentId" "" ≠ "" →
        (handleTool s "get_chaos_experiment" arguments).calls.length = 1 ∧
        (handleTool s "run_chaos_experiment" arguments).calls.length = 1 ∧
        (handleTool s "stop_chaos_experiment" arguments).calls.length = 1) ∧
      (getStringFromArgs args "experimentRunId" "" ≠ "" →
        (handleTool s "get_experiment_run_details" arguments).calls.length = 1) ∧
      (getStringFromArgs args "name" "" ≠ "" → getStringFromArgs args "type" "" ≠ "" →
        (handleTool s "create_environment" arguments).calls.length = 1) ∧
      (getStringFromArgs args "name" "" ≠ "" → getStringFromArgs args "type" "" ≠ "" →
        getMapFromArgs args "properties" ≠ none →
        (handleTool s "create_resilience_probe" arguments).calls.length = 1) ∧
      (getStringFromArgs args "hubId" "" ≠ "" →
        (handleTool s "get_chaos_faults" arguments).calls.length = 1) ∧
      (getStringFromArgs args "name" "" ≠ "" →
        getStringFromArgs args "environmentId" s.config.DefaultEnvironmentID ≠ "" →
        getStringFromArgs args "infraScope" "" ≠ "" →
        (handleTool s "register_chaos_infrastructure" arguments).calls.length = 1)) := by
  refine ⟨?_, ?_, ?_, ?_⟩
  · intro toolName h1 h2
    exact handleTool_one_call s toolName arguments h1 h2
  · intro args ha
    rw [handleTool_ok s _ arguments args ha]
    rfl
  · intro args ha
    refine ⟨by rw [handleTool_ok s _ arguments args ha]; rfl, ?_, ?_⟩
    · intro h
      simp [getInfrastructureDetails, h]
    · intro h
      exact getInfrastructureDetails_calls s args h
  · intro args ha
    have e1 : handleTool s "list_chaos_experiments" arguments = listChaosExperiments s args := by
      rw [handleTool_ok s _ arguments args ha]; rfl
    have e2 : handleTool s "list_experiment_runs" arguments = listExperimentRuns s args := by
      rw [handleTool_ok s _ arguments args ha]; rfl
    have e3 : handleTool s "list_chaos_infrastructures" arguments
        = listChaosInfrastructures s args := by
      rw [handleTool_ok s _ arguments args ha]; rfl
    have e4 : handleTool s "list_environments" arguments = listEnvironments s args := by
      rw [handleTool_ok s _ arguments args ha]; rfl
    have e5 : handleTool s "list_resilience_probes" arguments = listResilienceProbes s args := by
      rw [handleTool_ok s _ arguments args ha]; rfl
    have e6 : handleTool s "list_chaos_hubs" arguments = listChaosHubs s args := by
      rw [handleTool_ok s _ arguments args ha]; rfl
    have e7 : handleTool s "get_chaos_experiment" arguments = getChaosExperiment s args := by
      rw [handleTool_ok s _ arguments args ha]; rfl
    have e8 : handleTool s "run_chaos_experiment" arguments = runChaosExperiment s args := by
      rw [handleTool_ok s _ arguments args ha]; rfl
    have e9 : handleTool s "stop_chaos_experiment" arguments = stopChaosExperiment s args := by
      rw [handleTool_ok s _ arguments args ha]; rfl
    have e10 : handleTool s "get_experiment_run_details" arguments
        = getExperimentRunDetails s args := by
      rw [handleTool_ok s _ arguments args ha]; rfl
    have e11 : handleTool s "create_environment" arguments = createEnvironment s args := by
      rw [handleTool_ok s _ arguments args ha]; rfl
    have e12 : handleTool s "create_resilience_probe" arguments
        = createResilienceProbe s args := by
      rw [handleTool_ok s _ arguments args ha]; rfl
    have e13 : handleTool s "get_chaos_faults" arguments = getChaosFaults s args := by
      rw [handleTool_ok s _ arguments args ha]; rfl
    have e14 : handleTool s "register_chaos_infrastructure" arguments
        = registerChaosInfrastructure s args := by
      rw [handleTool_ok s _ arguments args ha]; rfl
    obtain ⟨l1, l2, l3, l4, l5, l6⟩ := listing_handlers_calls s args
    rw [e1, e2, e3, e4, e5, e6, e7, e8, e9, e10, e11, e12, e13, e14]
    refine ⟨l1, l2, l3, l4, l5, l6, ?_, ?_, ?_, ?_, ?_, ?_⟩
    · intro h
      refine ⟨?_, ?_, ?_⟩
      · simp [getChaosExperiment, h, singleCall]
      · simp [runChaosExperiment, h, singleCall]
      · simp [stopChaosExperiment, h, singleCall]
    · intro h
      simp [getExperimentRunDetails, h, singleCall]
    · intro hn ht
      simp [createEnvironment, hn, ht, singleCall]
    · intro hn ht hp
      cases hm : getMapFromArgs args "properties" with
      | none => exact absurd hm hp
      | some props => simp [createResilienceProbe, hn, ht, hm, singleCall]
    · intro h
      simp [getChaosFaults, h, singleCall]
    · intro hn he hs
      simp [registerChaosInfrastructure, hn, he, hs, singleCall]

/-- The helper `graphqlRequest` is the remote call for the body it builds. -/
theorem graphqlRequest_eq_replyTo (s : LitmusChaosServer) (query : String) (vars : GoMap) :
    graphqlRequest s query vars = replyTo s (graphqlRequestBody s query vars) := by
  simp only [graphqlRequest, replyTo, graphqlReturn]
  cases s.httpClient (graphqlHttpRequest s (graphqlRequestBody s query vars)) with
  | envelope gqlResp => by_cases h : gqlResp.Errors.length > 0 <;> simp [h]
  | _ => simp

/-- A run without calls has no call that fails. -/
theorem failurePropagates_fail (s : LitmusChaosServer) (msg : String) :
    failurePropagates s (Run.fail msg) := by
  intro body hb
  simp [Run.fail] at hb

/-- A handler with one remote call returns the error of that call. -/
theorem failurePropagates_singleCall (s : LitmusChaosServer) (query : String) (vars : GoMap)
    (reshape : GoMap → Outcome ToolResult) :
    failurePropagates s (singleCall s query vars reshape) := by
  intro body hb _ cause hc
  simp only [singleCall, List.mem_singleton] at hb
  subst hb
  rw [← graphqlRequest_eq_replyTo] at hc
  refine ⟨cause, by simp [singleCall, hc], _, List.mem_singleton.2 rfl, ?_⟩
  rw [← graphqlRequest_eq_replyTo]; exact hc

/-- The handlers with one remote call: a failed call fails the handler. -/
theorem failurePropagates_handlers (s : LitmusChaosServer) (args : GoMap) :
    failurePropagates s (listChaosExperiments s args) ∧
    failurePropagates s (listExperimentRuns s args) ∧
    failurePropagates s (listChaosInfrastructures s args) ∧
    failurePropagates s (listEnvironments s args) ∧
    failurePropagates s (listResilienceProbes s args) ∧
    failurePropagates s (listChaosHubs s args) ∧
    failurePropagates s (getChaosExperiment s args) ∧
    failurePropagates s (runChaosExperiment s args) ∧
    failurePropagates s (stopChaosExperiment s args) ∧
    failurePropagates s (getExperimentRunDetails s args) ∧
    failurePropagates s (createEnvironment s args) ∧
    failurePropagates s (createResilienceProbe s args) ∧
    failurePropagates s (getChaosFaults s args) ∧
    failurePropagates s (registerChaosInfrastructure s args) := by
  refine ⟨?_, ?_, ?_, ?_, ?_, ?_, ?_, ?_, ?_, ?_, ?_, ?_, ?_, ?_⟩
  · exact failurePropagates_singleCall s _ _ _
  · exact failurePropagates_singleCall s _ _ _
  · exact failurePropagates_singleCall s _ _ _
  · exact failurePropagates_singleCall s _ _ _
  · exact failurePropagates_singleCall s _ _ _
  · exact failurePropagates_singleCall s _ _ _
  · simp only [getChaosExperiment]
    split_ifs
    · exact failurePropagates_fail s _
    · exact failurePropagates_singleCall s _ _ _
  · simp only [runChaosExperiment]
    split_ifs
    · exact failurePropagates_fail s _
    · exact failurePropagates_singleCall s _ _ _
  · simp only [stopChaosExperiment]
    split_ifs
    · exact failurePropagates_fail s _
    · exact failurePropagates_singleCall s _ _ _
  · simp only [getExperimentRunDetails]
    split_ifs
    · exact failurePropagates_fail s _
    · exact failurePropagates_singleCall s _ _ _
  · simp only [createEnvironment]
    split_ifs
    · exact failurePropagates_fail s _
    · exact failurePropagates_fail s _
    · exact failurePropagates_singleCall s _ _ _
  · simp only [createResilienceProbe]
    split_ifs
    · exact failurePropagates_fail s _
    · exact failurePropagates_fail s _
    · cases getMapFromArgs args "properties" with
      | none => exact failurePropagates_fail s _
      | some properties => exact failurePropagates_singleCall s _ _ _
  · simp only [getChaosFaults]
    split_ifs
    · exact failurePropagates_fail s _
    · exact failurePropagates_singleCall s _ _ _
  · simp only [registerChaosInfrastructure]
    split_ifs
    · exact failurePropagates_fail s _
    · exact failurePropagates_fail s _
    · exact failurePropagates_fail s _
    · exact failurePropagates_singleCall s _ _ _

/-- The statistics handler: a failed call fails the handler. -/
theorem failurePropagates_statistics (s : LitmusChaosServer) (args : GoMap) :
    failurePropagates s (getExperimentStatistics s args) := by
  intro body hb _ cause hc
  have hcalls : (getExperimentStatistics s args).calls
      = [StatsCall.expStats, StatsCall.runStats, StatsCall.infraStats].map
          (fun c => graphqlRequestBody s (StatsCall.query c) none) := rfl
  have hout : (getExperimentStatistics s args).out
      = match collectStats (fun c => graphqlRequest s (StatsCall.query c) none)
          s.rt.recvOrder.toList
          { expStatsData := none, runStatsData := none, infraStatsData := none } with
        | Except.error msg => Outcome.error msg
        | Except.ok d => statisticsDocument s d := rfl
  rw [hcalls] at hb
  obtain ⟨c, _, hbody⟩ := List.mem_map.1 hb
  subst hbody
  rw [← graphqlRequest_eq_replyTo] at hc
  rw [hout, hcalls]
  cases hcol : collectStats (fun c => graphqlRequest s (StatsCall.query c) none)
      s.rt.recvOrder.toList
      { expStatsData := none, runStatsData := none, infraStatsData := none } with
  | error msg =>
    obtain ⟨c2, _, h2⟩ := collectStats_error _ _ _ _ hcol
    refine ⟨msg, rfl, graphqlRequestBody s (StatsCall.query c2) none, ?_, ?_⟩
    · exact List.mem_map.2 ⟨c2, by cases c2 <;> simp, rfl⟩
    · rw [← graphqlRequest_eq_replyTo]; exact h2
  | ok d =>
    obtain ⟨data, hd⟩ := collectStats_ok _ _ _ _ hcol c (RecvOrder.mem_toList _ c)
    have hd2 : graphqlRequest s (StatsCall.query c) none = Except.ok data := hd
    rw [hc] at hd2
    cases hd2

/-- The infrastructure details: a failure of the first call fails the handler. -/
theorem failurePropagates_infrastructure (s : LitmusChaosServer) (args : GoMap) :
    failurePropagates s (getInfrastructureDetails s args) := by
  by_cases hid : getStringFromArgs args "infraId" "" = ""
  · have h : getInfrastructureDetails s args = Run.fail "infraId is required" := by
      simp [getInfrastructureDetails, hid]
    rw [h]; exact failurePropagates_fail s _
  · intro body hb hq cause hc
    have hfirst : body = graphqlRequestBody s "GetInfra"
        (some [("infraID", JSON.str (getStringFromArgs args "infraId" ""))]) := by
      simp only [getInfrastructureDetails, hid, if_false] at hb
      cases hg : graphqlRequest s "GetInfra"
          (some [("infraID", JSON.str (getStringFromArgs args "infraId" ""))]) with
      | error msg => simpa [hg] using hb
      | ok data =>
        cases hu : unmarshalMap data with
        | error msg => simpa [hg, hu] using hb
        | ok result =>
          cases hi : mapIndex result "getInfra" with
          | obj infra =>
            by_cases hm : getBoolFromArgs args "includeManifest" false = true
            · simp only [hg, hu, hi, hm, if_true, List.mem_cons, List.mem_singleton,
                List.mem_nil_iff, or_false] at hb
              rcases hb with hb | hb
              · exact hb
              · exfalso; apply hq; rw [hb]; rfl
            · simpa [hg, hu, hi, hm] using hb
          | null => simpa [hg, hu, hi] using hb
          | bool b => simpa [hg, hu, hi] using hb
          | num q => simpa [hg, hu, hi] using hb
          | str t => simpa [hg, hu, hi] using hb
          | arr xs => simpa [hg, hu, hi] using hb
          | bigNum literal => simpa [hg, hu, hi] using hb
    subst hfirst
    rw [← graphqlRequest_eq_replyTo] at hc
    have hrun : getInfrastructureDetails s args
        = { calls := [graphqlRequestBody s "GetInfra"
              (some [("infraID", JSON.str (getStringFromArgs args "infraId" ""))])]
            out := Outcome.error cause } := by
      simp [getInfrastructureDetails, hid, hc]
    rw [hrun]
    refine ⟨cause, rfl, _, List.mem_singleton.2 rfl, ?_⟩
    rw [← graphqlRequest_eq_replyTo]; exact hc

/-- A property of runs that holds of every failure before a call and of every handler
holds of `handleTool`. -/
theorem handleTool_cases (P : Run → Prop) (s : LitmusChaosServer) (toolName : String)
    (arguments : RawMessage) (hfail : ∀ msg, P (Run.fail msg))
    (h : ∀ args,
      P (listChaosExperiments s args) ∧ P (getChaosExperiment s args) ∧
      P (runChaosExperiment s args) ∧ P (stopChaosExperiment s args) ∧
      P (listExperimentRuns s args) ∧ P (getExperimentRunDetails s args) ∧
      P (listChaosInfrastructures s args) ∧ P (getInfrastructureDetails s args) ∧
      P (listEnvironments s args) ∧ P (createEnvironment s args) ∧
      P (listResilienceProbes s args) ∧ P (createResilienceProbe s args) ∧
      P (listChaosHubs s args) ∧ P (getChaosFaults s args) ∧
      P (getExperimentStatistics s args) ∧ P (registerChaosInfrastructure s args)) :
    P (handleTool s toolName arguments) := by
  cases ha : unmarshalArguments arguments with
  | error e =>
    rw [handleTool_bad_arguments s toolName arguments e ha]
    exact hfail _
  | ok args =>
    rw [handleTool_ok s toolName arguments args ha]
    obtain ⟨a1, a2, a3, a4, a5, a6, a7, a8, a9, a10, a11, a12, a13, a14, a15, a16⟩ := h args
    by_cases c1 : toolName = "list_chaos_experiments"
    · rw [if_pos c1]; exact a1
    rw [if_neg c1]
    by_cases c2 : toolName = "get_chaos_experiment"
    · rw [if_pos c2]; exact a2
    rw [if_neg c2]
    by_cases c3 : toolName = "run_chaos_experiment"
    · rw [if_pos c3]; exact a3
    rw [if_neg c3]
    by_cases c4 : toolName = "stop_chaos_experiment"
    · rw [if_pos c4]; exact a4
    rw [if_neg c4]
    by_cases c5 : toolName = "list_experiment_runs"
    · rw [if_pos c5]; exact a5
    rw [if_neg c5]
    by_cases c6 : toolName = "get_experiment_run_details"
    · rw [if_pos c6]; exact a6
    rw [if_neg c6]
    by_cases c7 : toolName = "list_chaos_infrastructures"
    · rw [if_pos c7]; exact a7
    rw [if_neg c7]
    by_cases c8 : toolName = "get_infrastructure_details"
    · rw [if_pos c8]; exact a8
    rw [if_neg c8]
    by_cases c9 : toolName = "list_environments"
    · rw [if_pos c9]; exact a9
    rw [if_neg c9]
    by_cases c10 : toolName = "create_environment"
    · rw [if_pos c10]; exact a10
    rw [if_neg c10]
    by_cases c11 : toolName = "list_resilience_probes"
    · rw [if_pos c11]; exact a11
    rw [if_neg c11]
    by_cases c12 : toolName = "create_resilience_probe"
    · rw [if_pos c12]; exact a12
    rw [if_neg c12]
    by_cases c13 : toolName = "list_chaos_hubs"
    · rw [if_pos c13]; exact a13
    rw [if_neg c13]
    by_cases c14 : toolName = "get_chaos_faults"
    · rw [if_pos c14]; exact a14
    rw [if_neg c14]
    by_cases c15 : toolName = "get_experiment_statistics"
    · rw [if_pos c15]; exact a15
    rw [if_neg c15]
    by_cases c16 : toolName = "register_chaos_infrastructure"
    · rw [if_pos c16]; exact a16
    rw [if_neg c16]
    exact hfail _

/-- Claim C18, counterexample. The tool `get_infrastructure_details` with `includeManifest`
set, in front of a remote service whose manifest query fails in transport: the second
remote call issued for the tool call returns an error, and the handler still returns a
result, in which the text `Manifest not available` stands for the manifest. -/
theorem manifest_failure_is_swallowed :
    (getInfrastructureDetails (exampleServer manifestFailsRemote) manifestArgs).calls.map
      (fun body => body.Query) = ["GetInfra", "GetInfraManifest"] ∧
    graphqlRequest (exampleServer manifestFailsRemote) "GetInfraManifest"
      (some [("infraID", JSON.str "infra-1"), ("upgrade", JSON.bool false)])
      = Except.error "failed to execute request: context deadline exceeded" ∧
    (getInfrastructureDetails (exampleServer manifestFailsRemote) manifestArgs).out
      = Outcome.ok (textResult (exampleServer manifestFailsRemote)
          (infrastructureDetailsResponse (some [("infraID", JSON.str "infra-1")])
            (JSON.str "Manifest not available"))) :=
  ⟨rfl, rfl, rfl⟩

/-- Claim C18, amended. For every tool call, if a remote call issued on its behalf, other
than the manifest query of `get_infrastructure_details`, fails, the tool call as a whole
fails with one error, the error of a failed call, and returns no result. When the
manifest query of `get_infrastructure_details` fails (or its data does not decode, or
holds no manifest), the handler returns its result with the text `Manifest not available`
in place of the manifest. -/
theorem remote_failure_fails_call (s : LitmusChaosServer) (toolName : String)
    (arguments : RawMessage) :
    failurePropagates s (handleTool s toolName arguments) ∧
    (∀ body, body ∈ (handleTool s toolName arguments).calls →
      body.Query ≠ "GetInfraManifest" →
      ∀ cause, replyTo s body = Except.error cause →
        ∀ result, (handleTool s toolName arguments).out ≠ Outcome.ok result) ∧
    (∀ (args : GoMap) (data : RawMessage) (result : GoMap) (infra : List (String × JSON))
      (cause : String),
      getStringFromArgs args "infraId" "" ≠ "" →
      getBoolFromArgs args "includeManifest" false = true →
      graphqlRequest s "GetInfra"
        (some [("infraID", JSON.str (getStringFromArgs args "infraId" ""))]) = Except.ok data →
      unmarshalMap data = Except.ok result →
      mapIndex result "getInfra" = JSON.obj infra →
      graphqlRequest s "GetInfraManifest"
        (some [("infraID", JSON.str (getStringFromArgs args "infraId" "")),
          ("upgrade", JSON.bool false)]) = Except.error cause →
      (getInfrastructureDetails s args).out
        = Outcome.ok (textResult s
            (infrastructureDetailsResponse (some infra) (JSON.str "Manifest not available")))) := by
  have hmain : failurePropagates s (handleTool s toolName arguments) := by
    refine handleTool_cases (failurePropagates s) s toolName arguments
      (failurePropagates_fail s) ?_
    intro args
    obtain ⟨l1, l2, l3, l4, l5, l6, k1, k2, k3, k4, k5, k6, k7, k8⟩ :=
      failurePropagates_handlers s args
    exact ⟨l1, k1, k2, k3, l2, k4, l3, failurePropagates_infrastructure s args, l4, k5, l5,
      k6, l6, k7, failurePropagates_statistics s args, k8⟩
  refine ⟨hmain, ?_, ?_⟩
  · intro body hb hq cause hc result hres
    obtain ⟨msg, hout, _⟩ := hmain body hb hq cause hc
    rw [hout] at hres
    cases hres
  · intro args data result infra cause hid hm hg hu hi hmf
    simp [getInfrastructureDetails, hid, hm, hg, hu, hi, hmf, manifestOf, manifestNotAvailable]

/-- The witness of `remote_failure_fails_call`: `run_chaos_experiment` in front of a remote
service that refuses every connection. -/
theorem remote_failure_fails_call_witness :
    ∃ msg, (handleTool (exampleServer refusingRemote) "run_chaos_experiment"
        (some (JSON.obj [("experimentId", JSON.str "exp-1")]))).out = Outcome.error msg ∧
      ∃ b, b ∈ (handleTool (exampleServer refusingRemote) "run_chaos_experiment"
          (some (JSON.obj [("experimentId", JSON.str "exp-1")]))).calls ∧
        replyTo (exampleServer refusingRemote) b = Except.error msg :=
  (remote_failure_fails_call (exampleServer refusingRemote) "run_chaos_experiment"
    (some (JSON.obj [("experimentId", JSON.str "exp-1")]))).1
    (graphqlRequestBody (exampleServer refusingRemote) "RunChaosExperiment"
      (some [("experimentID", JSON.str "exp-1")]))
    (List.mem_singleton.2 rfl) (by decide)
    "failed to execute request: connection refused" rfl

/-! ## Main loop -/

/-- The main loop prints at most one line per input line. -/
theorem run_output_length_le (s : LitmusChaosServer) (lines : List String) :
    (run s lines).output.length ≤ lines.length := by
  induction lines with
  | nil => simp [run]
  | cons line rest ih =>
    by_cases he : line = ""
    · simp only [run, he, if_true, List.length_cons]; omega
    · cases hl : s.rt.unmarshalLine line with
      | none => simp only [run, he, hl, if_false, List.length_cons]; omega
      | some req =>
        cases hh : handleRequest s req with
        | noResponse => simp only [run, he, hl, hh, if_false, List.length_cons]; omega
        | response resp =>
          simp only [run, he, hl, hh, if_false, List.length_cons]; omega
        | panic msg => simp [run, he, hl, hh]

/-- The lines the main loop prints are, in input order, the responses to the lines it has
read: a prefix of the responses of all lines. -/
theorem run_output_prefix (s : LitmusChaosServer) (lines : List String) :
    (run s lines).output <+: lines.filterMap (lineOutput s) := by
  induction lines with
  | nil => simp [run]
  | cons line rest ih =>
    by_cases he : line = ""
    · simpa [run, he, lineOutput, List.filterMap_cons] using ih
    · cases hl : s.rt.unmarshalLine line with
      | none => simpa [run, he, hl, lineOutput, List.filterMap_cons] using ih
      | some req =>
        cases hh : handleRequest s req with
        | noResponse => simpa [run, he, hl, hh, lineOutput, List.filterMap_cons] using ih
        | response resp =>
          simp only [run, he, hl, hh, lineOutput, List.filterMap_cons, if_false]
          exact (List.prefix_cons_inj resp).2 ih
        | panic msg =>
          simp only [run, he, hl, hh, if_false]
          exact List.nil_prefix

/-- When no handler panics, the main loop prints exactly the responses of the lines, in
input order: nothing for an empty line, for a line that does not decode and for an
`initialized` request, and one line for every other request. -/
theorem run_output_of_no_crash (s : LitmusChaosServer) (lines : List String)
    (h : (run s lines).crashed = none) :
    (run s lines).output = lines.filterMap (lineOutput s) := by
  induction lines with
  | nil => simp [run]
  | cons line rest ih =>
    by_cases he : line = ""
    · simp only [run, he, if_true] at h
      simpa [run, he, lineOutput, List.filterMap_cons] using ih h
    · cases hl : s.rt.unmarshalLine line with
      | none =>
        simp only [run, he, hl, if_false] at h
        simpa [run, he, hl, lineOutput, List.filterMap_cons] using ih h
      | some req =>
        cases hh : handleRequest s req with
        | noResponse =>
          simp only [run, he, hl, hh, if_false] at h
          simpa [run, he, hl, hh, lineOutput, List.filterMap_cons] using ih h
        | response resp =>
          simp only [run, he, hl, hh, if_false] at h
          simp only [run, he, hl, hh, lineOutput, List.filterMap_cons, if_false]
          rw [ih h]
        | panic msg => simp [run, he, hl, hh] at h

/-- Claim C19, the failing input. Three lines: a `tools/list` request, the `tools/call`
of `run_chaos_experiment` that the remote service answers with
`{"data": {"runChaosExperiment": null}}`, and a second `tools/list` request. The first
line is answered; the second line decodes to a request whose method is not `initialized`
and gets no response line, because the handler panics; the third line is never read. -/
theorem run_stops_at_panicking_line :
    sessionRuntime.unmarshalLine runExperimentLine = some runExperimentRequest ∧
    runExperimentRequest.Method ≠ "initialized" ∧
    run (sessionServer (remoteData (JSON.obj [("runChaosExperiment", JSON.null)])))
      [listToolsLine, runExperimentLine, listToolsLine]
    = { output := [{ JSONRPC := "2.0", ID := JSON.num 2, Result := some handleListTools,
                     Error := none }]
        crashed := some "interface conversion: interface {} is nil, not map[string]interface {}" } := by
  refine ⟨rfl, by decide, rfl⟩

/-! ## Registry -/

/-- A handler call that issues a remote call is no failure before a call. -/
theorem singleCall_ne_fail (s : LitmusChaosServer) (query : String) (vars : GoMap)
    (reshape : GoMap → Outcome ToolResult) (m : String) :
    singleCall s query vars reshape ≠ Run.fail m := by
  intro h
  have hc := congrArg Run.calls h
  simp [singleCall, Run.fail] at hc

/-- A failure before a call with a given message has that message. -/
theorem Run.fail_inj (a b : String) (h : Run.fail a = Run.fail b) : a = b := by
  have ho := congrArg Run.out h
  simp only [Run.fail] at ho
  injection ho

/-- The handlers reject their arguments with one of the messages `validationMessages`,
and fail before a call in no other way. -/
theorem handlers_fail_messages (s : LitmusChaosServer) (args : GoMap) (m : String) :
    (listChaosExperiments s args ≠ Run.fail m) ∧
    (getChaosExperiment s args = Run.fail m → m ∈ validationMessages) ∧
    (runChaosExperiment s args = Run.fail m → m ∈ validationMessages) ∧
    (stopChaosExperiment s args = Run.fail m → m ∈ validationMessages) ∧
    (listExperimentRuns s args ≠ Run.fail m) ∧
    (getExperimentRunDetails s args = Run.fail m → m ∈ validationMessages) ∧
    (listChaosInfrastructures s args ≠ Run.fail m) ∧
    (getInfrastructureDetails s args = Run.fail m → m ∈ validationMessages) ∧
    (listEnvironments s args ≠ Run.fail m) ∧
    (createEnvironment s args = Run.fail m → m ∈ validationMessages) ∧
    (listResilienceProbes s args ≠ Run.fail m) ∧
    (createResilienceProbe s args = Run.fail m → m ∈ validationMessages) ∧
    (listChaosHubs s args ≠ Run.fail m) ∧
    (getChaosFaults s args = Run.fail m → m ∈ validationMessages) ∧
    (getExperimentStatistics s args ≠ Run.fail m) ∧
    (registerChaosInfrastructure s args = Run.fail m → m ∈ validationMessages) := by
  have hmem : ∀ lit, lit ∈ validationMessages → Run.fail lit = Run.fail m →
      m ∈ validationMessages := by
    intro lit hl h
    rw [← Run.fail_inj lit m h]; exact hl
  refine ⟨?_, ?_, ?_, ?_, ?_, ?_, ?_, ?_, ?_, ?_, ?_, ?_, ?_, ?_, ?_, ?_⟩
  · exact singleCall_ne_fail s _ _ _ m
  · simp only [getChaosExperiment]
    split_ifs
    · exact hmem _ (by simp [validationMessages])
    · intro h; exact absurd h (singleCall_ne_fail s _ _ _ m)
  · simp only [runChaosExperiment]
    split_ifs
    · exact hmem _ (by simp [validationMessages])
    · intro h; exact absurd h (singleCall_ne_fail s _ _ _ m)
  · simp only [stopChaosExperiment]
    split_ifs
    · exact hmem _ (by simp [validationMessages])
    · intro h; exact absurd h (singleCall_ne_fail s _ _ _ m)
  · exact singleCall_ne_fail s _ _ _ m
  · simp only [getExperimentRunDetails]
    split_ifs
    · exact hmem _ (by simp [validationMessages])
    · intro h; exact absurd h (singleCall_ne_fail s _ _ _ m)
  · exact singleCall_ne_fail s _ _ _ m
  · intro h
    by_cases hid : getStringFromArgs args "infraId" "" = ""
    · have h2 : getInfrastructureDetails s args = Run.fail "infraId is required" := by
        simp [getInfrastructureDetails, hid]
      rw [h2] at h
      exact hmem _ (by simp [validationMessages]) h
    · have hc := (getInfrastructureDetails_calls s args hid).1
      rw [h] at hc
      simp [Run.fail] at hc
  · exact singleCall_ne_fail s _ _ _ m
  · simp only [createEnvironment]
    split_ifs
    · exact hmem _ (by simp [validationMessages])
    · exact hmem _ (by simp [validationMessages])
    · intro h; exact absurd h (singleCall_ne_fail s _ _ _ m)
  · exact singleCall_ne_fail s _ _ _ m
  · simp only [createResilienceProbe]
    split_ifs
    · exact hmem _ (by simp [validationMessages])
    · exact hmem _ (by simp [validationMessages])
    · cases getMapFromArgs args "properties" with
      | none => exact hmem _ (by simp [validationMessages])
      | some properties => intro h; exact absurd h (singleCall_ne_fail s _ _ _ m)
  · exact singleCall_ne_fail s _ _ _ m
  · simp only [getChaosFaults]
    split_ifs
    · exact hmem _ (by simp [validationMessages])
    · intro h; exact absurd h (singleCall_ne_fail s _ _ _ m)
  · intro h
    have hc := congrArg (fun r => r.calls.length) h
    simp [getExperimentStatistics, Run.fail] at hc
  · simp only [registerChaosInfrastructure]
    split_ifs
    · exact hmem _ (by simp [validationMessages])
    · exact hmem _ (by simp [validationMessages])
    · exact hmem _ (by simp [validationMessages])
    · intro h; exact absurd h (singleCall_ne_fail s _ _ _ m)

/-- Claim C20. The registry is a consistent mapping: for every string `n` (and arguments
that decode), `handleTool` dispatches `n` to a handler, that is, does not answer
`unknown tool: n`, if and only if `getTools` contains a descriptor named `n`. -/
theorem registry_consistent (s : LitmusChaosServer) (n : String) (arguments : RawMessage)
    (args : GoMap) (ha : unmarshalArguments arguments = Except.ok args) :
    (handleTool s n arguments ≠ Run.fail ("unknown tool: " ++ n)) ↔
      ∃ t, t ∈ getTools ∧ t.Name = n := by
  constructor
  · intro h
    by_contra hno
    apply h
    apply handleTool_unknown s n arguments args ha
    intro hmem
    obtain ⟨t, ht, hn⟩ := List.mem_map.1 hmem
    exact hno ⟨t, ht, hn⟩
  · rintro ⟨t, ht, hn⟩
    have hmem : n ∈ getTools.map (fun t => t.Name) := List.mem_map.2 ⟨t, ht, hn⟩
    rw [getTools_names] at hmem
    simp only [List.mem_cons, List.mem_singleton, List.mem_nil_iff, or_false] at hmem
    obtain ⟨a1, a2, a3, a4, a5, a6, a7, a8, a9, a10, a11, a12, a13, a14, a15, a16⟩ :=
      handlers_fail_messages s args ("unknown tool: " ++ n)
    intro h
    rw [handleTool_ok s n arguments args ha] at h
    rcases hmem with c | c | c | c | c | c | c | c | c | c | c | c | c | c | c | c <;>
      subst c
    · exact a1 h
    · exact absurd (a2 h) (by decide)
    · exact absurd (a3 h) (by decide)
    · exact absurd (a4 h) (by decide)
    · exact a5 h
    · exact absurd (a6 h) (by decide)
    · exact a7 h
    · exact absurd (a8 h) (by decide)
    · exact a9 h
    · exact absurd (a10 h) (by decide)
    · exact a11 h
    · exact absurd (a12 h) (by decide)
    · exact a13 h
    · exact absurd (a14 h) (by decide)
    · exact a15 h
    · exact absurd (a16 h) (by decide)

/-- The witness of `registry_consistent`: the name `run_chaos_experiment` without
arguments. -/
theorem registry_consistent_witness :
    (handleTool (exampleServer (remoteData JSON.null)) "run_chaos_experiment" none
        ≠ Run.fail ("unknown tool: " ++ "run_chaos_experiment")) ↔
      ∃ t, t ∈ getTools ∧ t.Name = "run_chaos_experiment" :=
  registry_consistent (exampleServer (remoteData JSON.null)) "run_chaos_experiment" none none rfl

/-- A character of a tool name: a lowercase ASCII letter or an underscore. -/
theorem toolNameChar_iff (c : Char) :
    toolNameChar c = true ↔ (('a' ≤ c ∧ c ≤ 'z') ∨ c = '_') := by
  simp [toolNameChar]

/-- Claim C21. The tool names returned by `getTools` are pairwise distinct, and each
consists only of lowercase ASCII letters and underscores. -/
theorem tool_names_distinct_lowercase :
    (getTools.map (fun t => t.Name)).Nodup ∧
    ∀ t, t ∈ getTools → ∀ c, c ∈ t.Name.data → (('a' ≤ c ∧ c ≤ 'z') ∨ c = '_') := by
  refine ⟨?_, ?_⟩
  · rw [getTools_names]; decide
  · intro t ht c hc
    have hall : ∀ n, n ∈ getTools.map (fun t => t.Name) → n.data.all toolNameChar = true := by
      rw [getTools_names]; decide
    have hn := hall t.Name (List.mem_map.2 ⟨t, ht, rfl⟩)
    exact (toolNameChar_iff c).1 (List.all_eq_true.1 hn c hc)

/-! ## Handlers: results -/

/-- The result `textResult` builds is a text result. -/
theorem producesText_ok (s : LitmusChaosServer) (response : JSON) :
    producesText s (Outcome.ok (textResult s response)) := by
  intro r h
  injection h with h
  exact ⟨response, h.symm⟩

/-- An error is no result. -/
theorem producesText_error (s : LitmusChaosServer) (msg : String) :
    producesText s (Outcome.error msg) := by
  intro r h; cases h

/-- A panic is no result. -/
theorem producesText_panic (s : LitmusChaosServer) (msg : String) :
    producesText s (Outcome.panic msg) := by
  intro r h; cases h

/-- A sequence of steps ends as its last step does. -/
theorem producesText_bind {α : Type} (s : LitmusChaosServer) (x : Outcome α)
    (f : α → Outcome ToolResult) (h : ∀ a, producesText s (f a)) :
    producesText s (x.bind f) := by
  cases x with
  | ok a => exact h a
  | error msg => exact producesText_error s msg
  | panic msg => exact producesText_panic s msg

/-- A handler with one remote call ends as its reshaping step does. -/
theorem producesText_singleCall (s : LitmusChaosServer) (query : String) (vars : GoMap)
    (reshape : GoMap → Outcome ToolResult) (h : ∀ result, producesText s (reshape result)) :
    producesText s (singleCall s query vars reshape).out := by
  simp only [singleCall]
  cases graphqlRequest s query vars with
  | error msg => exact producesText_error s msg
  | ok data => exact producesText_bind s _ _ h

/-- A failure before a call is no result. -/
theorem producesText_fail (s : LitmusChaosServer) (msg : String) :
    producesText s (Run.fail msg).out :=
  producesText_error s msg

/-- The handler `listChaosExperiments` returns a text result when it returns one. -/
theorem listChaosExperiments_producesText (s : LitmusChaosServer) (args : GoMap) :
    producesText s (listChaosExperiments s args).out := by
  simp only [listChaosExperiments]
  apply producesText_singleCall
  intro result
  simp only [Outcome.bind_eq, Outcome.pure_eq]
  repeat (first | exact producesText_ok s _ | (apply producesText_bind; intro _) | split)

/-- The handler `listExperimentRuns` returns a text result when it returns one. -/
theorem listExperimentRuns_producesText (s : LitmusChaosServer) (args : GoMap) :
    producesText s (listExperimentRuns s args).out := by
  simp only [listExperimentRuns]
  apply producesText_singleCall
  intro result
  simp only [Outcome.bind_eq, Outcome.pure_eq]
  repeat (first | exact producesText_ok s _ | (apply producesText_bind; intro _) | split)

/-- The handler `listChaosInfrastructures` returns a text result when it returns one. -/
theorem listChaosInfrastructures_producesText (s : LitmusChaosServer) (args : GoMap) :
    producesText s (listChaosInfrastructures s args).out := by
  simp only [listChaosInfrastructures]
  apply producesText_singleCall
  intro result
  simp only [Outcome.bind_eq, Outcome.pure_eq]
  repeat (first | exact producesText_ok s _ | (apply producesText_bind; intro _) | split)

/-- The handler `listEnvironments` returns a text result when it returns one. -/
theorem listEnvironments_producesText (s : LitmusChaosServer) (args : GoMap) :
    producesText s (listEnvironments s args).out := by
  simp only [listEnvironments]
  apply producesText_singleCall
  intro result
  simp only [Outcome.bind_eq, Outcome.pure_eq]
  repeat (first | exact producesText_ok s _ | (apply producesText_bind; intro _) | split)

/-- The handler `listResilienceProbes` returns a text result when it returns one. -/
theorem listResilienceProbes_producesText (s : LitmusChaosServer) (args : GoMap) :
    producesText s (listResilienceProbes s args).out := by
  simp only [listResilienceProbes]
  apply producesText_singleCall
  intro result
  simp only [Outcome.bind_eq, Outcome.pure_eq]
  repeat (first | exact producesText_ok s _ | (apply producesText_bind; intro _) | split)

/-- The handler `listChaosHubs` returns a text result when it returns one. -/
theorem listChaosHubs_producesText (s : LitmusChaosServer) (args : GoMap) :
    producesText s (listChaosHubs s args).out := by
  simp only [listChaosHubs]
  apply producesText_singleCall
  intro result
  simp only [Outcome.bind_eq, Outcome.pure_eq]
  repeat (first | exact producesText_ok s _ | (apply producesText_bind; intro _) | split)

/-- The handler `getChaosExperiment` returns a text result when it returns one. -/
theorem getChaosExperiment_producesText (s : LitmusChaosServer) (args : GoMap) :
    producesText s (getChaosExperiment s args).out := by
  simp only [getChaosExperiment]
  split_ifs
  · exact producesText_fail s _
  · apply producesText_singleCall
    intro result
    simp only [Outcome.bind_eq, Outcome.pure_eq]
    repeat (first | exact producesText_ok s _ | (apply producesText_bind; intro _) | split)

/-- The handler `runChaosExperiment` returns a text result when it returns one. -/
theorem runChaosExperiment_producesText (s : LitmusChaosServer) (args : GoMap) :
    producesText s (runChaosExperiment s args).out := by
  simp only [runChaosExperiment]
  split_ifs
  · exact producesText_fail s _
  · apply producesText_singleCall
    intro result
    simp only [Outcome.bind_eq, Outcome.pure_eq]
    repeat (first | exact producesText_ok s _ | (apply producesText_bind; intro _) | split)

/-- The handler `stopChaosExperiment` returns a text result when it returns one. -/
theorem stopChaosExperiment_producesText (s : LitmusChaosServer) (args : GoMap) :
    producesText s (stopChaosExperiment s args).out := by
  simp only [stopChaosExperiment]
  split_ifs
  · exact producesText_fail s _
  · apply producesText_singleCall
    intro result
    simp only [Outcome.bind_eq, Outcome.pure_eq]
    repeat (first | exact producesText_ok s _ | (apply producesText_bind; intro _) | split)

/-- The handler `getExperimentRunDetails` returns a text result when it returns one. -/
theorem getExperimentRunDetails_producesText (s : LitmusChaosServer) (args : GoMap) :
    producesText s (getExperimentRunDetails s args).out := by
  simp only [getExperimentRunDetails]
  split_ifs
  · exact producesText_fail s _
  · apply producesText_singleCall
    intro result
    simp only [Outcome.bind_eq, Outcome.pure_eq]
    repeat (first | exact producesText_ok s _ | (apply producesText_bind; intro _) | split)

/-- The handler `createEnvironment` returns a text result when it returns one. -/
theorem createEnvironment_producesText (s : LitmusChaosServer) (args : GoMap) :
    producesText s (createEnvironment s args).out := by
  simp only [createEnvironment]
  split_ifs
  · exact producesText_fail s _
  · exact producesText_fail s _
  · apply producesText_singleCall
    intro result
    simp only [Outcome.bind_eq, Outcome.pure_eq]
    repeat (first | exact producesText_ok s _ | (apply producesText_bind; intro _) | split)

/-- The handler `getChaosFaults` returns a text result when it returns one. -/
theorem getChaosFaults_producesText (s : LitmusChaosServer) (args : GoMap) :
    producesText s (getChaosFaults s args).out := by
  simp only [getChaosFaults]
  split_ifs
  · exact producesText_fail s _
  · apply producesText_singleCall
    intro result
    simp only [Outcome.bind_eq, Outcome.pure_eq]
    repeat (first | exact producesText_ok s _ | (apply producesText_bind; intro _) | split)

/-- The handler `registerChaosInfrastructure` returns a text result when it returns one. -/
theorem registerChaosInfrastructure_producesText (s : LitmusChaosServer) (args : GoMap) :
    producesText s (registerChaosInfrastructure s args).out := by
  simp only [registerChaosInfrastructure]
  split_ifs
  · exact producesText_fail s _
  · exact producesText_fail s _
  · exact producesText_fail s _
  · apply producesText_singleCall
    intro result
    simp only [Outcome.bind_eq, Outcome.pure_eq]
    repeat (first | exact producesText_ok s _ | (apply producesText_bind; intro _) | split)

/-- The handler `createResilienceProbe` returns a text result when it returns one. -/
theorem createResilienceProbe_producesText (s : LitmusChaosServer) (args : GoMap) :
    producesText s (createResilienceProbe s args).out := by
  simp only [createResilienceProbe]
  split_ifs
  · exact producesText_fail s _
  · exact producesText_fail s _
  · cases getMapFromArgs args "properties" with
    | none => exact producesText_fail s _
    | some properties =>
      apply producesText_singleCall
      intro result
      simp only [Outcome.bind_eq, Outcome.pure_eq]
      repeat (first | exact producesText_ok s _ | (apply producesText_bind; intro _) | split)

/-- The handler `getExperimentStatistics` returns a text result when it returns one. -/
theorem getExperimentStatistics_producesText (s : LitmusChaosServer) (args : GoMap) :
    producesText s (getExperimentStatistics s args).out := by
  simp only [getExperimentStatistics]
  cases collectStats (fun c => graphqlRequest s (StatsCall.query c) none) s.rt.recvOrder.toList
      { expStatsData := none, runStatsData := none, infraStatsData := none } with
  | error msg => exact producesText_error s msg
  | ok d =>
    simp only [statisticsDocument, Outcome.bind_eq, Outcome.pure_eq]
    repeat (first | exact producesText_ok s _ | (apply producesText_bind; intro _) | split)

/-- The handler `getInfrastructureDetails` returns a text result when it returns one. -/
theorem getInfrastructureDetails_producesText (s : LitmusChaosServer) (args : GoMap) :
    producesText s (getInfrastructureDetails s args).out := by
  by_cases hid : getStringFromArgs args "infraId" "" = ""
  · simp only [getInfrastructureDetails, hid, if_true]
    exact producesText_fail s _
  · simp only [getInfrastructureDetails, hid, if_false]
    cases hg : graphqlRequest s "GetInfra"
        (some [("infraID", JSON.str (getStringFromArgs args "infraId" ""))]) with
    | error msg => exact producesText_error s msg
    | ok data =>
      cases hu : unmarshalMap data with
      | error msg => simp only [hu]; exact producesText_error s msg
      | ok result =>
        cases hi : mapIndex result "getInfra" with
        | obj infra =>
          by_cases hm : getBoolFromArgs args "includeManifest" false = true
          · simp only [hu, hi, hm, if_true]; exact producesText_ok s _
          · simp only [hu, hi, hm, if_false]; exact producesText_ok s _
        | null => simp only [hu, hi]; exact producesText_panic s _
        | bool b => simp only [hu, hi]; exact producesText_panic s _
        | num q => simp only [hu, hi]; exact producesText_panic s _
        | str t => simp only [hu, hi]; exact producesText_panic s _
        | arr xs => simp only [hu, hi]; exact producesText_panic s _
        | bigNum literal => simp only [hu, hi]; exact producesText_panic s _

/-- Claim C22. Whenever any tool handler succeeds, its tool result holds exactly one
content item, and the type tag of that item is `text` (its text is
`json.MarshalIndent` of the response document). -/
theorem handler_result_is_one_text_item (s : LitmusChaosServer) (toolName : String)
    (arguments : RawMessage) (result : ToolResult)
    (h : (handleTool s toolName arguments).out = Outcome.ok result) :
    result.Content.length = 1 ∧
    (∀ item, item ∈ result.Content → item.Type_ = "text") ∧
    ∃ response, result.Content = [{ Type_ := "text", Text := s.rt.marshalIndent response }] := by
  have hp : producesText s (handleTool s toolName arguments).out := by
    refine handleTool_cases (fun r => producesText s r.out) s toolName arguments
      (producesText_fail s) ?_
    intro args
    exact ⟨listChaosExperiments_producesText s args, getChaosExperiment_producesText s args,
      runChaosExperiment_producesText s args, stopChaosExperiment_producesText s args,
      listExperimentRuns_producesText s args, getExperimentRunDetails_producesText s args,
      listChaosInfrastructures_producesText s args,
      getInfrastructureDetails_producesText s args, listEnvironments_producesText s args,
      createEnvironment_producesText s args, listResilienceProbes_producesText s args,
      createResilienceProbe_producesText s args, listChaosHubs_producesText s args,
      getChaosFaults_producesText s args, getExperimentStatistics_producesText s args,
      registerChaosInfrastructure_producesText s args⟩
  obtain ⟨response, hr⟩ := hp result h
  subst hr
  refine ⟨rfl, ?_, response, rfl⟩
  intro item hi
  simp only [textResult, List.mem_singleton] at hi
  subst hi
  rfl

/-- The witness of `handler_result_is_one_text_item`: the registration that succeeds. -/
theorem handler_result_is_one_text_item_witness :
    (textResult (exampleServer registerRemote) registerResponse).Content.length = 1 ∧
    (∀ item, item ∈ (textResult (exampleServer registerRemote) registerResponse).Content →
      item.Type_ = "text") ∧
    ∃ response, (textResult (exampleServer registerRemote) registerResponse).Content
      = [{ Type_ := "text",
           Text := (exampleServer registerRemote).rt.marshalIndent response }] :=
  handler_result_is_one_text_item (exampleServer registerRemote)
    "register_chaos_infrastructure"
    (some (JSON.obj [("name", JSON.str "edge"), ("infraScope", JSON.str "cluster")]))
    (textResult (exampleServer registerRemote) registerResponse) rfl

/-! ## Resilience probes -/

/-- The string accessor returns the stored string, and the default for anything else. -/
theorem getStringFromArgs_cases (args : GoMap) (key d : String) :
    (∀ v, mapLookup args key = some (JSON.str v) → getStringFromArgs args key d = v) ∧
    ((∀ v, mapLookup args key ≠ some (JSON.str v)) → getStringFromArgs args key d = d) := by
  refine ⟨?_, ?_⟩
  · intro v h; simp [getStringFromArgs, h]
  · intro h
    unfold getStringFromArgs
    split
    · next str hl => exact absurd hl (h str)
    · rfl

/-- The request of a probe of one of the four known types. -/
theorem probe_request_blocks (s : LitmusChaosServer) (args : GoMap) (name : String)
    (properties : GoMap) :
    hasOnlyBlock (createResilienceProbeRequest s args name "httpProbe" properties) properties
      "kubernetesHTTPProperties" ∧
    hasOnlyBlock (createResilienceProbeRequest s args name "cmdProbe" properties) properties
      "kubernetesCMDProperties" ∧
    hasOnlyBlock (createResilienceProbeRequest s args name "k8sProbe" properties) properties
      "k8sProperties" ∧
    hasOnlyBlock (createResilienceProbeRequest s args name "promProbe" properties) properties
      "promProperties" := by
  refine ⟨?_, ?_, ?_, ?_⟩
  · refine ⟨⟨?block1, ?heq1, ?hstd1⟩, ?hother1⟩
    case heq1 =>
      simp only [createResilienceProbeRequest, probeProperties]
      simp only [String.reduceEq, if_true, if_false]
      exact lookupMember_mapSet_same _ _ _
    case hstd1 => simp [standardProbeBlock, lookupMember]
    case hother1 =>
      intro other ho hne
      simp only [createResilienceProbeRequest, probeProperties]
      simp only [String.reduceEq, if_true, if_false]
      rw [lookupMember_mapSet_other _ _ _ _ hne]
      simp only [probeBlockKeys, List.mem_cons, List.mem_singleton, List.mem_nil_iff,
        or_false] at ho
      rcases ho with h | h | h | h <;> subst h <;> simp [lookupMember]
  · refine ⟨⟨?block2, ?heq2, ?hstd2⟩, ?hother2⟩
    case heq2 =>
      simp only [createResilienceProbeRequest, probeProperties]
      simp only [String.reduceEq, if_true, if_false]
      exact lookupMember_mapSet_same _ _ _
    case hstd2 => simp [standardProbeBlock, lookupMember]
    case hother2 =>
      intro other ho hne
      simp only [createResilienceProbeRequest, probeProperties]
      simp only [String.reduceEq, if_true, if_false]
      rw [lookupMember_mapSet_other _ _ _ _ hne]
      simp only [probeBlockKeys, List.mem_cons, List.mem_singleton, List.mem_nil_iff,
        or_false] at ho
      rcases ho with h | h | h | h <;> subst h <;> simp [lookupMember]
  · refine ⟨⟨?block3, ?heq3, ?hstd3⟩, ?hother3⟩
    case heq3 =>
      simp only [createResilienceProbeRequest, probeProperties]
      simp only [String.reduceEq, if_true, if_false]
      exact lookupMember_mapSet_same _ _ _
    case hstd3 => simp [standardProbeBlock, lookupMember]
    case hother3 =>
      intro other ho hne
      simp only [createResilienceProbeRequest, probeProperties]
      simp only [String.reduceEq, if_true, if_false]
      rw [lookupMember_mapSet_other _ _ _ _ hne]
      simp only [probeBlockKeys, List.mem_cons, List.mem_singleton, List.mem_nil_iff,
        or_false] at ho
      rcases ho with h | h | h | h <;> subst h <;> simp [lookupMember]
  · refine ⟨⟨?block4, ?heq4, ?hstd4⟩, ?hother4⟩
    case heq4 =>
      simp only [createResilienceProbeRequest, probeProperties]
      simp only [String.reduceEq, if_true, if_false]
      exact lookupMember_mapSet_same _ _ _
    case hstd4 => simp [standardProbeBlock, lookupMember]
    case hother4 =>
      intro other ho hne
      simp only [createResilienceProbeRequest, probeProperties]
      simp only [String.reduceEq, if_true, if_false]
      rw [lookupMember_mapSet_other _ _ _ _ hne]
      simp only [probeBlockKeys, List.mem_cons, List.mem_singleton, List.mem_nil_iff,
        or_false] at ho
      rcases ho with h | h | h | h <;> subst h <;> simp [lookupMember]

/-- Claim C23. For each of the four probe types `httpProbe`, `cmdProbe`, `k8sProbe` and
`promProbe`, `create_resilience_probe` builds a request with exactly one type-specific
property block (under `kubernetesHTTPProperties`, `kubernetesCMDProperties`,
`k8sProperties` and `promProperties`), in which `retry` is 3 and `attempt` is 1, and
`probeTimeout` and `interval` are the strings supplied as `timeout` and `interval`, or
`5s` and `2s` when these are absent or not strings; and the handler sends that request. -/
theorem probe_request_defaults (s : LitmusChaosServer) (args : GoMap) (name : String)
    (properties : GoMap) :
    hasOnlyBlock (createResilienceProbeRequest s args name "httpProbe" properties) properties
      "kubernetesHTTPProperties" ∧
    hasOnlyBlock (createResilienceProbeRequest s args name "cmdProbe" properties) properties
      "kubernetesCMDProperties" ∧
    hasOnlyBlock (createResilienceProbeRequest s args name "k8sProbe" properties) properties
      "k8sProperties" ∧
    hasOnlyBlock (createResilienceProbeRequest s args name "promProbe" properties) properties
      "promProperties" ∧
    (∀ v, mapLookup properties "timeout" = some (JSON.str v) →
      getStringFromArgs properties "timeout" "5s" = v) ∧
    ((∀ v, mapLookup properties "timeout" ≠ some (JSON.str v)) →
      getStringFromArgs properties "timeout" "5s" = "5s") ∧
    (∀ v, mapLookup properties "interval" = some (JSON.str v) →
      getStringFromArgs properties "interval" "2s" = v) ∧
    ((∀ v, mapLookup properties "interval" ≠ some (JSON.str v)) →
      getStringFromArgs properties "interval" "2s" = "2s") ∧
    (∀ props, getStringFromArgs args "name" "" ≠ "" → getStringFromArgs args "type" "" ≠ "" →
      getMapFromArgs args "properties" = some props →
      (createResilienceProbe s args).calls
        = [graphqlRequestBody s "AddProbe" (some [("request",
            JSON.obj (createResilienceProbeRequest s args (getStringFromArgs args "name" "")
              (getStringFromArgs args "type" "") (some props)))])]) := by
  obtain ⟨h1, h2, h3, h4⟩ := probe_request_blocks s args name properties
  refine ⟨h1, h2, h3, h4, (getStringFromArgs_cases properties "timeout" "5s").1,
    (getStringFromArgs_cases properties "timeout" "5s").2,
    (getStringFromArgs_cases properties "interval" "2s").1,
    (getStringFromArgs_cases properties "interval" "2s").2, ?_⟩
  intro props hn ht hp
  simp [createResilienceProbe, hn, ht, hp, singleCall]

/-- The witness of `probe_request_defaults`: a command probe with the timeout `10s` and a
number as interval. -/
theorem probe_request_defaults_witness :
    hasOnlyBlock
      (createResilienceProbeRequest (exampleServer (remoteData JSON.null)) cmdProbeArgs "check"
        "cmdProbe" (getMapFromArgs cmdProbeArgs "properties"))
      (getMapFromArgs cmdProbeArgs "properties") "kubernetesCMDProperties" ∧
    getStringFromArgs (getMapFromArgs cmdProbeArgs "properties") "timeout" "5s" = "10s" ∧
    getStringFromArgs (getMapFromArgs cmdProbeArgs "properties") "interval" "2s" = "2s" :=
  ⟨(probe_request_defaults (exampleServer (remoteData JSON.null)) cmdProbeArgs "check"
      (getMapFromArgs cmdProbeArgs "properties")).2.1,
   (probe_request_defaults (exampleServer (remoteData JSON.null)) cmdProbeArgs "check"
      (getMapFromArgs cmdProbeArgs "properties")).2.2.2.2.1 "10s" rfl,
   (probe_request_defaults (exampleServer (remoteData JSON.null)) cmdProbeArgs "check"
      (getMapFromArgs cmdProbeArgs "properties")).2.2.2.2.2.2.2.1
      (by intro v h; simp [cmdProbeArgs, getMapFromArgs, mapLookup, lookupMember] at h)⟩

/-! ## Reshaping of the remote payload -/

/-- Claim C24, the failing inputs. A payload in which `runChaosExperiment` is null makes
`runChaosExperiment` panic in its unchecked assertion to a map; a payload in which
`listExperiment` has no `experiments` member makes `listChaosExperiments` panic in its
unchecked assertion to a slice; a payload in which `stopExperimentRuns` is a string makes
`stopChaosExperiment` panic in its unchecked assertion to a boolean. In each case the
reshaping step returns neither a result nor an error. -/
theorem reshaping_panics_on_unexpected_payload :
    (runChaosExperiment (exampleServer (remoteData (JSON.obj [("runChaosExperiment", JSON.null)])))
      (some [("experimentId", JSON.str "exp-1")])).out
      = Outcome.panic "interface conversion: interface {} is nil, not map[string]interface {}" ∧
    (listChaosExperiments
      (exampleServer (remoteData (JSON.obj [("listExperiment",
        JSON.obj [("totalNoOfExperiments", JSON.num 0)])]))) none).out
      = Outcome.panic "interface conversion: interface {} is nil, not []interface {}" ∧
    (stopChaosExperiment
      (exampleServer (remoteData (JSON.obj [("stopExperimentRuns", JSON.str "true")])))
      (some [("experimentId", JSON.str "exp-1")])).out
      = Outcome.panic "interface conversion: interface {} is string, not bool" :=
  ⟨rfl, rfl, rfl⟩

/-! ## Requests without an id -/

/-- A request without an id that is not `initialized` is answered, with a null id, unless
a tool handler panics. -/
theorem request_without_id_answered (s : LitmusChaosServer) (req : MCPRequest)
    (hid : req.ID = JSON.null) (hm : req.Method ≠ "initialized")
    (hp : ∀ msg, (handleCallTool s req.Params).out ≠ Outcome.panic msg) :
    ∃ resp, handleRequest s req = Handled.response resp ∧ resp.ID = JSON.null := by
  obtain ⟨resp, hr⟩ := handleRequest_responds s req hm hp
  exact ⟨resp, hr, by rw [(handleRequest_response_shape s req resp hr).1, hid]⟩

/-- The method `notifications/initialized` is answered with the error -32601, also
without an id. -/
theorem notification_without_id_gets_error (s : LitmusChaosServer) :
    handleRequest s notificationWithoutIdRequest = Handled.response
      { JSONRPC := "2.0", ID := JSON.null, Result := none
        Error := some { Code := -32601,
                        Message := "Method not found: notifications/initialized" } } := by
  simp [handleRequest, notificationWithoutIdRequest]

/-- Claim C25, the failing input. A `tools/call` of `stop_chaos_experiment` without an id,
when the remote service answers `{"data": {"stopExperimentRuns": null}}`: the method is
not `initialized`, and the request produces no response line, because the handler panics
in its unchecked assertion to a boolean. -/
theorem request_without_id_unanswered_on_panic :
    stopWithoutIdRequest.ID = JSON.null ∧
    stopWithoutIdRequest.Method ≠ "initialized" ∧
    handleRequest (exampleServer (remoteData (JSON.obj [("stopExperimentRuns", JSON.null)])))
      stopWithoutIdRequest
      = Handled.panic "interface conversion: interface {} is nil, not bool" := by
  refine ⟨rfl, by decide, rfl⟩

/-! ## Validation before the remote call -/

/-- A handler that fails before its call has issued no call. -/
theorem rejectsWith_fail (msg : String) : rejectsWith (Run.fail msg) msg :=
  ⟨rfl, rfl⟩

/-- Claim C26. For each of the nine handlers that validate required arguments
(`get_chaos_experiment`, `run_chaos_experiment`, `stop_chaos_experiment`,
`get_experiment_run_details`, `get_infrastructure_details`, `create_environment`,
`create_resilience_probe`, `get_chaos_faults`, `register_chaos_infrastructure`) and each
of its validations, in the order the handler makes them: when the validation fails, the
handler returns the validation error and the number of remote calls it has made is
zero. -/
theorem validation_failure_makes_no_call (s : LitmusChaosServer) (args : GoMap) :
    (getStringFromArgs args "experimentId" "" = "" →
      rejectsWith (getChaosExperiment s args) "experimentId is required" ∧
      rejectsWith (runChaosExperiment s args) "experimentId is required" ∧
      rejectsWith (stopChaosExperiment s args) "experimentId is required") ∧
    (getStringFromArgs args "experimentRunId" "" = "" →
      rejectsWith (getExperimentRunDetails s args) "experimentRunId is required") ∧
    (getStringFromArgs args "infraId" "" = "" →
      rejectsWith (getInfrastructureDetails s args) "infraId is required") ∧
    (getStringFromArgs args "name" "" = "" →
      rejectsWith (createEnvironment s args) "name is required" ∧
      rejectsWith (createResilienceProbe s args) "name is required" ∧
      rejectsWith (registerChaosInfrastructure s args) "name is required") ∧
    (getStringFromArgs args "name" "" ≠ "" → getStringFromArgs args "type" "" = "" →
      rejectsWith (createEnvironment s args) "type is required" ∧
      rejectsWith (createResilienceProbe s args) "type is required") ∧
    (getStringFromArgs args "name" "" ≠ "" → getStringFromArgs args "type" "" ≠ "" →
      getMapFromArgs args "properties" = none →
      rejectsWith (createResilienceProbe s args) "properties are required") ∧
    (getStringFromArgs args "hubId" "" = "" →
      rejectsWith (getChaosFaults s args) "hubId is required") ∧
    (getStringFromArgs args "name" "" ≠ "" →
      getStringFromArgs args "environmentId" s.config.DefaultEnvironmentID = "" →
      rejectsWith (registerChaosInfrastructure s args) "environmentId is required") ∧
    (getStringFromArgs args "name" "" ≠ "" →
      getStringFromArgs args "environmentId" s.config.DefaultEnvironmentID ≠ "" →
      getStringFromArgs args "infraScope" "" = "" →
      rejectsWith (registerChaosInfrastructure s args) "infraScope is required") := by
  refine ⟨?_, ?_, ?_, ?_, ?_, ?_, ?_, ?_, ?_⟩
  · intro h
    refine ⟨?_, ?_, ?_⟩
    · have e : getChaosExperiment s args = Run.fail "experimentId is required" := by
        simp [getChaosExperiment, h]
      rw [e]; exact rejectsWith_fail _
    · have e : runChaosExperiment s args = Run.fail "experimentId is required" := by
        simp [runChaosExperiment, h]
      rw [e]; exact rejectsWith_fail _
    · have e : stopChaosExperiment s args = Run.fail "experimentId is required" := by
        simp [stopChaosExperiment, h]
      rw [e]; exact rejectsWith_fail _
  · intro h
    have e : getExperimentRunDetails s args = Run.fail "experimentRunId is required" := by
      simp [getExperimentRunDetails, h]
    rw [e]; exact rejectsWith_fail _
  · intro h
    have e : getInfrastructureDetails s args = Run.fail "infraId is required" := by
      simp [getInfrastructureDetails, h]
    rw [e]; exact rejectsWith_fail _
  · intro h
    refine ⟨?_, ?_, ?_⟩
    · have e : createEnvironment s args = Run.fail "name is required" := by
        simp [createEnvironment, h]
      rw [e]; exact rejectsWith_fail _
    · have e : createResilienceProbe s args = Run.fail "name is required" := by
        simp [createResilienceProbe, h]
      rw [e]; exact rejectsWith_fail _
    · have e : registerChaosInfrastructure s args = Run.fail "name is required" := by
        simp [registerChaosInfrastructure, h]
      rw [e]; exact rejectsWith_fail _
  · intro hn h
    refine ⟨?_, ?_⟩
    · have e : createEnvironment s args = Run.fail "type is required" := by
        simp [createEnvironment, hn, h]
      rw [e]; exact rejectsWith_fail _
    · have e : createResilienceProbe s args = Run.fail "type is required" := by
        simp [createResilienceProbe, hn, h]
      rw [e]; exact rejectsWith_fail _
  · intro hn ht h
    have e : createResilienceProbe s args = Run.fail "properties are required" := by
      simp [createResilienceProbe, hn, ht, h]
    rw [e]; exact rejectsWith_fail _
  · intro h
    have e : getChaosFaults s args = Run.fail "hubId is required" := by
      simp [getChaosFaults, h]
    rw [e]; exact rejectsWith_fail _
  · intro hn h
    have e : registerChaosInfrastructure s args = Run.fail "environmentId is required" := by
      simp [registerChaosInfrastructure, hn, h]
    rw [e]; exact rejectsWith_fail _
  · intro hn he h
    have e : registerChaosInfrastructure s args = Run.fail "infraScope is required" := by
      simp [registerChaosInfrastructure, hn, he, h]
    rw [e]; exact rejectsWith_fail _

/-- The witness of `validation_failure_makes_no_call`: `create_resilience_probe` called
with a name and a type and without properties makes no remote call. -/
theorem validation_failure_makes_no_call_witness :
    rejectsWith (createResilienceProbe (exampleServer (remoteData JSON.null))
      (some [("name", JSON.str "check"), ("type", JSON.str "cmdProbe")]))
      "properties are required" :=
  (validation_failure_makes_no_call (exampleServer (remoteData JSON.null))
    (some [("name", JSON.str "check"), ("type", JSON.str "cmdProbe")])).2.2.2.2.2.1
    (by decide) (by decide) rfl

/-! ## Probe types outside the switch -/

/-- A probe type outside the four cases of the switch gets no type-specific block. -/
theorem probeProperties_unknown (s : LitmusChaosServer) (probeType : String) (properties : GoMap)
    (ht : probeType ∉ ["httpProbe", "cmdProbe", "k8sProbe", "promProbe"]) :
    probeProperties s probeType properties = none := by
  simp only [List.mem_cons, List.mem_singleton, List.mem_nil_iff, or_false, not_or] at ht
  obtain ⟨h1, h2, h3, h4⟩ := ht
  simp [probeProperties, h1, h2, h3, h4]

/-- Claim C28. `create_resilience_probe` does not check the probe type against the four
known types: for every non-empty type outside `httpProbe`, `cmdProbe`, `k8sProbe`,
`promProbe`, with a non-empty name and a properties object, the handler does not fail
before its call (no validation error), it sends the mutation `AddProbe` once, and the
request sent holds the five common members and none of the four type-specific property
blocks. -/
theorem unknown_probe_type_is_sent (s : LitmusChaosServer) (args : GoMap)
    (props : List (String × JSON))
    (hn : getStringFromArgs args "name" "" ≠ "")
    (ht0 : getStringFromArgs args "type" "" ≠ "")
    (ht : getStringFromArgs args "type" "" ∉ ["httpProbe", "cmdProbe", "k8sProbe", "promProbe"])
    (hp : getMapFromArgs args "properties" = some props) :
    (∀ msg, createResilienceProbe s args ≠ Run.fail msg) ∧
    (createResilienceProbe s args).calls
      = [graphqlRequestBody s "AddProbe" (some [("request",
          JSON.obj (createResilienceProbeRequest s args (getStringFromArgs args "name" "")
            (getStringFromArgs args "type" "") (some props)))])] ∧
    createResilienceProbeRequest s args (getStringFromArgs args "name" "")
        (getStringFromArgs args "type" "") (some props)
      = [("name", JSON.str (getStringFromArgs args "name" "")),
         ("description", JSON.str (getStringFromArgs args "description" "")),
         ("type", JSON.str (getStringFromArgs args "type" "")),
         ("infrastructureType", JSON.str "Kubernetes"),
         ("tags", JSON.ofStrings (tagsFromArgs s args))] ∧
    (∀ key, key ∈ probeBlockKeys →
      lookupMember key (createResilienceProbeRequest s args (getStringFromArgs args "name" "")
        (getStringFromArgs args "type" "") (some props)) = none) := by
  have hreq : createResilienceProbeRequest s args (getStringFromArgs args "name" "")
        (getStringFromArgs args "type" "") (some props)
      = [("name", JSON.str (getStringFromArgs args "name" "")),
         ("description", JSON.str (getStringFromArgs args "description" "")),
         ("type", JSON.str (getStringFromArgs args "type" "")),
         ("infrastructureType", JSON.str "Kubernetes"),
         ("tags", JSON.ofStrings (tagsFromArgs s args))] := by
    simp only [createResilienceProbeRequest, probeProperties_unknown s _ (some props) ht]
  have hcalls : (createResilienceProbe s args).calls
      = [graphqlRequestBody s "AddProbe" (some [("request",
          JSON.obj (createResilienceProbeRequest s args (getStringFromArgs args "name" "")
            (getStringFromArgs args "type" "") (some props)))])] := by
    simp [createResilienceProbe, hn, ht0, hp, singleCall]
  refine ⟨?_, hcalls, hreq, ?_⟩
  · intro msg h
    have hc := congrArg Run.calls h
    rw [hcalls] at hc
    simp [Run.fail] at hc
  · intro key hk
    rw [hreq]
    simp only [probeBlockKeys, List.mem_cons, List.mem_singleton, List.mem_nil_iff,
      or_false] at hk
    rcases hk with h | h | h | h <;> subst h <;> simp [lookupMember]

/-- The witness of `unknown_probe_type_is_sent`: a probe of the type `grpcProbe`. -/
theorem unknown_probe_type_is_sent_witness :
    (∀ msg, createResilienceProbe (exampleServer (remoteData JSON.null)) unknownProbeArgs
      ≠ Run.fail msg) ∧
    (createResilienceProbe (exampleServer (remoteData JSON.null)) unknownProbeArgs).calls
      = [{ Query := "AddProbe"
           Variables := [("request", JSON.obj [
               ("name", JSON.str "check"),
               ("description", JSON.str ""),
               ("type", JSON.str "grpcProbe"),
               ("infrastructureType", JSON.str "Kubernetes"),
               ("tags", JSON.ofStrings [])]),
             ("projectID", JSON.str "project-1")] }] :=
  ⟨(unknown_probe_type_is_sent (exampleServer (remoteData JSON.null)) unknownProbeArgs
      [("timeout", JSON.str "10s")] (by decide) (by decide) (by decide) rfl).1,
   rfl⟩

/-! ## Optional request variables -/

/-- The string accessor with the empty default is non-empty exactly on a non-empty
string. -/
theorem getStringFromArgs_ne_empty (args : GoMap) (key : String) :
    getStringFromArgs args key "" ≠ "" ↔ nonEmptyString args key := by
  unfold nonEmptyString getStringFromArgs
  constructor
  · intro h
    split at h
    · next str hl => exact ⟨str, h, hl⟩
    · exact absurd rfl h
  · rintro ⟨v, hv, hl⟩
    simp [hl, hv]

/-- The string accessor on a stored string. -/
theorem getStringFromArgs_stored (args : GoMap) (key d v : String)
    (h : mapLookup args key = some (JSON.str v)) : getStringFromArgs args key d = v := by
  simp [getStringFromArgs, h]

/-- The variables sent hold, under every key but `projectID`, what the handler stored. -/
theorem sent_variables (s : LitmusChaosServer) (query key : String) (vars : List (String × JSON))
    (h : key ≠ "projectID") :
    lookupMember key (graphqlRequestBody s query (some vars)).Variables = lookupMember key vars := by
  simp only [graphqlRequestBody, Option.getD_some]
  exact lookupMember_mapSet_other _ _ _ _ h

/-- The variables hold `request` exactly when the request map is not empty. -/
theorem optionalRequest_lookup (request : List (String × JSON)) :
    (request ≠ [] → lookupMember "request" (optionalRequest request) = some (JSON.obj request)) ∧
    (request = [] → lookupMember "request" (optionalRequest request) = none) := by
  constructor
  · intro h
    have hl : request.length > 0 := List.length_pos.mpr h
    simp only [optionalRequest, if_pos hl]
    exact lookupMember_mapSet_same _ _ _
  · intro h
    subst h
    simp [optionalRequest, lookupMember]

/-- The request map of `listChaosInfrastructures`, member by member. -/
theorem listChaosInfrastructuresRequest_members (args : GoMap) :
    (listChaosInfrastructuresRequest args ≠ [] ↔
      (getStringFromArgs args "environmentId" "" ≠ "" ∨ getStringFromArgs args "status" "" ≠ "")) ∧
    lookupMember "filter" (listChaosInfrastructuresRequest args)
      = (if getStringFromArgs args "status" "" ≠ "" then
          some (JSON.obj [("isActive",
            JSON.bool (decide (getStringFromArgs args "status" "" = "Active")))])
         else none) ∧
    lookupMember "environmentIDs" (listChaosInfrastructuresRequest args)
      = (if getStringFromArgs args "environmentId" "" ≠ "" then
          some (JSON.ofStrings [getStringFromArgs args "environmentId" ""])
         else none) := by
  by_cases he : getStringFromArgs args "environmentId" "" = "" <;>
  by_cases hs : getStringFromArgs args "status" "" = "" <;>
  simp [listChaosInfrastructuresRequest, he, hs, mapSet, lookupMember]

/-- Claim C29. For `list_chaos_infrastructures` and every argument object: the handler
sends the query `ListInfras` once; the variables sent hold a `request` key if and only
if `environmentId` or `status` is a non-empty string; when `status` is a non-empty string
the request holds a `filter` whose `isActive` is true exactly when the status is
`Active`, compared case-sensitively, and false for every other value, and otherwise no
`filter`; `environmentIDs` is present exactly when `environmentId` is a non-empty string
and is then the one-element list holding it. -/
theorem list_infrastructures_variables (s : LitmusChaosServer) (args : GoMap) :
    (listChaosInfrastructures s args).calls
      = [graphqlRequestBody s "ListInfras"
          (some (optionalRequest (listChaosInfrastructuresRequest args)))] ∧
    ((lookupMember "request" (graphqlRequestBody s "ListInfras"
        (some (optionalRequest (listChaosInfrastructuresRequest args)))).Variables).isSome
      ↔ (nonEmptyString args "environmentId" ∨ nonEmptyString args "status")) ∧
    ((nonEmptyString args "environmentId" ∨ nonEmptyString args "status") →
      lookupMember "request" (graphqlRequestBody s "ListInfras"
        (some (optionalRequest (listChaosInfrastructuresRequest args)))).Variables
        = some (JSON.obj (listChaosInfrastructuresRequest args))) ∧
    (∀ v, v ≠ "" → mapLookup args "status" = some (JSON.str v) →
      lookupMember "filter" (listChaosInfrastructuresRequest args)
        = some (JSON.obj [("isActive", JSON.bool (decide (v = "Active")))])) ∧
    (¬ nonEmptyString args "status" →
      lookupMember "filter" (listChaosInfrastructuresRequest args) = none) ∧
    (∀ e, e ≠ "" → mapLookup args "environmentId" = some (JSON.str e) →
      lookupMember "environmentIDs" (listChaosInfrastructuresRequest args)
        = some (JSON.ofStrings [e])) ∧
    (¬ nonEmptyString args "environmentId" →
      lookupMember "environmentIDs" (listChaosInfrastructuresRequest args) = none) := by
  obtain ⟨hne, hf, he⟩ := listChaosInfrastructuresRequest_members args
  have hsent := sent_variables s "ListInfras" "request"
    (optionalRequest (listChaosInfrastructuresRequest args)) (by decide)
  rw [getStringFromArgs_ne_empty, getStringFromArgs_ne_empty] at hne
  refine ⟨by simp [listChaosInfrastructures, singleCall], ?_, ?_, ?_, ?_, ?_, ?_⟩
  · rw [hsent]
    constructor
    · intro h
      by_contra hcon
      have hnil : listChaosInfrastructuresRequest args = [] := by
        by_contra hx
        exact hcon (hne.mp hx)
      rw [(optionalRequest_lookup _).2 hnil] at h
      simp at h
    · intro h
      rw [(optionalRequest_lookup _).1 (hne.mpr h)]
      rfl
  · intro h
    rw [hsent]
    exact (optionalRequest_lookup _).1 (hne.mpr h)
  · intro v hv hl
    have hg := getStringFromArgs_stored args "status" "" v hl
    rw [hf, hg, if_pos hv]
  · intro h
    rw [hf, if_neg]
    rw [getStringFromArgs_ne_empty]
    exact h
  · intro e hv hl
    have hg := getStringFromArgs_stored args "environmentId" "" e hl
    rw [he, hg, if_pos hv]
  · intro h
    rw [he, if_neg]
    rw [getStringFromArgs_ne_empty]
    exact h

/-- The witness of `list_infrastructures_variables`: the status `active`, in lower case,
gives a filter with `isActive` false. -/
theorem list_infrastructures_variables_witness :
    lookupMember "filter" (listChaosInfrastructuresRequest lowerCaseStatusArgs)
      = some (JSON.obj [("isActive", JSON.bool false)]) ∧
    lookupMember "environmentIDs" (listChaosInfrastructuresRequest lowerCaseStatusArgs) = none :=
  ⟨(list_infrastructures_variables (exampleServer (remoteData JSON.null))
      lowerCaseStatusArgs).2.2.2.1 "active" (by decide) rfl,
   (list_infrastructures_variables (exampleServer (remoteData JSON.null))
      lowerCaseStatusArgs).2.2.2.2.2.2
      (by rintro ⟨v, _, h⟩; simp [lowerCaseStatusArgs, mapLookup, lookupMember] at h)⟩

/-! ## Stopping an experiment -/

/-- Claim C30. For `stop_chaos_experiment` with a non-empty `experimentId`: the handler
sends the mutation `StopExperimentRuns` once; the variables sent hold `experimentRunID`
if and only if `experimentRunId` is a non-empty string, and then hold that string; and
when the remote service answers with a boolean `b`, the handler returns a result, not an
error, whose `success` is `b` and whose `message` is
`Chaos experiment stopped successfully` when `b` is true and
`Failed to stop chaos experiment` when it is false. -/
theorem stop_experiment_spec (s : LitmusChaosServer) (args : GoMap)
    (hid : getStringFromArgs args "experimentId" "" ≠ "") :
    (stopChaosExperiment s args).calls
      = [graphqlRequestBody s "StopExperimentRuns"
          (some (stopChaosExperimentVariables args (getStringFromArgs args "experimentId" "")))] ∧
    ((lookupMember "experimentRunID" (graphqlRequestBody s "StopExperimentRuns"
        (some (stopChaosExperimentVariables args
          (getStringFromArgs args "experimentId" "")))).Variables).isSome
      ↔ nonEmptyString args "experimentRunId") ∧
    (∀ v, v ≠ "" → mapLookup args "experimentRunId" = some (JSON.str v) →
      lookupMember "experimentRunID" (graphqlRequestBody s "StopExperimentRuns"
        (some (stopChaosExperimentVariables args
          (getStringFromArgs args "experimentId" "")))).Variables = some (JSON.str v)) ∧
    (∀ data result b,
      graphqlRequest s "StopExperimentRuns"
        (some (stopChaosExperimentVariables args (getStringFromArgs args "experimentId" "")))
        = Except.ok data →
      decodeData data = Outcome.ok result →
      mapIndex result "stopExperimentRuns" = JSON.bool b →
      (stopChaosExperiment s args).out = Outcome.ok (textResult s (JSON.obj [
        ("success", JSON.bool b),
        ("message", JSON.str (if b = true then "Chaos experiment stopped successfully"
          else "Failed to stop chaos experiment")),
        ("experimentId", JSON.str (getStringFromArgs args "experimentId" "")),
        ("experimentRunId", JSON.str (getStringFromArgs args "experimentRunId" ""))]))) := by
  have hsent := sent_variables s "StopExperimentRuns" "experimentRunID"
    (stopChaosExperimentVariables args (getStringFromArgs args "experimentId" "")) (by decide)
  have hvars : lookupMember "experimentRunID"
      (stopChaosExperimentVariables args (getStringFromArgs args "experimentId" ""))
      = (if getStringFromArgs args "experimentRunId" "" ≠ "" then
          some (JSON.str (getStringFromArgs args "experimentRunId" "")) else none) := by
    by_cases hr : getStringFromArgs args "experimentRunId" "" = "" <;>
    simp [stopChaosExperimentVariables, hr, mapSet, lookupMember]
  refine ⟨by simp [stopChaosExperiment, hid, singleCall], ?_, ?_, ?_⟩
  · rw [hsent, hvars, ← getStringFromArgs_ne_empty]
    by_cases hr : getStringFromArgs args "experimentRunId" "" = "" <;> simp [hr]
  · intro v hv hl
    have hg := getStringFromArgs_stored args "experimentRunId" "" v hl
    rw [hsent, hvars, hg, if_pos hv]
  · intro data result b hg hd hb
    simp only [stopChaosExperiment, if_neg hid, singleCall, hg, hd, Outcome.bind, hb, assertBool]
    rfl

/-- The witness of `stop_experiment_spec`: the remote service answers `false` to the stop
of the run `run-7`. -/
theorem stop_experiment_spec_witness :
    (stopChaosExperiment
      (exampleServer (remoteData (JSON.obj [("stopExperimentRuns", JSON.bool false)])))
      stopRunArgs).out
      = Outcome.ok (textResult
          (exampleServer (remoteData (JSON.obj [("stopExperimentRuns", JSON.bool false)])))
          (JSON.obj [
            ("success", JSON.bool false),
            ("message", JSON.str "Failed to stop chaos experiment"),
            ("experimentId", JSON.str "exp-1"),
            ("experimentRunId", JSON.str "run-7")])) :=
  (stop_experiment_spec
    (exampleServer (remoteData (JSON.obj [("stopExperimentRuns", JSON.bool false)])))
    stopRunArgs (by decide)).2.2.2
    (some (JSON.obj [("stopExperimentRuns", JSON.bool false)]))
    (some [("stopExperimentRuns", JSON.bool false)]) false rfl rfl rfl

/-! ## The category filter of `get_chaos_faults` -/

/-- A loop that has built a list over a non-empty input has built its head and its tail. -/
theorem forRange_cons_ok {α β : Type} (f : α → Outcome β) (x : α) (xs : List α) (kept : List β)
    (h : forRange f (x :: xs) = Outcome.ok kept) :
    ∃ y ys, f x = Outcome.ok y ∧ forRange f xs = Outcome.ok ys ∧ kept = y :: ys := by
  cases hf : f x with
  | ok y =>
    cases hr : forRange f xs with
    | ok ys =>
      simp only [forRange, hf, hr] at h
      injection h with h
      exact ⟨y, ys, rfl, rfl, h.symm⟩
    | error msg => simp only [forRange, hf, hr] at h; cases h
    | panic msg => simp only [forRange, hf, hr] at h; cases h
  | error msg => simp only [forRange, hf] at h; cases h
  | panic msg => simp only [forRange, hf] at h; cases h

/-- A property of every result of the last step is a property of every result of the
sequence. -/
theorem Outcome.bind_result {α β : Type} (P : β → Prop) (x : Outcome α) (f : α → Outcome β)
    (h : ∀ a r, f a = Outcome.ok r → P r) : ∀ r, x.bind f = Outcome.ok r → P r := by
  intro r hr
  cases x with
  | ok a => exact h a r hr
  | error msg => cases hr
  | panic msg => cases hr

/-- A result that is an object with a given name. -/
theorem named_result (name : String) (members : List (String × JSON))
    (h : lookupMember "name" members = some (JSON.str name)) :
    ∀ r, Outcome.ok (some (JSON.obj members)) = Outcome.ok r →
      ∃ found, r = some (JSON.obj found) ∧ lookupMember "name" found = some (JSON.str name) := by
  intro r hr
  injection hr with hr
  exact ⟨members, hr.symm, h⟩

/-- A sequence that returns a result has run both of its parts. -/
theorem Outcome.bind_eq_ok {α β : Type} (x : Outcome α) (f : α → Outcome β) (r : β)
    (h : x.bind f = Outcome.ok r) : ∃ a, x = Outcome.ok a ∧ f a = Outcome.ok r := by
  cases x with
  | ok a => exact ⟨a, rfl, h⟩
  | error msg => cases h
  | panic msg => cases h

/-- The map assertion succeeds on objects only. -/
theorem assertMap_eq_ok (v : JSON) (m : GoMap) (h : assertMap v = Outcome.ok m) :
    ∃ kvs, v = JSON.obj kvs ∧ m = some kvs := by
  cases v <;> simp [assertMap] at h
  exact ⟨_, rfl, h.symm⟩

/-- The string assertion succeeds on strings only. -/
theorem assertString_eq_ok (v : JSON) (t : String) (h : assertString v = Outcome.ok t) :
    v = JSON.str t := by
  cases v <;> simp [assertString] at h
  rw [h]

/-- A one-valued index that reads a value other than nil has found it in the map. -/
theorem mapIndex_found (members : List (String × JSON)) (key : String) (v : JSON)
    (h : mapIndex (some members) key = v) (hv : v ≠ JSON.null) :
    lookupMember key members = some v := by
  simp only [mapIndex, mapLookup] at h
  cases hl : lookupMember key members with
  | none => rw [hl] at h; exact absurd h.symm hv
  | some w => rw [hl] at h; exact congrArg some h

/-- What one iteration of the loop of `getChaosFaults` returns: nothing for a category
whose name does not match, and an object with that name for one whose name matches. -/
theorem formatCategory_result (s : LitmusChaosServer) (category : String) (cat : JSON)
    (r : Option JSON) (h : formatCategory s category cat = Outcome.ok r) :
    ∃ name, categoryNameOf cat = some name ∧
      ((categoryMatches s category name = false ∧ r = none) ∨
       (categoryMatches s category name = true ∧
         ∃ members, r = some (JSON.obj members) ∧
           lookupMember "name" members = some (JSON.str name))) := by
  unfold formatCategory at h
  simp only [Outcome.bind_eq] at h
  obtain ⟨categoryMap, h1, ha⟩ := Outcome.bind_eq_ok _ _ _ h
  obtain ⟨metadata, h2, hb⟩ := Outcome.bind_eq_ok _ _ _ ha
  obtain ⟨spec, h3, hc⟩ := Outcome.bind_eq_ok _ _ _ hb
  obtain ⟨name, h4, hd⟩ := Outcome.bind_eq_ok _ _ _ hc
  clear h ha hb hc
  obtain ⟨members, hcat, hcm⟩ := assertMap_eq_ok _ _ h1
  subst hcat
  subst hcm
  obtain ⟨md, hmd, hmeta⟩ := assertMap_eq_ok _ _ h2
  subst hmeta
  have hname := assertString_eq_ok _ _ h4
  have hlm := mapIndex_found members "metadata" _ hmd (by intro hx; cases hx)
  have hln := mapIndex_found md "name" _ hname (by intro hx; cases hx)
  refine ⟨name, by simp [categoryNameOf, hlm, hln], ?_⟩
  by_cases hc : categoryMatches s category name = true
  · right
    refine ⟨hc, ?_⟩
    rw [if_pos hc] at hd
    revert hd
    revert r
    simp only [Outcome.bind_eq, Outcome.pure_eq]
    repeat (first
      | exact named_result _ _ (by simp [lookupMember])
      | (apply Outcome.bind_result; intro _)
      | split)
  · left
    rw [if_neg hc] at hd
    injection hd with hd
    exact ⟨by simpa using hc, hd.symm⟩

/-- A loop whose body returns on every entry returns. -/
theorem forRange_total {α β : Type} (f : α → Outcome β) (xs : List α)
    (h : ∀ x, x ∈ xs → ∃ y, f x = Outcome.ok y) : ∃ ys, forRange f xs = Outcome.ok ys := by
  induction xs with
  | nil => exact ⟨[], rfl⟩
  | cons x xs ih =>
    obtain ⟨y, hy⟩ := h x (List.mem_cons_self x xs)
    obtain ⟨ys, hys⟩ := ih (fun z hz => h z (List.mem_cons_of_mem x hz))
    exact ⟨y :: ys, by simp only [forRange, hy, hys]⟩

/-- The members of a well-shaped category. -/
theorem wellShapedCategory_shape (cat : JSON) (h : wellShapedCategory cat = true) :
    ∃ members md sp name, cat = JSON.obj members ∧
      mapIndex (some members) "metadata" = JSON.obj md ∧
      mapIndex (some members) "spec" = JSON.obj sp ∧
      mapIndex (some md) "name" = JSON.str name ∧
      (mapIndex (some md) "annotations" = JSON.null ∨
        ∃ ann, mapIndex (some md) "annotations" = JSON.obj ann) ∧
      (mapIndex (some sp) "faults" = JSON.null ∨
        ∃ faults, mapIndex (some sp) "faults" = JSON.arr faults ∧
          faults.all JSON.isObject = true) := by
  unfold wellShapedCategory at h
  split at h
  · next members =>
    split at h
    · next md sp hm hs =>
      simp only [Bool.and_eq_true] at h
      obtain ⟨⟨hn, ha⟩, hf⟩ := h
      refine ⟨members, md, sp, ?_⟩
      split at hn
      · next name hname =>
        refine ⟨name, rfl, by simp [mapIndex, mapLookup, hm], by simp [mapIndex, mapLookup, hs],
          by simp [mapIndex, mapLookup, hname], ?_, ?_⟩
        · split at ha
          · next hx => left; simp [mapIndex, mapLookup, hx]
          · next hx => left; simp [mapIndex, mapLookup, hx]
          · next ann hx => right; exact ⟨ann, by simp [mapIndex, mapLookup, hx]⟩
          · cases ha
        · split at hf
          · next hx => left; simp [mapIndex, mapLookup, hx]
          · next hx => left; simp [mapIndex, mapLookup, hx]
          · next faults hx => right; exact ⟨faults, by simp [mapIndex, mapLookup, hx], hf⟩
          · cases hf
      · cases hn
    · cases h
  · cases h

/-- The loop body of `getChaosFaults` returns on every well-shaped category. -/
theorem formatCategory_total (s : LitmusChaosServer) (category : String) (cat : JSON)
    (h : wellShapedCategory cat = true) : ∃ r, formatCategory s category cat = Outcome.ok r := by
  obtain ⟨members, md, sp, name, hcat, hm, hs, hn, ha, hf⟩ := wellShapedCategory_shape cat h
  subst hcat
  unfold formatCategory
  simp only [Outcome.bind_eq, Outcome.pure_eq, assertMap, Outcome.bind_ok, hm, hs, hn,
    assertString]
  by_cases hc : categoryMatches s category name = true
  · rw [if_pos hc]
    have hfaults : ∀ faults : List JSON, faults.all JSON.isObject = true →
        ∃ built, forRange (fun fault => (assertMap fault).bind fun faultMap =>
          Outcome.ok (JSON.obj [
            ("name", mapIndex faultMap "name"),
            ("displayName", mapIndex faultMap "displayName"),
            ("description", mapIndex faultMap "description")])) faults = Outcome.ok built := by
      intro faults hall
      apply forRange_total
      intro x hx
      have hobj := List.all_eq_true.mp hall x hx
      cases x <;> simp [JSON.isObject] at hobj
      exact ⟨_, rfl⟩
    rcases ha with ha | ⟨ann, ha⟩ <;> rcases hf with hf | ⟨faults, hf, hall⟩
    · simp only [ha, hf, Outcome.bind_ok]
      exact ⟨_, rfl⟩
    · obtain ⟨built, hb⟩ := hfaults faults hall
      simp only [ha, hf, Outcome.bind_ok, assertSlice, assertMap] at hb ⊢
      simp only [hb, Outcome.bind_ok]
      exact ⟨_, rfl⟩
    · simp only [ha, hf, Outcome.bind_ok]
      exact ⟨_, rfl⟩
    · obtain ⟨built, hb⟩ := hfaults faults hall
      simp only [ha, hf, Outcome.bind_ok, assertSlice, assertMap] at hb ⊢
      simp only [hb, Outcome.bind_ok]
      exact ⟨_, rfl⟩
  · rw [if_neg hc]
    exact ⟨none, rfl⟩

/-- The entries the loop of `getChaosFaults` keeps are, in input order, the entries of the
categories whose name contains the requested category; and every category it has gone
through has a name. -/
theorem categories_filtered (s : LitmusChaosServer) (category : String) :
    ∀ (cats : List JSON) (kept : List (Option JSON)),
      forRange (formatCategory s category) cats = Outcome.ok kept →
      List.Forall₂ (outputOfCategory s category) (cats.filter (nameContains s category))
        (kept.filterMap id) ∧
      ∀ cat, cat ∈ cats → ∃ name, categoryNameOf cat = some name := by
  intro cats
  induction cats with
  | nil =>
    intro kept h
    simp only [forRange] at h
    injection h with h
    subst h
    exact ⟨List.Forall₂.nil, fun cat hc => absurd hc (List.not_mem_nil cat)⟩
  | cons x xs ih =>
    intro kept h
    obtain ⟨y, ys, hy, hys, hk⟩ := forRange_cons_ok _ x xs kept h
    subst hk
    obtain ⟨ihf, ihn⟩ := ih ys hys
    obtain ⟨name, hname, hcase⟩ := formatCategory_result s category x y hy
    have hnc : nameContains s category x = categoryMatches s category name := by
      simp [nameContains, hname, categoryMatches]
    refine ⟨?_, ?_⟩
    · rcases hcase with ⟨hc, hnone⟩ | ⟨hc, members, hsome, hl⟩
      · subst hnone
        rw [List.filter_cons_of_neg (by rw [hnc, hc]; simp)]
        simpa using ihf
      · subst hsome
        rw [List.filter_cons_of_pos (by rw [hnc, hc])]
        simp only [List.filterMap_cons_some (f := id) rfl]
        exact List.Forall₂.cons ⟨hy, name, members, hname, rfl, hl⟩ ihf
    · intro cat hc
      rcases List.mem_cons.mp hc with hx | hx
      · subst hx; exact ⟨name, hname⟩
      · exact ihn cat hx

/-- The filter of `get_chaos_faults` on the results it returns. For every list of fault
categories the remote service returns: when the handler returns a result, the categories
in it are, in their
original order, the entries of exactly those input categories whose metadata name
contains the requested category as a substring after both are put in lower case, each
entry carrying the name of its category; they are the entries of all the input categories
when the category argument is empty or absent; `totalFaultCategories` is the number of
categories in the result; and the handler does return a result when every input category
has the shape its loop asserts. -/
theorem chaos_faults_filtered (s : LitmusChaosServer) (args : GoMap) (data : RawMessage)
    (result : GoMap) (cats : List JSON)
    (hid : getStringFromArgs args "hubId" "" ≠ "")
    (hg : graphqlRequest s "ListChaosFaults"
      (some [("hubID", JSON.str (getStringFromArgs args "hubId" ""))]) = Except.ok data)
    (hd : decodeData data = Outcome.ok result)
    (hc : mapIndex result "listChaosFaults" = JSON.arr cats) :
    (∀ r, (getChaosFaults s args).out = Outcome.ok r →
      ∃ outputs,
        r = textResult s (JSON.obj [
          ("hubId", JSON.str (getStringFromArgs args "hubId" "")),
          ("totalFaultCategories", JSON.ofInt outputs.length),
          ("faultCategories", JSON.arr outputs)]) ∧
        List.Forall₂ (outputOfCategory s (getStringFromArgs args "category" ""))
          (cats.filter (nameContains s (getStringFromArgs args "category" ""))) outputs) ∧
    (∀ r, (getChaosFaults s args).out = Outcome.ok r →
      getStringFromArgs args "category" "" = "" →
      cats.filter (nameContains s (getStringFromArgs args "category" "")) = cats) ∧
    (∀ cat, nameContains s (getStringFromArgs args "category" "") cat = true ↔
      ∃ name, categoryNameOf cat = some name ∧
        (getStringFromArgs args "category" "" = "" ∨
          (s.rt.toLower (getStringFromArgs args "category" "")).data
            <:+: (s.rt.toLower name).data)) ∧
    ((∀ cat, cat ∈ cats → wellShapedCategory cat = true) →
      ∃ r, (getChaosFaults s args).out = Outcome.ok r) := by
  have hout : (getChaosFaults s args).out
      = (forRange (formatCategory s (getStringFromArgs args "category" "")) cats).bind
          (fun kept => Outcome.ok (textResult s (JSON.obj [
            ("hubId", JSON.str (getStringFromArgs args "hubId" "")),
            ("totalFaultCategories", JSON.ofInt (kept.filterMap id).length),
            ("faultCategories", JSON.arr (kept.filterMap id))]))) := by
    simp only [getChaosFaults, if_neg hid, singleCall, hg, hd, Outcome.bind_ok, Outcome.bind_eq,
      Outcome.pure_eq, hc, assertSlice]
  refine ⟨?_, ?_, ?_, ?_⟩
  · intro r hr
    rw [hout] at hr
    obtain ⟨kept, hk, hr⟩ := Outcome.bind_eq_ok _ _ _ hr
    injection hr with hr
    exact ⟨kept.filterMap id, hr.symm, (categories_filtered s _ cats kept hk).1⟩
  · intro r hr hempty
    rw [hout] at hr
    obtain ⟨kept, hk, _⟩ := Outcome.bind_eq_ok _ _ _ hr
    rw [List.filter_eq_self]
    intro cat hcat
    obtain ⟨name, hname⟩ := (categories_filtered s _ cats kept hk).2 cat hcat
    simp [nameContains, hname, hempty]
  · intro cat
    cases hname : categoryNameOf cat with
    | none => simp [nameContains, hname]
    | some name => simp [nameContains, hname, stringsContains]
  · intro hall
    obtain ⟨kept, hk⟩ := forRange_total (formatCategory s (getStringFromArgs args "category" ""))
      cats (fun cat hcat => formatCategory_total s _ cat (hall cat hcat))
    rw [hout, hk]
    exact ⟨_, rfl⟩

/-- The witness of `chaos_faults_filtered`: of the categories `Pod-Faults`, `node` and
`pod-network`, the request for `POD` returns the first and the third. -/
theorem chaos_faults_filtered_witness :
    (∃ r, (getChaosFaults (exampleServer faultsRemote) podFaultsArgs).out = Outcome.ok r) ∧
    (∀ r, (getChaosFaults (exampleServer faultsRemote) podFaultsArgs).out = Outcome.ok r →
      ∃ outputs,
        r = textResult (exampleServer faultsRemote) (JSON.obj [
          ("hubId", JSON.str "hub-1"),
          ("totalFaultCategories", JSON.ofInt outputs.length),
          ("faultCategories", JSON.arr outputs)]) ∧
        List.Forall₂ (outputOfCategory (exampleServer faultsRemote) "POD")
          [podCategory, networkCategory] outputs) :=
  ⟨(chaos_faults_filtered (exampleServer faultsRemote) podFaultsArgs
      (some (JSON.obj [("listChaosFaults", JSON.arr hubCategories)]))
      (some [("listChaosFaults", JSON.arr hubCategories)]) hubCategories
      (by decide) rfl rfl rfl).2.2.2 (by decide),
   (chaos_faults_filtered (exampleServer faultsRemote) podFaultsArgs
      (some (JSON.obj [("listChaosFaults", JSON.arr hubCategories)]))
      (some [("listChaosFaults", JSON.arr hubCategories)]) hubCategories
      (by decide) rfl rfl rfl).1⟩

/-- Claim C27, the failing input. The tool `get_chaos_faults` asked for the category `pod`
while the remote service lists the one category `{"metadata": {"name": "pod"}}`: the
metadata name of that category contains the requested category, so the claim has it in
the output; the handler returns no output at all, because the loop panics in the
unchecked assertion of the absent `spec` member to a map. -/
theorem chaos_faults_panics_on_category_without_spec :
    [categoryWithoutSpec].filter
        (nameContains (exampleServer (remoteData JSON.null)) "pod") = [categoryWithoutSpec] ∧
    (getChaosFaults
      (exampleServer (remoteData (JSON.obj [("listChaosFaults", JSON.arr [categoryWithoutSpec])])))
      podArgs).out
      = Outcome.panic "interface conversion: interface {} is nil, not map[string]interface {}" ∧
    handleRequest
      (exampleServer (remoteData (JSON.obj [("listChaosFaults", JSON.arr [categoryWithoutSpec])])))
      (callRequest "get_chaos_faults"
        (JSON.obj [("hubId", JSON.str "hub-1"), ("category", JSON.str "pod")]))
      = Handled.panic "interface conversion: interface {} is nil, not map[string]interface {}" :=
  ⟨rfl, rfl, rfl⟩

end LitmusMCP
